import Mathlib

/-!
# grm: context-propagated transactions and connection acquisition

A shallow embedding of the transaction manager, the connection acquisition and the query
functions of the `grm` package (`dao.go`, `dataSource.go`, `logger.go`, `paginator.go`).

* Go pointers to `dbConnection` are addresses into a heap carried by `World`.
* The SQL driver (`database/sql`) and the log writer are external; their answers are
  given by an oracle (`Driver`) that sees the history of driver calls.
* Every call of a handle method and every driver call is recorded in `World.trace`
  (a ghost log used only to state temporal properties).
* A Go panic is the `Outcome.panic` constructor.
-/

namespace Grm

/-! ## Values -/

/-- Go `error` values: the package sentinel `errDBConn`, or any other error with its message.
A possibly-nil `error` is an `Option GoError`. -/
inductive GoError where
  | errDBConn
  | errorsNew (msg : String)
  deriving DecidableEq, Repr

/-- The text of `errDBConn` (dao.go:1428). -/
def errDBConnMsg : String :=
  "更新操作需要使用grm.Transaction开启事务.  读取操作如果ctx没有dbConn,使用FuncReadWriteStrategy(rwType).newDBConn(),如果dbConn有事务,就使用事务查询"

/-- The method `Error()` of a Go error. -/
def GoError.Error : GoError → String
  | .errDBConn => errDBConnMsg
  | .errorsNew msg => msg

/-- A Go `interface{}` value; `nil` is the nil interface. -/
inductive GoValue where
  | nil
  | int (i : Int)
  | str (s : String)
  deriving DecidableEq, Repr

/-- What `panic` carries: an `error` (this includes runtime errors) or any other value,
given by its `%v` rendering. -/
inductive PanicValue where
  | err (e : GoError)
  | value (rendered : String)
  deriving DecidableEq, Repr

/-- The result of running Go code that may panic. -/
inductive Outcome (α : Type) where
  | ret (a : α)
  | panic (v : PanicValue)
  deriving DecidableEq, Repr

/-- The runtime error of a nil pointer dereference. -/
def nilDeref : PanicValue :=
  .err (.errorsNew "runtime error: invalid memory address or nil pointer dereference")

/-- Identity of an `*sql.DB`. -/
abbrev DBId := Nat
/-- Identity of an `*sql.Tx`. -/
abbrev TxId := Nat
/-- Address of a `dbConnection`. -/
abbrev ConnPtr := Nat

/-- The type `sql.TxOptions`. -/
structure TxOptions where
  Isolation : Int
  ReadOnly : Bool
  deriving DecidableEq, Repr

/-- The type `DBConfig` (dataSource.go:19). `Driver` is the field dao.go reads as
`cfg.Driver`. The callback `SeataGlobalTx` is not used by the code modelled here. -/
structure DBConfig where
  DSN : String
  DriverName : String
  DBType : String
  Driver : String
  ShowSQL : Bool
  MaxOpenConns : Int
  MaxIdleConns : Int
  MaxLifetime : Int
  Tag : String
  DefaultTxOptions : Option TxOptions
  SQLDB : Option DBId
  deriving DecidableEq, Repr

/-- The type `dataSource` (dataSource.go:12): the embedded `*sql.DB`. -/
structure dataSource where
  DB : Option DBId
  deriving DecidableEq, Repr

/-- The type `DBDao` (dao.go:59). -/
structure DBDao where
  config : Option DBConfig
  dataSource : Option dataSource
  deriving DecidableEq, Repr

/-- The type `dbConnection` (dataSource.go:121); `none` is a nil pointer. -/
structure dbConnection where
  db : Option DBId
  tx : Option TxId
  cfg : Option DBConfig
  deriving DecidableEq, Repr

/-! ## Contexts -/

/-- Keys of `context.WithValue`: the two private keys of the package, and foreign keys. -/
inductive CtxKey where
  | ctxConnKey
  | ctxTxOptKey
  | foreign (name : String)
  deriving DecidableEq, Repr

/-- A (non-nil) interface value stored in a context: a `*dbConnection` (possibly a nil
pointer), a `*sql.TxOptions` (possibly a nil pointer), or a value of another type. -/
inductive CtxValue where
  | conn (p : Option ConnPtr)
  | txOpts (o : Option TxOptions)
  | foreign (v : String)
  deriving DecidableEq, Repr

/-- A non-nil `context.Context`: immutable, built by `context.WithValue`. -/
inductive Context where
  | background
  | withValue (parent : Context) (key : CtxKey) (val : CtxValue)
  deriving DecidableEq, Repr

/-- The method `ctx.Value(key)`: the innermost binding of `key`, `none` when there is none. -/
def Context.Value : Context → CtxKey → Option CtxValue
  | .background, _ => none
  | .withValue parent key val, k => if key = k then some val else parent.Value k

/-- The function `context.WithValue` on a possibly-nil parent. Go panics on a nil parent; the
code below reaches it only after `getDBConn` has accepted the context, so the nil case is
never taken. -/
def WithValue (parent : Option Context) (key : CtxKey) (val : CtxValue) : Option Context :=
  parent.map (fun c => Context.withValue c key val)

/-! ## World, trace and driver -/

/-- The argument list and text of a statement sent to the driver. -/
structure Statement where
  sql : String
  args : List GoValue
  deriving DecidableEq, Repr

/-- Trace entries: calls of the handle's transaction methods, and calls into the driver
together with the driver's answer (`none` is a nil error). -/
inductive Event where
  | callBeginTx (p : ConnPtr)
  | callRollback (p : ConnPtr)
  | callCommit (p : ConnPtr)
  | driverBegin (db : DBId) (opts : Option TxOptions) (tx : TxId) (err : Option GoError)
  | driverRollback (tx : TxId) (err : Option GoError)
  | driverCommit (tx : TxId) (err : Option GoError)
  | driverExec (tx : Option TxId) (db : Option DBId) (stmt : Statement)
  | driverQuery (tx : Option TxId) (db : Option DBId) (stmt : Statement)
  | driverQueryRow (tx : Option TxId) (db : Option DBId) (stmt : Statement)
  | rowsClose
  deriving DecidableEq, Repr

/-- The mutable state: the heap of handles, the next free address, the trace, the lines
handed to the logger, and the package variable `defaultDao`. -/
structure World where
  heap : ConnPtr → dbConnection
  next : ConnPtr
  trace : List Event
  logged : List String
  defaultDao : Option DBDao

/-- Append one entry to the trace. -/
def World.emit (w : World) (e : Event) : World :=
  { w with trace := w.trace ++ [e] }

/-- Store a handle at an address. -/
def World.store (w : World) (p : ConnPtr) (c : dbConnection) : World :=
  { w with heap := fun q => if q = p then c else w.heap q }

/-- What `(*sql.Result).RowsAffected` and `LastInsertId` answer. -/
structure SqlResult where
  RowsAffected : Except GoError Int
  LastInsertId : Except GoError Int

/-- The name and declared native type of a result column (`sql.ColumnType`). -/
structure ColumnType where
  Name : String
  DatabaseTypeName : String
  deriving DecidableEq, Repr

/-- One row of a cursor: the values `Scan` stores into generic holders, and `Scan`'s error. -/
structure RawRow where
  values : List GoValue
  scanErr : Option GoError

/-- A cursor (`*sql.Rows`): the answer of `ColumnTypes()` and the rows `Next()` walks. -/
structure Rows where
  ColumnTypes : Except GoError (List ColumnType)
  data : List RawRow

/-- The external collaborators. Each answer may depend on the history of calls.
`BeginTx`, `Rollback`, `Commit` answer with the error (`none` = success);
`logWrite` is what the writer behind `log.Output` answers. -/
structure Driver where
  BeginTx : List Event → DBId → Option TxOptions → Option GoError
  Rollback : List Event → TxId → Option GoError
  Commit : List Event → TxId → Option GoError
  Exec : List Event → Statement → Except GoError SqlResult
  Query : List Event → Statement → Except GoError Rows
  QueryRowScan : List Event → Statement → Except GoError Int
  logWrite : List String → String → Option GoError

/-- The environment of a run: the driver and the package variables
`FuncReadWriteStrategy` (dao.go:27), `LogErr` (logger.go:16) and `LogSQL` (logger.go:17).
The two logging functions act on the log only. -/
structure Env where
  driver : Driver
  FuncReadWriteStrategy : World → Int → Option DBDao
  LogErr : List String → String → Option GoError × List String
  LogSQL : List String → String → List GoValue → List String

/-- The function `getDefaultDao` (dao.go:86), the initial value of `FuncReadWriteStrategy`. -/
def getDefaultDao (w : World) (_rwType : Int) : Option DBDao :=
  w.defaultDao

/-- The variable `LogDepth` (logger.go:15). -/
def LogDepth : Int := 4

/-- The function `log.Output`: hands the line to the writer and returns the writer's error. -/
def logOutput (d : Driver) (_calldepth : Int) (s : String) (logged : List String) :
    Option GoError × List String :=
  (d.logWrite logged s, logged ++ [s])

/-- The function `logErr` (logger.go:21), the initial value of `LogErr`:
`return log.Output(LogDepth, err)`. -/
def logErr (d : Driver) (logged : List String) (err : String) : Option GoError × List String :=
  logOutput d LogDepth err logged

/-- The `%v` rendering of a value. -/
def GoValue.render : GoValue → String
  | .nil => "<nil>"
  | .int i => toString i
  | .str s => s

/-- The function `logSQL` (logger.go:26), the initial value of `LogSQL`. A nil argument slice
is the empty list; an empty slice that is not nil is not told apart from it, so the line
`sql: ... ,args: []` that Go prints for one is not produced. -/
def logSQL (d : Driver) (logged : List String) (sqlStr : String) (args : List GoValue) :
    List String :=
  if args ≠ [] then
    (logOutput d LogDepth
      ("sql: " ++ sqlStr ++ " ,args: [" ++ " ".intercalate (args.map GoValue.render) ++ "]\n")
      logged).2
  else (logOutput d LogDepth ("sql:" ++ sqlStr) logged).2

/-- A call `LogSQL(sqlStr, args)` in a world. -/
def callLogSQL (env : Env) (stmt : Statement) (w : World) : World :=
  { w with logged := env.LogSQL w.logged stmt.sql stmt.args }

/-- A call `LogErr(msg)` in a world. -/
def callLogErr (env : Env) (msg : String) (w : World) : Option GoError × World :=
  ((env.LogErr w.logged msg).1, { w with logged := (env.LogErr w.logged msg).2 })

/-! ## dataSource.go: the handle's transaction methods -/

/-- The method `dbConnection.beginTx` (dataSource.go:137). -/
def beginTx (env : Env) (p : ConnPtr) (ctx : Option Context) (w : World) :
    Outcome (Option GoError) × World :=
  let w0 := w.emit (.callBeginTx p)
  let dbConn := w0.heap p
  match dbConn.tx with
  | none =>
    match ctx with
    | none => (.panic nilDeref, w0)
    | some c =>
      let resolved : Outcome (Option TxOptions) :=
        match c.Value .ctxTxOptKey with
        | some (.txOpts o) => .ret o
        | some _ => .ret none
        | none =>
          match dbConn.cfg with
          | none => .panic nilDeref
          | some cfg => .ret cfg.DefaultTxOptions
      match resolved with
      | .panic v => (.panic v, w0)
      | .ret txOptions =>
        match dbConn.db with
        | none => (.panic nilDeref, w0)
        | some db =>
          let tx : TxId := w0.trace.length
          match env.driver.BeginTx w0.trace db txOptions with
          | some err =>
            (.ret (some (.errorsNew ("beginTx事务开启失败: " ++ err.Error))),
              w0.emit (.driverBegin db txOptions tx (some err)))
          | none =>
            (.ret none,
              (w0.emit (.driverBegin db txOptions tx none)).store p { dbConn with tx := some tx })
  | some _ => (.ret none, w0)

/-- The method `dbConnection.rollback` (dataSource.go:164). -/
def rollback (env : Env) (p : ConnPtr) (w : World) : Option GoError × World :=
  let w0 := w.emit (.callRollback p)
  let dbConn := w0.heap p
  match dbConn.tx with
  | some tx =>
    match env.driver.Rollback w0.trace tx with
    | some err =>
      (some (.errorsNew ("rollback事务回滚失败: " ++ err.Error)),
        w0.emit (.driverRollback tx (some err)))
    | none =>
      (none, (w0.emit (.driverRollback tx none)).store p { dbConn with tx := none })
  | none => (none, w0)

/-- The method `dbConnection.commit` (dataSource.go:179). -/
def commit (env : Env) (p : ConnPtr) (w : World) : Option GoError × World :=
  let w0 := w.emit (.callCommit p)
  let dbConn := w0.heap p
  match dbConn.tx with
  | none => (some (.errorsNew "commit事务为空"), w0)
  | some tx =>
    match env.driver.Commit w0.trace tx with
    | some err =>
      (some (.errorsNew ("commit事务提交失败: " ++ err.Error)),
        w0.emit (.driverCommit tx (some err)))
    | none =>
      (none, (w0.emit (.driverCommit tx none)).store p { dbConn with tx := none })

/-! ## dao.go: connection acquisition -/

/-- The method `DBDao.newDBConn` (dao.go:96): a new handle with the dao's pool and config. -/
def newDBConn (dbDao : Option DBDao) (w : World) : (Option ConnPtr × Option GoError) × World :=
  match dbDao with
  | none => ((none, some (.errorsNew "请不要自己创建dbDao,使用NewDao方法进行创建")), w)
  | some d =>
    match d.dataSource with
    | none => ((none, some (.errorsNew "请不要自己创建dbDao,使用NewDao方法进行创建")), w)
    | some ds =>
      ((some w.next, none),
        { w.store w.next { db := ds.DB, tx := none, cfg := d.config } with next := w.next + 1 })

/-- The function `getDBConn` (dao.go:1409). -/
def getDBConn (ctx : Option Context) : Option ConnPtr × Option GoError :=
  match ctx with
  | none => (none, some (.errorsNew "getDBConn context不能为空"))
  | some c =>
    match c.Value .ctxConnKey with
    | none => (none, none)
    | some (.conn dbConn) => (dbConn, none)
    | some _ => (none, some (.errorsNew "getDBConn context传递了错误的*DBConnection类型值"))

/-- The function `checkDBConn` (dao.go:1434). Returns `(ctx, dbConn, err)`. -/
def checkDBConn (env : Env) (ctx : Option Context) (hasTx : Bool) (rwType : Int) (w : World) :
    (Option Context × Option ConnPtr × Option GoError) × World :=
  match getDBConn ctx with
  | (_, some err) => ((ctx, none, some err), w)
  | (none, none) =>
    if hasTx then ((ctx, none, some .errDBConn), w)
    else
      match newDBConn (env.FuncReadWriteStrategy w rwType) w with
      | ((_, some err), w1) => ((ctx, none, some err), w1)
      | ((dbConn, none), w1) => ((WithValue ctx .ctxConnKey (.conn dbConn), dbConn, none), w1)
  | (some p, none) =>
    if (w.heap p).db = none then ((ctx, some p, some .errDBConn), w)
    else if (w.heap p).tx = none ∧ hasTx = true then ((ctx, some p, some .errDBConn), w)
    else ((ctx, some p, none), w)

/-! ## dao.go: Transaction -/

/-- A business function `func(ctx context.Context) (interface{}, error)`: it may change the
world, return `(info, err)`, or panic. -/
abbrev WorkFn := Option Context → World → Outcome (GoValue × Option GoError) × World

/-- The deferred function of `Transaction` (dao.go:205) after `recover()` returned `r`:
log the fault, roll back, log a rollback failure. Nothing is re-raised, so `Transaction`
then returns the zero values of its unnamed results. -/
def recovered (env : Env) (p : ConnPtr) (r : PanicValue) (w : World) : World :=
  let w1 :=
    match r with
    | .err err => (callLogErr env ("recover: " ++ err.Error) w).2
    | .value rendered => (callLogErr env ("recover error: " ++ rendered) w).2
  match rollback env p w1 with
  | (some err, w2) => (callLogErr env ("recover内事务回滚失败 " ++ err.Error) w2).2
  | (none, w2) => w2

/-- The part of `Transaction` from the call of the business function on (dao.go:233-258),
with the deferred function in force. -/
def runWork (env : Env) (p : ConnPtr) (localTxOpen : Bool) (ctx : Option Context)
    (doTransaction : WorkFn) (w : World) : Outcome (GoValue × Option GoError) × World :=
  match doTransaction ctx w with
  | (.panic r, w1) => (.ret (.nil, none), recovered env p r w1)
  | (.ret (info, some err), w1) =>
    let w3 :=
      match rollback env p w1 with
      | (some rbErr, w2) =>
        (callLogErr env ("Transaction-->rollback事务回滚失败 " ++ rbErr.Error) w2).2
      | (none, w2) => w2
    let r := callLogErr env ("Transaction-->doTransaction业务执行异常: " ++ err.Error) w3
    (.ret (info, r.1), r.2)
  | (.ret (info, none), w1) =>
    if localTxOpen then
      match commit env p w1 with
      | (some commitError, w2) =>
        let r := callLogErr env ("Transaction-->commit事务提交失败 " ++ commitError.Error) w2
        (.ret (info, r.1), r.2)
      | (none, w2) => (.ret (info, none), w2)
    else (.ret (info, none), w1)

/-- The function `Transaction` (dao.go:179). -/
def Transaction (env : Env) (ctx : Option Context) (doTransaction : WorkFn) (w : World) :
    Outcome (GoValue × Option GoError) × World :=
  match checkDBConn env ctx false 1 w with
  | ((_, _, some checkErr), w1) => (.ret (.nil, some checkErr), w1)
  | ((_, none, none), w1) => (.panic nilDeref, w1)
  | ((ctx1, some p, none), w1) =>
    match (w1.heap p).tx with
    | none =>
      match beginTx env p ctx1 w1 with
      | (.panic v, w2) => (.panic v, w2)
      | (.ret (some beginErr), w2) =>
        let r := callLogErr env ("Transaction start error: " ++ beginErr.Error) w2
        (.ret (.nil, r.1), r.2)
      | (.ret none, w2) => runWork env p true ctx1 doTransaction w2
    | some _ => runWork env p false ctx1 doTransaction w1



/-! ## dataSource.go: statements -/

/-- The method `dbConnection.execCtx` (dataSource.go:195). Returns the `sql.Result` behind
the returned pointer (`none` is a nil interface) and the error. -/
def execCtx (env : Env) (p : ConnPtr) (stmt : Statement) (w : World) :
    Outcome (Option SqlResult × Option GoError) × World :=
  match (w.heap p).cfg with
  | none => (.panic nilDeref, w)
  | some cfg =>
    let w1 := if cfg.ShowSQL then callLogSQL env stmt w else w
    let answer : Option SqlResult × Option GoError :=
      match env.driver.Exec w1.trace stmt with
      | .ok r => (some r, none)
      | .error e => (none, some e)
    match (w1.heap p).tx with
    | some tx => (.ret answer, w1.emit (.driverExec (some tx) (w1.heap p).db stmt))
    | none =>
      match (w1.heap p).db with
      | none => (.panic nilDeref, w1)
      | some db => (.ret answer, w1.emit (.driverExec none (some db) stmt))

/-- The method `dbConnection.queryRowCtx` (dataSource.go:213) followed by `Scan` into an
`*int64`: the scanned value or the error. -/
def queryRowCtx (env : Env) (p : ConnPtr) (stmt : Statement) (w : World) :
    Outcome (Except GoError Int) × World :=
  match (w.heap p).cfg with
  | none => (.panic nilDeref, w)
  | some cfg =>
    let w1 := if cfg.ShowSQL then callLogSQL env stmt w else w
    match (w1.heap p).tx with
    | some tx =>
      (.ret (env.driver.QueryRowScan w1.trace stmt),
        w1.emit (.driverQueryRow (some tx) (w1.heap p).db stmt))
    | none =>
      match (w1.heap p).db with
      | none => (.panic nilDeref, w1)
      | some db =>
        (.ret (env.driver.QueryRowScan w1.trace stmt),
          w1.emit (.driverQueryRow none (some db) stmt))

/-- The method `dbConnection.queryCtx` (dataSource.go:228). -/
def queryCtx (env : Env) (p : ConnPtr) (stmt : Statement) (w : World) :
    Outcome (Except GoError Rows) × World :=
  match (w.heap p).cfg with
  | none => (.panic nilDeref, w)
  | some cfg =>
    let w1 := if cfg.ShowSQL then callLogSQL env stmt w else w
    match (w1.heap p).tx with
    | some tx =>
      (.ret (env.driver.Query w1.trace stmt),
        w1.emit (.driverQuery (some tx) (w1.heap p).db stmt))
    | none =>
      match (w1.heap p).db with
      | none => (.panic nilDeref, w1)
      | some db =>
        (.ret (env.driver.Query w1.trace stmt), w1.emit (.driverQuery none (some db) stmt))

/-! ## paginator.go -/

/-- Go `int` arithmetic wraps around at 64 bits. -/
def wrapInt (x : Int) : Int :=
  (x + 2 ^ 63) % 2 ^ 64 - 2 ^ 63

/-- The type `Page` (paginator.go:4). -/
structure Page where
  PageNo : Int
  PageSize : Int
  TotalCount : Int
  PageCount : Int
  FirstPage : Bool
  HasPrev : Bool
  HasNext : Bool
  LastPage : Bool
  deriving DecidableEq, Repr

/-- The function `NewPage` (paginator.go:16). -/
def NewPage : Page where
  PageNo := 1
  PageSize := 20
  TotalCount := 0
  PageCount := 0
  FirstPage := false
  HasPrev := false
  HasNext := false
  LastPage := false

/-- The method `Page.setTotalCount` (paginator.go:24): the page after the call, and a panic
when the division is by zero (the assignment of `TotalCount` has then taken place). -/
def Page.setTotalCount (page : Page) (total : Int) : Outcome Unit × Page :=
  let page1 := { page with TotalCount := total }
  if page1.PageSize = 0 then
    (.panic (.err (.errorsNew "runtime error: integer divide by zero")), page1)
  else
    let page2 :=
      { page1 with
        PageCount :=
          wrapInt (Int.tdiv (wrapInt (wrapInt (page1.TotalCount + page1.PageSize) - 1))
            page1.PageSize) }
    let page3 :=
      if page2.PageNo ≥ page2.PageCount then { page2 with LastPage := true }
      else { page2 with HasNext := true }
    let page4 :=
      if page3.PageNo > 1 then { page3 with HasPrev := true }
      else { page3 with FirstPage := true }
    (.ret (), page4)

/-! ## dao.go: statements -/

/-- Modelled from the spec: the type `Finder`, whose declaration is not among the source
files. Section 6 of the spec: SQL text with `?` placeholders, ordered parameters, an optional
precomputed count statement, and a flag requesting total-count computation; dao.go reads the
fields `values`, `SelectTotalCount` and `CountFinder`. -/
inductive Finder where
  | mk (sqlText : String) (values : List GoValue) (SelectTotalCount : Bool)
      (CountFinder : Option Finder)

/-- The field `finder.values`. -/
def Finder.values : Finder → List GoValue
  | .mk _ values _ _ => values

/-- The field `finder.SelectTotalCount`. -/
def Finder.SelectTotalCount : Finder → Bool
  | .mk _ _ flag _ => flag

/-- The field `finder.CountFinder`. -/
def Finder.CountFinder : Finder → Option Finder
  | .mk _ _ _ countFinder => countFinder

/-- A row materialised as `map[string]interface{}`, as the list of its entries. -/
abbrev RowMap := List (String × GoValue)

/-- Functions and variables of the package that dao.go uses and that are declared in files
not at hand; they are parameters of the model. Each returns what the Go function returns.
`CustomDriverValueMapLen` is `len(CustomDriverValueMap)`; `queryMapRowCustom` is the body of
the row loop of `QueryMap` when that registry is not empty (reflection over the driver's raw
values): the row's map, or the message the body hands to `LogErr`. -/
structure Lib where
  GetSQL : Finder → String × Option GoError
  wrapQuerySQL : String → Finder → Option Page → String × Option GoError
  reBindSQL : String → String → String × Option GoError
  reUpdateFinderSQL : String → String → String × Option GoError
  typeConvertInt64toInt : Int → Int × Option GoError
  convertValueColumnType : GoValue → ColumnType → GoValue
  CustomDriverValueMapLen : Nat
  queryMapRowCustom : Finder → List ColumnType → RawRow → Except String RowMap

/-- What `wrapExecUpdateValuesAffected` leaves behind: the returned `*sql.Result` (`none` is
a nil pointer, `some none` a pointer to a nil interface), the returned error, and the values
of `*affected` and `*lastInsertID` after the call. -/
structure ExecOut where
  res : Option (Option SqlResult)
  err : Option GoError
  affected : Int
  lastInsertID : Option Int

/-- The function `wrapExecUpdateValuesAffected` (dao.go:1474). `affected` is the value of
`*affected` at the call; `lastInsertID` is `none` for a nil pointer. -/
def wrapExecUpdateValuesAffected (env : Env) (lib : Lib) (ctx : Option Context) (affected : Int)
    (sqlStr : String) (values : List GoValue) (lastInsertID : Option Int) (w : World) :
    Outcome ExecOut × World :=
  match checkDBConn env ctx true 1 w with
  | ((_, _, some err), w1) =>
    (.ret { res := none, err := some err, affected := affected, lastInsertID := lastInsertID },
      w1)
  | ((_, none, none), w1) => (.panic nilDeref, w1)
  | ((_, some p, none), w1) =>
    match (w1.heap p).cfg with
    | none => (.panic nilDeref, w1)
    | some cfg =>
      match lib.reUpdateFinderSQL cfg.Driver sqlStr with
      | (_, some err) =>
        let r := callLogErr env
          ("wrapExecUpdateValuesAffected-->reUpdateFinderSQL获取SQL语句错误 " ++ err.Error) w1
        (.ret { res := none, err := r.1, affected := affected, lastInsertID := lastInsertID },
          r.2)
      | (sqlStr1, none) =>
        match lastInsertID with
        | some _ =>
          match queryRowCtx env p { sql := sqlStr1, args := values } w1 with
          | (.panic v, w2) => (.panic v, w2)
          | (.ret (.ok id), w2) =>
            (.ret { res := none, err := none, affected := 1, lastInsertID := some id }, w2)
          | (.ret (.error err), w2) =>
            (.ret { res := none, err := some err, affected := affected,
                    lastInsertID := lastInsertID }, w2)
        | none =>
          match execCtx env p { sql := sqlStr1, args := values } w1 with
          | (.panic v, w2) => (.panic v, w2)
          | (.ret (res, some err), w2) =>
            (.ret { res := some res, err := some err, affected := affected,
                    lastInsertID := none }, w2)
          | (.ret (none, none), w2) => (.panic nilDeref, w2)
          | (.ret (some r, none), w2) =>
            match r.RowsAffected with
            | .ok rowsAffected =>
              (.ret { res := some (some r), err := (lib.typeConvertInt64toInt rowsAffected).2,
                      affected := (lib.typeConvertInt64toInt rowsAffected).1,
                      lastInsertID := none }, w2)
            | .error _ =>
              (.ret { res := some (some r), err := none, affected := -1, lastInsertID := none },
                w2)

/-- The driver name an operation resolves before building its statement
(`dao.go:894-901` and its copies): the default dao's when no handle is bound, else the
handle's. -/
def resolveDriver (env : Env) (dbConn : Option ConnPtr) (rwType : Int) (w : World) :
    Outcome String :=
  match dbConn with
  | none =>
    match env.FuncReadWriteStrategy w rwType with
    | none => .panic nilDeref
    | some dao =>
      match dao.config with
      | none => .panic nilDeref
      | some cfg => .ret cfg.Driver
  | some p =>
    match (w.heap p).cfg with
    | none => .panic nilDeref
    | some cfg => .ret cfg.Driver

/-- The test `dbConn != nil && dbConn.db == nil` (dao.go:890 and its copies): a handle that
was not built by `newDBConn`. -/
def isFabricated (dbConn : Option ConnPtr) (w : World) : Bool :=
  match dbConn with
  | some p => decide ((w.heap p).db = none)
  | none => false

/-- The function `UpdateFinder` (dao.go:871). Returns `(affected, err)`. -/
def UpdateFinder (env : Env) (lib : Lib) (ctx : Option Context) (finder : Option Finder)
    (w : World) : Outcome (Int × Option GoError) × World :=
  match finder with
  | none => (.ret (-1, some (.errorsNew "UpdateFinder-->finder不能为空")), w)
  | some f =>
    match lib.GetSQL f with
    | (_, some err) =>
      let r := callLogErr env ("UpdateFinder-->finder.GetSQL()错误: " ++ err.Error) w
      (.ret (-1, r.1), r.2)
    | (sqlStr, none) =>
      match getDBConn ctx with
      | (_, some err) => (.ret (-1, some err), w)
      | (dbConn, none) =>
        if isFabricated dbConn w then (.ret (-1, some .errDBConn), w)
        else
          match resolveDriver env dbConn 1 w with
          | .panic v => (.panic v, w)
          | .ret drv =>
            match lib.reBindSQL drv sqlStr with
            | (_, some err) =>
              let r := callLogErr env ("UpdateFinder-->reBindSQL获取SQL语句错误: " ++ err.Error) w
              (.ret (-1, r.1), r.2)
            | (sqlStr1, none) =>
              match wrapExecUpdateValuesAffected env lib ctx (-1) sqlStr1 f.values none w with
              | (.panic v, w1) => (.panic v, w1)
              | (.ret out, w1) =>
                match out.err with
                | some err =>
                  (.ret (out.affected, some err),
                    (callLogErr env
                      ("UpdateFinder-->wrapExecUpdateValuesAffected执行更新错误 " ++ err.Error)
                      w1).2)
                | none => (.ret (out.affected, none), w1)

/-- The body of the row loop of `QueryMap` (dao.go:757-850) when no custom conversion is
registered: scan into generic holders, convert each by its column type, name it by its
column. The error case carries the message handed to `LogErr`. -/
def queryMapRow (lib : Lib) (columnTypes : List ColumnType) (row : RawRow) :
    Except String RowMap :=
  match row.scanErr with
  | some scanErr => .error ("QueryMap-->rows.Scan异常 " ++ scanErr.Error)
  | none =>
    .ok ((columnTypes.zip row.values).map
      (fun cv => (cv.1.Name, lib.convertValueColumnType cv.2 cv.1)))

/-- The row loop of `QueryMap` (dao.go:757): the maps in result order, or the message of the
first failing row. -/
def queryMapRows (lib : Lib) (finder : Finder) (columnTypes : List ColumnType) :
    List RawRow → List RowMap → Except String (List RowMap)
  | [], resultMapList => .ok resultMapList
  | row :: rest, resultMapList =>
    match (if lib.CustomDriverValueMapLen > 0 then lib.queryMapRowCustom finder columnTypes row
           else queryMapRow lib columnTypes row) with
    | .error msg => .error msg
    | .ok result => queryMapRows lib finder columnTypes rest (resultMapList ++ [result])

/-- The callee `selectCount(ctx, finder)` as seen by its callers: `(count, err)`. -/
abbrev SelectCountFn := Option Context → Finder → World → Outcome (Int × Option GoError) × World

/-- The function `QueryMap` (dao.go:693). Returns `(resultMapList, err)` and the page after
the call; `selectCount` is the callee of that name. -/
def QueryMap (env : Env) (lib : Lib) (selectCount : SelectCountFn) (ctx : Option Context)
    (finder : Option Finder) (page : Option Page) (w : World) :
    Outcome (Option (List RowMap) × Option GoError) × Option Page × World :=
  match finder with
  | none => (.ret (none, some (.errorsNew "QueryMap-->finder参数不能为nil")), page, w)
  | some f =>
    match getDBConn ctx with
    | (_, some errFromCtx) => (.ret (none, some errFromCtx), page, w)
    | (dbConn, none) =>
      if isFabricated dbConn w then
        (.ret (none, some .errDBConn), page, w)
      else
        match resolveDriver env dbConn 0 w with
        | .panic v => (.panic v, page, w)
        | .ret drv =>
          match lib.wrapQuerySQL drv f page with
          | (_, some err) =>
            let r := callLogErr env ("QueryMap -->wrapQuerySQL查询SQL语句错误: " ++ err.Error) w
            (.ret (none, r.1), page, r.2)
          | (sqlStr, none) =>
            match checkDBConn env ctx false 0 w with
            | ((_, _, some err), w1) => (.ret (none, some err), page, w1)
            | ((_, none, none), w1) => (.panic nilDeref, page, w1)
            | ((ctx1, some p, none), w1) =>
              match queryCtx env p { sql := sqlStr, args := f.values } w1 with
              | (.panic v, w2) => (.panic v, page, w2)
              | (.ret (.error e), w2) =>
                let r := callLogErr env ("QueryMap-->queryCtx查询rows错误 " ++ e.Error) w2
                (.ret (none, r.1), page, r.2)
              | (.ret (.ok rows), w2) =>
                match rows.ColumnTypes with
                | .error cne =>
                  let r := callLogErr env
                    ("QueryMap-->rows.ColumnTypes数据库返回列名错误 " ++ cne.Error) w2
                  (.ret (none, r.1), page, r.2.emit .rowsClose)
                | .ok columnTypes =>
                  match queryMapRows lib f columnTypes rows.data [] with
                  | .error msg =>
                    let r := callLogErr env msg w2
                    (.ret (none, r.1), page, r.2.emit .rowsClose)
                  | .ok resultMapList =>
                    match page with
                    | some pg =>
                      if f.SelectTotalCount then
                        match selectCount ctx1 f w2 with
                        | (.panic v, w3) => (.panic v, page, w3.emit .rowsClose)
                        | (.ret (_, some countErr), w3) =>
                          let r := callLogErr env
                            ("QueryMap-->selectCount查询总条数错误 " ++ countErr.Error) w3
                          (.ret (some resultMapList, r.1), page, r.2.emit .rowsClose)
                        | (.ret (count, none), w3) =>
                          match pg.setTotalCount count with
                          | (.panic v, pg1) => (.panic v, some pg1, w3.emit .rowsClose)
                          | (.ret _, pg1) =>
                            (.ret (some resultMapList, none), some pg1, w3.emit .rowsClose)
                      else (.ret (some resultMapList, none), page, w2.emit .rowsClose)
                    | none => (.ret (some resultMapList, none), page, w2.emit .rowsClose)

/-! ## Sequences of handle operations -/

/-- The three operations that drive a handle's transaction. -/
inductive HandleOp where
  | opBeginTx (ctx : Option Context)
  | opCommit
  | opRollback

/-- Run one operation on the handle at `p`. -/
def HandleOp.run (env : Env) (p : ConnPtr) : HandleOp → World → Outcome (Option GoError) × World
  | .opBeginTx ctx, w => beginTx env p ctx w
  | .opCommit, w => (.ret (commit env p w).1, (commit env p w).2)
  | .opRollback, w => (.ret (rollback env p w).1, (rollback env p w).2)

/-- An operation succeeded when it returned a nil error. -/
def succeeded : Outcome (Option GoError) → Bool
  | .ret none => true
  | _ => false

/-- Run operations, each on the handle it names, in order. -/
def runOps (env : Env) : List (ConnPtr × HandleOp) → World → World
  | [], w => w
  | (q, op) :: rest, w => runOps env rest (op.run env q w).2

/-- The operations of a run, each with the handle it was applied to and whether it
succeeded. -/
def runLog (env : Env) : List (ConnPtr × HandleOp) → World → List (ConnPtr × HandleOp × Bool)
  | [], _ => []
  | (q, op) :: rest, w =>
    (q, op, succeeded (op.run env q w).1) :: runLog env rest (op.run env q w).2

/-- The spec's words for a handle's transaction: open exactly between a successful begin and
the next successful commit or rollback on that handle. `isOpen` is the state before the
listed operations. -/
def betweenBeginAndEnd (p : ConnPtr) : List (ConnPtr × HandleOp × Bool) → Bool → Bool
  | [], isOpen => isOpen
  | (q, op, ok) :: rest, isOpen =>
    betweenBeginAndEnd p rest
      (if q = p ∧ ok = true then
        (match op with
          | .opBeginTx _ => true
          | _ => false)
       else isOpen)

/-! ## Counting trace entries -/

/-- Whether a trace entry is a call of the driver's `Tx.Commit`. -/
def Event.isDriverCommit : Event → Bool
  | .driverCommit _ _ => true
  | _ => false

/-- Whether a trace entry is a call of the driver's `Tx.Rollback`. -/
def Event.isDriverRollback : Event → Bool
  | .driverRollback _ _ => true
  | _ => false

/-- Whether a trace entry is a call of the driver's `DB.BeginTx`. -/
def Event.isDriverBegin : Event → Bool
  | .driverBegin _ _ _ _ => true
  | _ => false

/-- Whether a trace entry is a statement sent to the driver. -/
def Event.isStatement : Event → Bool
  | .driverExec _ _ _ => true
  | .driverQuery _ _ _ => true
  | .driverQueryRow _ _ _ => true
  | _ => false

/-- Whether a trace entry is a call of `dbConnection.commit`, on any handle. -/
def Event.isCallCommit : Event → Bool
  | .callCommit _ => true
  | _ => false

/-- Whether a trace entry is a call of `dbConnection.beginTx`, on any handle. -/
def Event.isCallBeginTx : Event → Bool
  | .callBeginTx _ => true
  | _ => false

/-- Calls of `commit` in a trace, on any handle. -/
def commitCalls (t : List Event) : Nat :=
  t.countP Event.isCallCommit

/-- Calls of `rollback` on the handle at `p` in a trace. -/
def rollbackCalls (p : ConnPtr) (t : List Event) : Nat :=
  t.count (.callRollback p)

/-- Calls of the driver's `Tx.Commit` in a trace. -/
def driverCommits (t : List Event) : Nat :=
  t.countP Event.isDriverCommit

/-- Calls of the driver's `Tx.Rollback` in a trace. -/
def driverRollbacks (t : List Event) : Nat :=
  t.countP Event.isDriverRollback

/-! ## dao.go: binding a context -/

/-- The method `DBDao.BindCtxDBConn` (dao.go:108). -/
def BindCtxDBConn (dbDao : Option DBDao) (parent : Option Context) (w : World) :
    (Option Context × Option GoError) × World :=
  match parent with
  | none => ((none, some (.errorsNew "BindCtxDBConn context的parent不能为nil")), w)
  | some _ =>
    match newDBConn dbDao w with
    | ((_, some errConn), w1) => ((parent, some errConn), w1)
    | ((dbConn, none), w1) => ((WithValue parent .ctxConnKey (.conn dbConn), none), w1)

/-- The method `DBDao.BindCtxTxOptions` (dao.go:122); the receiver is not used. -/
def BindCtxTxOptions (_dbDao : Option DBDao) (parent : Option Context)
    (txOptions : Option TxOptions) : Option Context × Option GoError :=
  match parent with
  | none => (none, some (.errorsNew "BindCtxTxOptions context的parent不能为nil"))
  | some _ => (WithValue parent .ctxTxOptKey (.txOpts txOptions), none)

/-! ## dao.go: reading rows -/

/-- What an `entity` pointer points to: a value of a basic type, or a struct given by its
column fields. -/
inductive Entity where
  | scalar (v : GoValue)
  | struct (fields : List (String × GoValue))
  deriving DecidableEq, Repr

/-- The zero value of the type of a value. -/
def GoValue.zero : GoValue → GoValue
  | .nil => .nil
  | .int _ => .int 0
  | .str _ => .str ""

/-- The zero value of the type of an entity. -/
def Entity.zero : Entity → Entity
  | .scalar v => .scalar v.zero
  | .struct fields => .struct (fields.map (fun f => (f.1, f.2.zero)))

/-- An entry of the registry `CustomDriverValueMap`: the interface
`CustomDriverValueConvert`. `GetDriverValue` returns the temporary receiver (`none` is nil)
and an error; `ConvertDriverValue` receives what the temporary receiver holds after `Scan`
and returns the value for the destination and an error. Both see the destination. -/
structure CustomDriverValueConvert where
  GetDriverValue : ColumnType → Entity → Finder → Option GoValue × Option GoError
  ConvertDriverValue : ColumnType → Entity → GoValue → Finder → GoValue × Option GoError

/-- Functions of the package that the query functions of dao.go use and that are declared in
files not at hand, and the functions `strings.ToLower` of the standard library; they are
parameters of the model. `CustomDriverValueMap` is the lookup in that registry by the dynamic
type of a raw driver value. The three `find...Index` functions return the location they
matched (empty when there is no match), as positions in the text. `NewFinder` and `Append`
build a finder from a statement text. -/
structure QueryLib where
  checkEntityKind : Entity → Option GoError
  getDBColumnExportFieldMap : Entity → Option GoError
  sqlRowsValues : Finder → List ColumnType → RawRow → Entity → Entity × Option GoError
  CustomDriverValueMap : GoValue → Option CustomDriverValueConvert
  findOrderByIndex : String → List Nat
  findGroupByIndex : String → List Nat
  findSelectFromIndex : String → List Nat
  ToLower : String → String
  NewFinder : Finder
  Append : Finder → String → Finder

/-- The assignment `countFinder.values = values`. -/
def Finder.setValues : Finder → List GoValue → Finder
  | .mk sqlText _ flag countFinder, values => .mk sqlText values flag countFinder

/-- How the row loop of a query function ends: falling through with nothing wrong, returning
an error as it is, returning what `LogErr` answers to a message, or panicking. -/
inductive LoopEnd where
  | ok
  | err (e : GoError)
  | logged (msg : String)
  | panic (v : PanicValue)
  deriving DecidableEq, Repr

/-- The runtime error of an index out of range. -/
def outOfRange : PanicValue :=
  .err (.errorsNew "runtime error: index out of range")

/-- The error of `QueryRow` for a second row (dao.go:356, dao.go:426). -/
def errManyRows : GoError :=
  .errorsNew "QueryRow查询出多条数据"

/-- The converter of a raw driver value: looked up only when the registry is not empty
(dao.go:364). -/
def lookupConvert (lib : Lib) (qlib : QueryLib) (dv : GoValue) :
    Option CustomDriverValueConvert :=
  if lib.CustomDriverValueMapLen > 0 then qlib.CustomDriverValueMap dv else none

/-- The single-column loop of `QueryRow` with what follows it (dao.go:353-402): `has`, how
it ends, and the destination afterwards. A raw value `nil` is SQL NULL (dao.go:360); a
successful `Scan` stores the row's value in its receiver. -/
def queryRowScalar (lib : Lib) (qlib : QueryLib) (finder : Finder) (columnType : ColumnType)
    (entity : Entity) : List RawRow → Bool × LoopEnd × Entity
  | [] => (false, .ok, entity)
  | row :: rest =>
    match row.values.head? with
    | none => (true, .panic outOfRange, entity)
    | some dv =>
      if dv = .nil then (true, .ok, entity)
      else
        match lookupConvert lib qlib dv with
        | some convertFunc =>
          match convertFunc.GetDriverValue columnType entity finder with
          | (_, some err) =>
            (true, .logged ("QueryRow-->convert.GetDriverValue异常: " ++ err.Error), entity)
          | (none, none) =>
            match row.scanErr with
            | some err => (true, .logged ("QueryRow-->rows.Scan异常 " ++ err.Error), entity)
            | none =>
              match rest with
              | _ :: _ => (true, .err errManyRows, .scalar dv)
              | [] => (true, .ok, .scalar dv)
          | (some _, none) =>
            match row.scanErr with
            | some err => (true, .logged ("QueryRow-->rows.Scan异常 " ++ err.Error), entity)
            | none =>
              match rest with
              | _ :: _ => (true, .err errManyRows, entity)
              | [] =>
                match convertFunc.ConvertDriverValue columnType entity dv finder with
                | (_, some err) =>
                  (true, .logged ("QueryRow-->convertFunc.ConvertDriverValue异常: " ++ err.Error),
                    entity)
                | (rightValue, none) => (true, .ok, .scalar rightValue)
        | none =>
          match row.scanErr with
          | some err => (true, .logged ("QueryRow-->rows.Scan异常 " ++ err.Error), entity)
          | none =>
            match rest with
            | _ :: _ => (true, .err errManyRows, .scalar dv)
            | [] => (true, .ok, .scalar dv)

/-- The multi-column loop of `QueryRow` (dao.go:423-436). -/
def queryRowStruct (qlib : QueryLib) (finder : Finder) (columnTypes : List ColumnType)
    (entity : Entity) : List RawRow → Bool × LoopEnd × Entity
  | [] => (false, .ok, entity)
  | row :: rest =>
    match qlib.sqlRowsValues finder columnTypes row entity with
    | (entity1, some err) =>
      (true, .logged ("QueryRow-->sqlRowsValues错误 " ++ err.Error), entity1)
    | (entity1, none) =>
      match rest with
      | _ :: _ => (true, .err errManyRows, entity1)
      | [] => (true, .ok, entity1)

/-- Return from a function that holds an open cursor: the returned error, and the deferred
`rows.Close()`. -/
def finishLoop (env : Env) (e : LoopEnd) (w : World) : Outcome (Option GoError) × World :=
  match e with
  | .ok => (.ret none, w.emit .rowsClose)
  | .err e => (.ret (some e), w.emit .rowsClose)
  | .logged msg => (.ret (callLogErr env msg w).1, (callLogErr env msg w).2.emit .rowsClose)
  | .panic v => (.panic v, w.emit .rowsClose)

/-- The part of `QueryRow` that reads the cursor (dao.go:332-436): `(has, err)`, the
destination and the world afterwards. -/
def queryRowRead (env : Env) (lib : Lib) (qlib : QueryLib) (finder : Finder) (entity : Entity)
    (rows : Rows) (w : World) : Outcome (Bool × Option GoError) × Entity × World :=
  match rows.ColumnTypes with
  | .error err =>
    let r := finishLoop env (.logged ("QueryRow-->rows.ColumnTypes数据库类型错误 " ++ err.Error)) w
    (match r.1 with
      | .ret e => .ret (false, e)
      | .panic v => .panic v, entity, r.2)
  | .ok columnTypes =>
    let loop : Bool × LoopEnd × Entity :=
      match columnTypes with
      | [columnType] => queryRowScalar lib qlib finder columnType entity rows.data
      | _ =>
        match qlib.getDBColumnExportFieldMap entity with
        | some dbe =>
          (false, .logged ("QueryRow-->getDBColumnFieldMap获取字段缓存错误 " ++ dbe.Error), entity)
        | none => queryRowStruct qlib finder columnTypes entity rows.data
    let r := finishLoop env loop.2.1 w
    (match r.1 with
      | .ret e => .ret (loop.1, e)
      | .panic v => .panic v, loop.2.2, r.2)

/-- The function `QueryRow` (dao.go:268). Returns `(has, err)` and the destination after
the call. The finder is not nil (the function dereferences it). -/
def QueryRow (env : Env) (lib : Lib) (qlib : QueryLib) (ctx : Option Context) (finder : Finder)
    (entity : Entity) (w : World) : Outcome (Bool × Option GoError) × Entity × World :=
  match qlib.checkEntityKind entity with
  | some checkErr =>
    let r := callLogErr env ("QueryRow-->checkEntityKind类型检查错误 " ++ checkErr.Error) w
    (.ret (false, r.1), entity, r.2)
  | none =>
    match getDBConn ctx with
    | (_, some errFromCtx) => (.ret (false, some errFromCtx), entity, w)
    | (dbConn, none) =>
      if isFabricated dbConn w then (.ret (false, some .errDBConn), entity, w)
      else
        match resolveDriver env dbConn 0 w with
        | .panic v => (.panic v, entity, w)
        | .ret drv =>
          match lib.wrapQuerySQL drv finder none with
          | (_, some err) =>
            let r := callLogErr env ("QueryRow-->wrapQuerySQL: " ++ err.Error) w
            (.ret (false, r.1), entity, r.2)
          | (sqlStr, none) =>
            match checkDBConn env ctx false 0 w with
            | ((_, _, some err), w1) => (.ret (false, some err), entity, w1)
            | ((_, none, none), w1) => (.panic nilDeref, entity, w1)
            | ((_, some p, none), w1) =>
              match queryCtx env p { sql := sqlStr, args := finder.values } w1 with
              | (.panic v, w2) => (.panic v, entity, w2)
              | (.ret (.error err), w2) =>
                let r := callLogErr env ("QueryRow-->queryCtx查询数据库错误: " ++ err.Error) w2
                (.ret (false, r.1), entity, r.2)
              | (.ret (.ok rows), w2) => queryRowRead env lib qlib finder entity rows w2

/-! ## dao.go: counting -/

/-- The Go slice `s[:hi]` of a text; positions count the characters of the text (for ASCII
text these are Go's byte offsets). -/
def strPrefix (s : String) (hi : Nat) : String :=
  ⟨s.data.take hi⟩

/-- The Go slice `s[lo:]` of a text. -/
def strSuffix (s : String) (lo : Nat) : String :=
  ⟨s.data.drop lo⟩

/-- The Go slice `s[lo:hi]` of a text. -/
def strSlice (s : String) (lo hi : Nat) : String :=
  ⟨(s.data.take hi).drop lo⟩

/-- Whether `sub` occurs in `l`, on lists of characters. -/
def containsChars (sub : List Char) : List Char → Bool
  | [] => sub.isEmpty
  | c :: rest => sub.isPrefixOf (c :: rest) || containsChars sub rest

/-- The function `strings.Contains`. -/
def stringsContains (s sub : String) : Bool :=
  containsChars sub.data s.data

/-- The runtime error of a slice bound out of range. -/
def sliceOutOfRange : PanicValue :=
  .err (.errorsNew "runtime error: slice bounds out of range")

/-- The statement with its `ORDER BY` clause cut off (dao.go:1370-1375): the text before
the position `findOrderByIndex` reports, the whole text when it reports none. -/
def stripOrderBy (qlib : QueryLib) (countSql : String) : Outcome String :=
  match qlib.findOrderByIndex countSql with
  | o :: _ => if o ≤ countSql.length then .ret (strPrefix countSql o) else .panic sliceOutOfRange
  | [] => .ret countSql

/-- The test for the special keywords (dao.go:1376-1384) on the statement without its
`ORDER BY` clause. -/
def needsWrap (qlib : QueryLib) (countSql : String) : Bool :=
  stringsContains (qlib.ToLower countSql) " distinct " ||
    stringsContains (qlib.ToLower countSql) " union " ||
    !(qlib.findGroupByIndex countSql).isEmpty

/-- The error of `selectCount` for a statement without `FROM` (dao.go:1391). -/
def errNoFrom : GoError :=
  .errorsNew "selectCount-->findFromIndex没有FROM关键字,语句错误"

/-- The count statement `selectCount` builds from the text of the finder's statement
(dao.go:1370-1394). -/
def countStatement (qlib : QueryLib) (countSql0 : String) : Outcome (Except GoError String) :=
  match stripOrderBy qlib countSql0 with
  | .panic v => .panic v
  | .ret countSql =>
    if needsWrap qlib countSql then
      .ret (.ok ("SELECT COUNT(*)  frame_row_count FROM (" ++ countSql ++
        ") temp_frame_noob_table_name WHERE 1=1 "))
    else
      match qlib.findSelectFromIndex countSql with
      | [] => .ret (.error errNoFrom)
      | f :: _ =>
        if f ≤ countSql.length then .ret (.ok ("SELECT COUNT(*) " ++ strSuffix countSql f))
        else .panic sliceOutOfRange

/-- The value of the Go variable `count` (an `int`, initially -1) after `QueryRow` scanned
into it. -/
def countOf : Entity → Int
  | .scalar (.int c) => c
  | _ => -1

/-- The scalar query that ends `selectCount` (dao.go:1355-1360 and dao.go:1400-1404):
`count := -1`, `QueryRow(ctx, finder, &count)`, and the returned `(count, err)`. -/
def queryCount (env : Env) (lib : Lib) (qlib : QueryLib) (ctx : Option Context)
    (finder : Finder) (w : World) : Outcome (Int × Option GoError) × World :=
  match QueryRow env lib qlib ctx finder (.scalar (.int (-1))) w with
  | (.panic v, _, w1) => (.panic v, w1)
  | (.ret (_, some err), _, w1) => (.ret (-1, some err), w1)
  | (.ret (_, none), count, w1) => (.ret (countOf count, none), w1)

/-- The function `selectCount` (dao.go:1347). Returns `(count, err)`. -/
def selectCount (env : Env) (lib : Lib) (qlib : QueryLib) (ctx : Option Context)
    (finder : Option Finder) (w : World) : Outcome (Int × Option GoError) × World :=
  match finder with
  | none => (.ret (-1, some (.errorsNew "selectCount参数为nil")), w)
  | some f =>
    match f.CountFinder with
    | some countFinder => queryCount env lib qlib ctx countFinder w
    | none =>
      match lib.GetSQL f with
      | (_, some countErr) => (.ret (-1, some countErr), w)
      | (countSql, none) =>
        match countStatement qlib countSql with
        | .panic v => (.panic v, w)
        | .ret (.error err) => (.ret (-1, some err), w)
        | .ret (.ok sql) =>
          queryCount env lib qlib ctx ((qlib.Append qlib.NewFinder sql).setValues f.values) w

/-! ## dao.go: Query -/

/-- The slice behind `rowsSlicePtr`: its elements, the zero value of its element type
(`reflect.New(sliceElementType).Elem()`), and whether its elements are pointers. An element
that is a pointer is given by the value it points to. -/
structure SliceDest where
  elems : List Entity
  elemZero : Entity
  elemIsPtr : Bool
  deriving DecidableEq, Repr

/-- The argument `rowsSlicePtr` of `Query`: nil, not a pointer, a pointer to something that
is not a slice, or a pointer to a slice. -/
inductive RowsSlicePtr where
  | nil
  | notPtr
  | ptrToNonSlice
  | ptrToSlice (s : SliceDest)
  deriving DecidableEq, Repr

/-- The error of `Query` for a destination of the wrong shape (dao.go:448). -/
def errQueryDest : GoError :=
  .errorsNew "Query数组必须是*[]struct类型或者*[]*struct或者基础类型数组的指针"

/-- The single-column loop of `Query` (dao.go:538-603): how it ends and the elements of the
slice afterwards. -/
def queryScalars (lib : Lib) (qlib : QueryLib) (finder : Finder) (columnType : ColumnType)
    (elemZero : Entity) : List RawRow → List Entity → LoopEnd × List Entity
  | [], elems => (.ok, elems)
  | row :: rest, elems =>
    match row.values.head? with
    | none => (.panic outOfRange, elems)
    | some dv =>
      if dv = .nil then
        queryScalars lib qlib finder columnType elemZero rest (elems ++ [elemZero])
      else
        match lookupConvert lib qlib dv with
        | some convertFunc =>
          match convertFunc.GetDriverValue columnType elemZero finder with
          | (_, some err) =>
            (.logged ("Query-->convert.GetDriverValue异常: " ++ err.Error), elems)
          | (tempDriverValue, none) =>
            match row.scanErr with
            | some scanErr => (.logged ("Query-->rows.Scan异常 " ++ scanErr.Error), elems)
            | none =>
              match tempDriverValue with
              | some _ =>
                match convertFunc.ConvertDriverValue columnType elemZero dv finder with
                | (_, some err) =>
                  (.logged ("Query-->convert.ConvertDriverValue异常: " ++ err.Error), elems)
                | (rightValue, none) =>
                  queryScalars lib qlib finder columnType elemZero rest
                    (elems ++ [.scalar rightValue])
              | none =>
                queryScalars lib qlib finder columnType elemZero rest (elems ++ [.scalar dv])
        | none =>
          match row.scanErr with
          | some scanErr => (.logged ("Query-->rows.Scan异常 " ++ scanErr.Error), elems)
          | none =>
            queryScalars lib qlib finder columnType elemZero rest (elems ++ [.scalar dv])

/-- The multi-column loop of `Query` (dao.go:627-650). -/
def queryStructs (qlib : QueryLib) (finder : Finder) (columnTypes : List ColumnType)
    (elemZero : Entity) : List RawRow → List Entity → LoopEnd × List Entity
  | [], elems => (.ok, elems)
  | row :: rest, elems =>
    match qlib.sqlRowsValues finder columnTypes row elemZero with
    | (_, some scanErr) => (.logged ("Query-->sqlRowsValues异常 " ++ scanErr.Error), elems)
    | (pv, none) => queryStructs qlib finder columnTypes elemZero rest (elems ++ [pv])

/-- The end of both paths of `Query` (dao.go:605-614, dao.go:652-661): the total count when
a page asks for it. Returns how the function ends and the page afterwards. -/
def queryTotal (env : Env) (lib : Lib) (qlib : QueryLib) (ctx : Option Context)
    (finder : Finder) (page : Option Page) (w : World) : LoopEnd × Option Page × World :=
  match page with
  | none => (.ok, page, w)
  | some pg =>
    if finder.SelectTotalCount then
      match selectCount env lib qlib ctx (some finder) w with
      | (.panic v, w1) => (.panic v, page, w1)
      | (.ret (_, some countErr), w1) =>
        (.logged ("Query-->selectCount查询总条数错误 " ++ countErr.Error), page, w1)
      | (.ret (count, none), w1) =>
        match pg.setTotalCount count with
        | (.panic v, pg1) => (.panic v, some pg1, w1)
        | (.ret _, pg1) => (.ok, some pg1, w1)
    else (.ok, page, w)

/-- The part of `Query` that reads the cursor (dao.go:520-661): the returned error, the
slice and the page afterwards. -/
def queryRead (env : Env) (lib : Lib) (qlib : QueryLib) (ctx : Option Context) (finder : Finder)
    (s : SliceDest) (page : Option Page) (rows : Rows) (w : World) :
    Outcome (Option GoError) × SliceDest × Option Page × World :=
  match rows.ColumnTypes with
  | .error cte =>
    let r := finishLoop env (.logged ("Query-->rows.ColumnTypes数据库类型错误 " ++ cte.Error)) w
    (r.1, s, page, r.2)
  | .ok columnTypes =>
    let loop : LoopEnd × List Entity :=
      match columnTypes with
      | [columnType] => queryScalars lib qlib finder columnType s.elemZero rows.data s.elems
      | _ =>
        match qlib.getDBColumnExportFieldMap s.elemZero with
        | some dbe =>
          (.logged ("Query-->getDBColumnFieldMap获取字段缓存错误 " ++ dbe.Error), s.elems)
        | none => queryStructs qlib finder columnTypes s.elemZero rows.data s.elems
    match loop.1 with
    | .ok =>
      let total := queryTotal env lib qlib ctx finder page w
      let r := finishLoop env total.1 total.2.2
      (r.1, { s with elems := loop.2 }, total.2.1, r.2)
    | e =>
      let r := finishLoop env e w
      (r.1, { s with elems := loop.2 }, page, r.2)

/-- The function `Query` (dao.go:445). Returns the error, and the destination and the page
after the call. The finder is not nil (the function dereferences it). -/
def Query (env : Env) (lib : Lib) (qlib : QueryLib) (ctx : Option Context) (finder : Finder)
    (rowsSlicePtr : RowsSlicePtr) (page : Option Page) (w : World) :
    Outcome (Option GoError) × RowsSlicePtr × Option Page × World :=
  match rowsSlicePtr with
  | .nil => (.ret (some errQueryDest), rowsSlicePtr, page, w)
  | .notPtr => (.ret (some errQueryDest), rowsSlicePtr, page, w)
  | .ptrToNonSlice => (.ret (some errQueryDest), rowsSlicePtr, page, w)
  | .ptrToSlice s =>
    match getDBConn ctx with
    | (_, some errFromCtx) => (.ret (some errFromCtx), rowsSlicePtr, page, w)
    | (dbConn, none) =>
      if isFabricated dbConn w then (.ret (some .errDBConn), rowsSlicePtr, page, w)
      else
        match resolveDriver env dbConn 0 w with
        | .panic v => (.panic v, rowsSlicePtr, page, w)
        | .ret drv =>
          match lib.wrapQuerySQL drv finder page with
          | (_, some err) =>
            let r := callLogErr env ("Query-->wrapQuerySQL获取查询SQL语句错误: " ++ err.Error) w
            (.ret r.1, rowsSlicePtr, page, r.2)
          | (sqlStr, none) =>
            match checkDBConn env ctx false 0 w with
            | ((_, _, some err), w1) => (.ret (some err), rowsSlicePtr, page, w1)
            | ((_, none, none), w1) => (.panic nilDeref, rowsSlicePtr, page, w1)
            | ((ctx1, some p, none), w1) =>
              match queryCtx env p { sql := sqlStr, args := finder.values } w1 with
              | (.panic v, w2) => (.panic v, rowsSlicePtr, page, w2)
              | (.ret (.error err), w2) =>
                let r := callLogErr env ("Query-->queryCtx查询rows异常 " ++ err.Error) w2
                (.ret r.1, rowsSlicePtr, page, r.2)
              | (.ret (.ok rows), w2) =>
                let r := queryRead env lib qlib ctx1 finder s page rows w2
                (r.1, .ptrToSlice r.2.1, r.2.2.1, r.2.2.2)

/-- The element a row of a single-column cursor contributes to the destination of `Query`,
in the spec's words: the zero value of the element type for a NULL row, the scanned value
for any other row. -/
def rowElement (elemZero : Entity) (row : RawRow) : Entity :=
  match row.values.head? with
  | some (.int i) => .scalar (.int i)
  | some (.str s) => .scalar (.str s)
  | _ => elemZero

/-! ## dao.go: Insert -/

/-- Functions of the package that `Insert` uses and that are declared in files not at hand,
the methods of the entity, and the driver's answer to an output-bound parameter; they are
parameters of the model. `columnAndValue` returns `(columns, values, err)`; `wrapInsertSQL`
returns `(sqlStr, values, autoIncrement, pkType, err)`, the values being those it leaves
behind its pointer argument; `setFieldValueByColumnName` returns the entity after the
assignment and the error; `outValue` is what the driver has stored in the destination of
`sql.Out` after the statement ran. -/
structure InsertLib where
  columnAndValue : Entity → List String × List GoValue × Option GoError
  wrapInsertSQL : String → Entity → List String → List GoValue →
    String × List GoValue × Int × String × Option GoError
  PK : Entity → String
  setFieldValueByColumnName : Entity → String → GoValue → Entity × Option GoError
  outValue : List Event → Int

/-- The argument `sql.Named("grmSQLOutReturningID", sql.Out{Dest: grmSQLOutReturningID})`
(dao.go:974), given by its name. -/
def grmSQLOutReturningID : GoValue :=
  .str ":grmSQLOutReturningID"

/-- The statement, the values and the two id pointers that `Insert` hands to the execution
step (dao.go:962-977): `(sqlStr, values, lastInsertID, grmSQLOutReturningID)`; a pointer is
`none` when nil and holds 0 otherwise. -/
def insertExecArgs (drv pk sqlStr : String) (values : List GoValue) (autoIncrement : Int) :
    String × List GoValue × Option Int × Option Int :=
  if autoIncrement > 0 then
    if drv = "postgresql" then (sqlStr ++ " RETURNING " ++ pk, values, some 0, none)
    else if drv = "oracle" then
      (sqlStr ++ " RETURNING " ++ pk ++ " INTO :grmSQLOutReturningID ",
        values ++ [grmSQLOutReturningID], none, some 0)
    else (sqlStr, values, none, none)
  else (sqlStr, values, none, none)

/-- The end of `Insert` after a successful execution (dao.go:985-1028): read the id back
and set the entity's key. `lastInsertID` and `outID` are the two id pointers after the
execution, `res` the returned `*sql.Result`. -/
def insertReadBack (env : Env) (lib : Lib) (ilib : InsertLib) (entity : Entity)
    (autoIncrement : Int) (pkType : String) (affected : Int) (res : Option (Option SqlResult))
    (lastInsertID outID : Option Int) (w : World) :
    Outcome (Int × Option GoError) × Entity × World :=
  if autoIncrement > 0 then
    let lastInsertID1 :=
      match lastInsertID, outID with
      | none, some v => some v
      | l, _ => l
    let readId : Outcome (Int × Option GoError) :=
      match lastInsertID1 with
      | some id => .ret (id, none)
      | none =>
        match res with
        | some (some r) =>
          match r.LastInsertId with
          | .ok id => .ret (id, none)
          | .error err => .ret (0, some err)
        | _ => .panic nilDeref
    match readId with
    | .panic v => (.panic v, entity, w)
    | .ret (_, some err) =>
      (.ret (affected, none), entity,
        (callLogErr env
          ("Insert-->LastInsertId数据库不支持自增主键,不再赋值给struct属性 " ++ err.Error) w).2)
    | .ret (autoIncrementIDInt64, none) =>
      let pkName := ilib.PK entity
      let set : Entity × Option GoError :=
        if pkType = "int" then
          ilib.setFieldValueByColumnName entity pkName
            (.int (lib.typeConvertInt64toInt autoIncrementIDInt64).1)
        else if pkType = "int64" then
          ilib.setFieldValueByColumnName entity pkName (.int autoIncrementIDInt64)
        else (entity, none)
      match set.2 with
      | some err =>
        let r := callLogErr env
          ("Insert-->setFieldValueByColumnName反射赋值数据库返回的自增主键错误 " ++ err.Error) w
        (.ret (affected, r.1), set.1, r.2)
      | none => (.ret (affected, none), set.1, w)
  else (.ret (affected, none), entity, w)

/-- The function `Insert` (dao.go:923). Returns `(affected, err)` and the entity after the
call; a nil entity is `none`. -/
def Insert (env : Env) (lib : Lib) (ilib : InsertLib) (ctx : Option Context)
    (entity : Option Entity) (w : World) :
    Outcome (Int × Option GoError) × Option Entity × World :=
  match entity with
  | none => (.ret (-1, some (.errorsNew "对象不能为空")), none, w)
  | some e =>
    match ilib.columnAndValue e with
    | (_, _, some err) =>
      let r := callLogErr env ("Insert-->columnAndValue获取实体类的列和值异常: " ++ err.Error) w
      (.ret (-1, r.1), entity, r.2)
    | (columns, values, none) =>
      if columns.length < 1 then (.ret (-1, some (.errorsNew "no tag info")), entity, w)
      else
        match getDBConn ctx with
        | (_, some errFromCtx) => (.ret (-1, some errFromCtx), entity, w)
        | (dbConn, none) =>
          if isFabricated dbConn w then (.ret (-1, some .errDBConn), entity, w)
          else
            match resolveDriver env dbConn 1 w with
            | .panic v => (.panic v, entity, w)
            | .ret drv =>
              match ilib.wrapInsertSQL drv e columns values with
              | (_, _, _, _, some err) =>
                let r := callLogErr env
                  ("Insert-->wrapInsertSQL获取保存语句错误: " ++ err.Error) w
                (.ret (-1, r.1), entity, r.2)
              | (sqlStr, values1, autoIncrement, pkType, none) =>
                let args := insertExecArgs drv (ilib.PK e) sqlStr values1 autoIncrement
                match wrapExecUpdateValuesAffected env lib ctx (-1) args.1 args.2.1 args.2.2.1
                    w with
                | (.panic v, w1) => (.panic v, entity, w1)
                | (.ret out, w1) =>
                  match out.err with
                  | some execErr =>
                    let r := callLogErr env
                      ("Insert-->wrapExecUpdateValuesAffected执行保存错误 " ++ execErr.Error) w1
                    (.ret (out.affected, r.1), entity, r.2)
                  | none =>
                    let r := insertReadBack env lib ilib e autoIncrement pkType out.affected
                      out.res out.lastInsertID
                      (args.2.2.2.map (fun _ => ilib.outValue w1.trace)) w1
                    (r.1, some r.2.1, r.2.2)

/-! ## dao.go: QueryRowMap -/

/-- The error of `QueryRowMap` for more than one row (dao.go:680). -/
def errManyMaps : GoError :=
  .errorsNew "QueryRowMap查询出多条数据"

/-- The function `QueryRowMap` (dao.go:668). Returns `(map, err)`; a nil map is `none`. -/
def QueryRowMap (env : Env) (lib : Lib) (qlib : QueryLib) (ctx : Option Context)
    (finder : Option Finder) (w : World) : Outcome (Option RowMap × Option GoError) × World :=
  match finder with
  | none => (.ret (none, some (.errorsNew "QueryRowMap-->finder参数不能为nil")), w)
  | some _ =>
    match QueryMap env lib (fun c f v => selectCount env lib qlib c (some f) v) ctx finder none
        w with
    | (.panic v, _, w1) => (.panic v, w1)
    | (.ret (_, some listErr), _, w1) =>
      let r := callLogErr env ("QueryRowMap-->QueryMap查询错误 " ++ listErr.Error) w1
      (.ret (none, r.1), r.2)
    | (.ret (none, none), _, w1) => (.ret (none, none), w1)
    | (.ret (some resultMapList, none), _, w1) =>
      match resultMapList with
      | [] => (.ret (none, none), w1)
      | [m] => (.ret (some m, none), w1)
      | m :: _ :: _ => (.ret (some m, some errManyMaps), w1)

/-! ## dataSource.go and dao.go: opening a database -/

/-- The functions `sql.Open` and `(*sql.DB).Ping` of the standard library: external. -/
structure SqlOpener where
  Open : String → String → Except GoError DBId
  Ping : DBId → Option GoError

/-- The function `newDataSource` (dataSource.go:58). Returns `(dataSource, err)` and the
config after the call (the function fills in defaults behind its pointer). The pool settings
(`SetMaxOpenConns` and its like) and `db.Close()` change nothing the model observes. -/
def newDataSource (env : Env) (opener : SqlOpener) (config : Option DBConfig) (w : World) :
    (Option dataSource × Option GoError) × Option DBConfig × World :=
  match config with
  | none => ((none, some (.errorsNew "config cannot be nil")), config, w)
  | some cfg =>
    if cfg.DriverName = "" then
      ((none, some (.errorsNew "DriverName cannot be empty")), config, w)
    else if cfg.DBType = "" then
      ((none, some (.errorsNew "DBType cannot be empty")), config, w)
    else
      let opened : Except (Option GoError × World) DBId :=
        match cfg.SQLDB with
        | none =>
          if cfg.DSN = "" then .error (some (.errorsNew "DSN cannot be empty"), w)
          else
            match opener.Open cfg.DriverName cfg.DSN with
            | .error errSQLOpen =>
              .error (callLogErr env ("newDataSource-->open数据库打开失败: " ++ errSQLOpen.Error) w)
            | .ok db => .ok db
        | some db => .ok db
      match opened with
      | .error r => ((none, r.1), config, r.2)
      | .ok db =>
        let cfg1 := if cfg.MaxOpenConns = 0 then { cfg with MaxOpenConns := 50 } else cfg
        let cfg2 := if cfg1.MaxIdleConns = 0 then { cfg1 with MaxIdleConns := 50 } else cfg1
        let cfg3 := if cfg2.MaxLifetime = 0 then { cfg2 with MaxLifetime := 600 } else cfg2
        match opener.Ping db with
        | some err =>
          let r := callLogErr env ("ping database error: " ++ err.Error) w
          ((none, r.1), some cfg3, r.2)
        | none => ((some { DB := some db }, none), some cfg3, w)

/-- The function `NewDao` (dao.go:70). Returns `(dao, err)` and the config after the call;
the default dao is the field `defaultDao` of the world. -/
def NewDao (env : Env) (opener : SqlOpener) (config : Option DBConfig) (w : World) :
    (Option DBDao × Option GoError) × Option DBConfig × World :=
  match newDataSource env opener config w with
  | ((_, some err), config1, w1) =>
    let r := callLogErr env ("NewDao创建dataSource失败: " ++ err.Error) w1
    ((none, r.1), config1, r.2)
  | ((dataSource, none), config1, w1) =>
    match env.FuncReadWriteStrategy w1 1 with
    | none =>
      ((some { config := config1, dataSource := dataSource }, none), config1,
        { w1 with defaultDao := some { config := config1, dataSource := dataSource } })
    | some _ => ((some { config := config1, dataSource := dataSource }, none), config1, w1)

/-! ## builder.go -/

/-- The type `SQLBuilder` (builder.go:11): `addr` is the address of the receiver that first
wrote to it (`none` is nil), `buf` the accumulated bytes. -/
structure SQLBuilder where
  addr : Option Nat
  buf : List UInt8
  deriving DecidableEq, Repr

/-- The zero value of `SQLBuilder`. -/
def SQLBuilder.zero : SQLBuilder where
  addr := none
  buf := []

/-- The panic of `copyCheck`. -/
def illegalCopy : PanicValue :=
  .value "strings: illegal use of non-zero SQLBuilder copied by value"

/-- The method `copyCheck` (builder.go:28); `self` is the address of the receiver. -/
def SQLBuilder.copyCheck (b : SQLBuilder) (self : Nat) : Outcome SQLBuilder :=
  match b.addr with
  | none => .ret { b with addr := some self }
  | some a => if a ≠ self then .panic illegalCopy else .ret b

/-- The method `String` (builder.go:37): the accumulated bytes as a Go string. -/
def SQLBuilder.String (b : SQLBuilder) : List UInt8 :=
  b.buf

/-- The method `Len` (builder.go:42). -/
def SQLBuilder.Len (b : SQLBuilder) : Int :=
  b.buf.length

/-- The method `Write` (builder.go:57). -/
def SQLBuilder.Write (b : SQLBuilder) (self : Nat) (p : List UInt8) : Outcome SQLBuilder :=
  match b.copyCheck self with
  | .panic v => .panic v
  | .ret b1 => .ret { b1 with buf := b1.buf ++ p }

/-- The method `WriteByte` (builder.go:64). -/
def SQLBuilder.WriteByte (b : SQLBuilder) (self : Nat) (c : UInt8) : Outcome SQLBuilder :=
  match b.copyCheck self with
  | .panic v => .panic v
  | .ret b1 => .ret { b1 with buf := b1.buf ++ [c] }

/-- The method `WriteString` (builder.go:71); a Go string is the list of its bytes. -/
def SQLBuilder.WriteString (b : SQLBuilder) (self : Nat) (s : List UInt8) : Outcome SQLBuilder :=
  match b.copyCheck self with
  | .panic v => .panic v
  | .ret b1 => .ret { b1 with buf := b1.buf ++ s }

/-- The function `strconv.FormatInt(i, 10)`: the decimal digits, after a `-` for a negative
number. -/
def formatInt (i : Int) : List UInt8 :=
  match i with
  | .ofNat n => (Nat.toDigits 10 n).map Char.toUInt8
  | .negSucc n => '-'.toUInt8 :: (Nat.toDigits 10 (n + 1)).map Char.toUInt8

/-- The method `WriteInt` (builder.go:76). -/
def SQLBuilder.WriteInt (b : SQLBuilder) (self : Nat) (i : Int) : Outcome SQLBuilder :=
  match b.copyCheck self with
  | .panic v => .panic v
  | .ret b1 => .ret { b1 with buf := b1.buf ++ formatInt i }

/-- The method `RemoveEnd` (builder.go:82): `b.buf[:len(b.buf)-i]`. The spare capacity of
the buffer is not part of the model: a negative `i`, which would reslice into it, is taken
on a buffer without spare capacity, where it panics. -/
def SQLBuilder.RemoveEnd (b : SQLBuilder) (self : Nat) (i : Int) : Outcome SQLBuilder :=
  match b.copyCheck self with
  | .panic v => .panic v
  | .ret b1 =>
    if 0 ≤ i ∧ i ≤ b1.buf.length then .ret { b1 with buf := b1.buf.take (b1.buf.length - i.toNat) }
    else .panic sliceOutOfRange

/-- A call of one of the four writing methods. -/
inductive BuilderWrite where
  | Write (p : List UInt8)
  | WriteByte (c : UInt8)
  | WriteString (s : List UInt8)
  | WriteInt (i : Int)

/-- Run a writing method on the builder at address `self`. -/
def BuilderWrite.run (self : Nat) (b : SQLBuilder) : BuilderWrite → Outcome SQLBuilder
  | .Write p => b.Write self p
  | .WriteByte c => b.WriteByte self c
  | .WriteString s => b.WriteString self s
  | .WriteInt i => b.WriteInt self i

/-- Run writing methods in order on the builder at address `self`; a panic ends the run. -/
def runWrites (self : Nat) : List BuilderWrite → SQLBuilder → Outcome SQLBuilder
  | [], b => .ret b
  | op :: rest, b =>
    match op.run self b with
    | .panic v => .panic v
    | .ret b1 => runWrites self rest b1

/-- The bytes a writing call contributes, in the words of the claim: the bytes written, and
for `WriteInt` the base-10 text of the integer. -/
def BuilderWrite.bytes : BuilderWrite → List UInt8
  | .Write p => p
  | .WriteByte c => [c]
  | .WriteString s => s
  | .WriteInt i => (toString i).data.map Char.toUInt8

/-! ## Concrete inputs -/

/-- A driver on which every call succeeds, and a log writer that never fails. -/
def okDriver : Driver where
  BeginTx := fun _ _ _ => none
  Rollback := fun _ _ => none
  Commit := fun _ _ => none
  Exec := fun _ _ => .ok { RowsAffected := .ok 1, LastInsertId := .ok 1 }
  Query := fun _ _ => .ok { ColumnTypes := .ok [], data := [] }
  QueryRowScan := fun _ _ => .ok 1
  logWrite := fun _ _ => none

/-- The package as shipped: `FuncReadWriteStrategy = getDefaultDao`, `LogErr = logErr`. -/
def defaultEnv (d : Driver) : Env where
  driver := d
  FuncReadWriteStrategy := getDefaultDao
  LogErr := logErr d
  LogSQL := logSQL d

/-- The package with `LogErr` replaced by a function that returns the message as an error. -/
def errorsEnv (d : Driver) : Env where
  driver := d
  FuncReadWriteStrategy := getDefaultDao
  LogErr := fun logged s => (some (.errorsNew s), logged ++ [s])
  LogSQL := logSQL d

/-- A mysql configuration. -/
def cfg0 : DBConfig where
  DSN := "dsn"
  DriverName := "mysql"
  DBType := "mysql"
  Driver := "mysql"
  ShowSQL := false
  MaxOpenConns := 50
  MaxIdleConns := 50
  MaxLifetime := 600
  Tag := ""
  DefaultTxOptions := none
  SQLDB := none

/-- An initialised dao on pool 0. -/
def dao0 : DBDao where
  config := some cfg0
  dataSource := some { DB := some 0 }

/-- The zero value of `dbConnection`. -/
def zeroConn : dbConnection where
  db := none
  tx := none
  cfg := none

/-- A world with no handle yet and `dao0` as default dao. -/
def freshWorld : World where
  heap := fun _ => zeroConn
  next := 0
  trace := []
  logged := []
  defaultDao := some dao0

/-- A world whose handle 0 is connected to pool 0, with the given transaction state. -/
def handleWorld (tx : Option TxId) : World where
  heap := fun q => if q = 0 then { db := some 0, tx := tx, cfg := some cfg0 } else zeroConn
  next := 1
  trace := []
  logged := []
  defaultDao := some dao0

/-- A world whose handle 0 has no physical connection. -/
def fabricatedWorld : World where
  heap := fun _ => zeroConn
  next := 1
  trace := []
  logged := []
  defaultDao := some dao0

/-- Library functions that leave statements as they are. -/
def lib0 : Lib where
  GetSQL := fun f =>
    match f with
    | .mk sqlText _ _ _ => (sqlText, none)
  wrapQuerySQL := fun _ f _ =>
    match f with
    | .mk sqlText _ _ _ => (sqlText, none)
  reBindSQL := fun _ sqlStr => (sqlStr, none)
  reUpdateFinderSQL := fun _ sqlStr => (sqlStr, none)
  typeConvertInt64toInt := fun i => (i, none)
  convertValueColumnType := fun v _ => v
  CustomDriverValueMapLen := 0
  queryMapRowCustom := fun _ _ _ => .ok []

/-- A `selectCount` that answers 0. -/
def selectCount0 : SelectCountFn :=
  fun _ _ w => (.ret (0, none), w)

/-- The statement `update t set a=?` with one parameter. -/
def finder0 : Finder :=
  .mk "update t set a=?" [.int 1] false none

/-- A business function that succeeds with `"r"` and touches nothing. -/
def okWork : WorkFn :=
  fun _ w => (.ret (.str "r", none), w)

/-- A business function that fails with the error `boom` and touches nothing. -/
def failingWork : WorkFn :=
  fun _ w => (.ret (.str "r", some (.errorsNew "boom")), w)

/-- A business function that panics with the value `oops`. -/
def panickingWork : WorkFn :=
  fun _ w => (.panic (.value "oops"), w)

/-- A business function that runs a nested `Transaction` whose work fails, drops its error
and reports success: `grm.Transaction(ctx, failing); return nil, nil`. -/
def swallowingWork (env : Env) : WorkFn :=
  fun ctx w => (.ret (.nil, none), (Transaction env ctx failingWork w).2)

/-- A business function that calls `Transaction` again on the context it was handed, with
the business function `inner`, and then returns `post` of what that call returned, doing
nothing else. -/
def nestedWork (env : Env) (inner : WorkFn)
    (post : Outcome (GoValue × Option GoError) → Outcome (GoValue × Option GoError)) : WorkFn :=
  fun ctx w => (post (Transaction env ctx inner w).1, (Transaction env ctx inner w).2)

/-- A driver like `okDriver` whose `Tx.Commit` fails. -/
def commitFailsDriver : Driver :=
  { okDriver with Commit := fun _ _ => some (.errorsNew "driver: bad connection") }

/-- A context bound to handle 0. -/
def boundCtx : Option Context :=
  some (.withValue .background .ctxConnKey (.conn (some 0)))

/-- A context with nothing bound. -/
def plainCtx : Option Context :=
  some .background

/-- A run on handle 0: begin, commit, a commit that fails on the closed handle, begin,
rollback, begin. -/
def sampleOps : List (ConnPtr × HandleOp) :=
  [(0, .opBeginTx plainCtx), (0, .opCommit), (0, .opCommit), (0, .opBeginTx plainCtx),
   (0, .opRollback), (0, .opBeginTx plainCtx)]

/-- A driver like `okDriver` whose queries answer the given cursor. -/
def rowsDriver (rows : Rows) : Driver :=
  { okDriver with Query := fun _ _ => .ok rows }

/-- The position of the first occurrence of `sub` in a list of characters. -/
def indexOfChars (sub : List Char) : List Char → Option Nat
  | [] => if sub.isEmpty then some 0 else none
  | c :: rest =>
    if sub.isPrefixOf (c :: rest) then some 0 else (indexOfChars sub rest).map (fun i => i + 1)

/-- A text in lower case, letter by letter. -/
def lowerText (s : String) : String :=
  ⟨s.data.map Char.toLower⟩

/-- A stand-in for the keyword searches of the package, enough for the sample statements:
the location of the first occurrence of `kw`, letter case ignored, moved right by `skip`. -/
def findKeyword (kw : String) (skip : Nat) (s : String) : List Nat :=
  match indexOfChars kw.data (lowerText s).data with
  | some i => [i + skip, i + kw.length]
  | none => []

/-- Query helpers for the sample statements: every destination is accepted, a struct
receives the columns by name, no custom conversion is registered, keywords are found by
`findKeyword`, a finder is built from its text. -/
def qlib0 : QueryLib where
  checkEntityKind := fun _ => none
  getDBColumnExportFieldMap := fun _ => none
  sqlRowsValues := fun _ columnTypes row _ =>
    (.struct ((columnTypes.map (fun c => c.Name)).zip row.values), row.scanErr)
  CustomDriverValueMap := fun _ => none
  findOrderByIndex := findKeyword " order by " 0
  findGroupByIndex := findKeyword " group by " 0
  findSelectFromIndex := findKeyword " from " 1
  ToLower := lowerText
  NewFinder := .mk "" [] false none
  Append := fun f s =>
    match f with
    | .mk sqlText values flag countFinder => .mk (sqlText ++ s) values flag countFinder

/-- A configuration whose default transaction options ask for serializable isolation. -/
def cfgSerializable : DBConfig :=
  { cfg0 with DefaultTxOptions := some { Isolation := 6, ReadOnly := false } }

/-- A world whose handle 0 is connected to pool 0 with `cfgSerializable` and has no
transaction. -/
def serializableWorld : World where
  heap := fun q =>
    if q = 0 then { db := some 0, tx := none, cfg := some cfgSerializable } else zeroConn
  next := 1
  trace := []
  logged := []
  defaultDao := some { config := some cfgSerializable, dataSource := some { DB := some 0 } }

/-- Read-committed, read-only transaction options. -/
def readCommitted : TxOptions where
  Isolation := 2
  ReadOnly := true

/-- One column named `c`. -/
def oneColumn : List ColumnType :=
  [{ Name := "c", DatabaseTypeName := "INT" }]

/-- Two columns named `a` and `b`. -/
def twoColumns : List ColumnType :=
  [{ Name := "a", DatabaseTypeName := "INT" }, { Name := "b", DatabaseTypeName := "VARCHAR" }]

/-- A row with one value that scans without error. -/
def cell (v : GoValue) : RawRow where
  values := [v]
  scanErr := none

/-- A single-column cursor over the given values. -/
def columnOf (vs : List GoValue) : Rows where
  ColumnTypes := .ok oneColumn
  data := vs.map cell

/-- A two-column cursor with two rows. -/
def twoRowsTwoColumns : Rows where
  ColumnTypes := .ok twoColumns
  data := [{ values := [.int 1, .str "x"], scanErr := none },
           { values := [.int 2, .str "y"], scanErr := none }]

/-- The statement `SELECT c FROM t`. -/
def selectFinder : Finder :=
  .mk "SELECT c FROM t" [] false none

/-- The statement `SELECT a,b FROM t WHERE x=?` ordered by `a`, with one parameter. -/
def orderedFinder : Finder :=
  .mk "SELECT a,b FROM t WHERE x=? ORDER BY a" [.int 1] true none

/-- A finder with a count statement of its own. -/
def countedFinder (sqlText : String) (values : List GoValue) : Finder :=
  .mk sqlText values true (some (.mk "SELECT COUNT(*) FROM t" [] false none))

/-- An empty slice of `int`. -/
def intSlice (elems : List Entity) : SliceDest where
  elems := elems
  elemZero := .scalar (.int 0)
  elemIsPtr := false

/-- The single-column cursor over `5, NULL, 1`. -/
def threeRows : Rows :=
  columnOf [.int 5, .nil, .int 1]

/-- An environment whose queries answer `threeRows` and whose `LogErr` returns its message
as an error. -/
def threeRowsEnv : Env :=
  errorsEnv (rowsDriver threeRows)

/-- A driver like `okDriver` whose `Tx.Rollback` fails. -/
def rollbackFailsDriver : Driver :=
  { okDriver with Rollback := fun _ _ => some (.errorsNew "driver: bad connection") }

/-- The statement `SELECT DISTINCT 1`, which has no `FROM`. -/
def distinctFinder : Finder :=
  .mk "SELECT DISTINCT 1" [] false none

/-- The statement `SELECT 1`, which has no `FROM`. -/
def noFromFinder : Finder :=
  .mk "SELECT 1" [] false none

/-- A world before any dao was created. -/
def startWorld : World where
  heap := fun _ => zeroConn
  next := 0
  trace := []
  logged := []
  defaultDao := none

/-- A `sql.Open` that fails. -/
def closedOpener : SqlOpener where
  Open := fun _ _ => .error (.errorsNew "sql: unknown driver")
  Ping := fun _ => none

/-- A `sql.Open` that succeeds on a database whose `Ping` fails. -/
def unreachableOpener : SqlOpener where
  Open := fun _ _ => .ok 0
  Ping := fun _ => some (.errorsNew "dial tcp: connection refused")

/-- A `sql.Open` and a `Ping` that succeed. -/
def okOpener : SqlOpener where
  Open := fun _ _ => .ok 0
  Ping := fun _ => none

/-- A configuration like `cfg0` for the given dialect. -/
def dialectCfg (drv : String) : DBConfig :=
  { cfg0 with Driver := drv, DBType := drv }

/-- A world whose handle 0 is connected to pool 0 under the given dialect, inside
transaction 7. -/
def dialectWorld (drv : String) : World where
  heap := fun q =>
    if q = 0 then { db := some 0, tx := some 7, cfg := some (dialectCfg drv) } else zeroConn
  next := 1
  trace := []
  logged := []
  defaultDao := some { config := some (dialectCfg drv), dataSource := some { DB := some 0 } }

/-- An entity with the key `id`, not yet set, and one more column. -/
def userEntity : Entity :=
  .struct [("id", .int 0), ("name", .str "ann")]

/-- Entity helpers for `userEntity`: the columns are the fields, the insert statement
leaves the auto-increment key `id` of type `int64` out, a field is set by its column
name, and the driver stores 42 in an output-bound parameter. -/
def ilib0 : InsertLib where
  columnAndValue := fun e =>
    match e with
    | .struct fields => (fields.map Prod.fst, fields.map Prod.snd, none)
    | .scalar _ => ([], [], some (.errorsNew "not a struct"))
  wrapInsertSQL := fun _ _ _ values =>
    ("INSERT INTO t (name) VALUES (?)", values.drop 1, 1, "int64", none)
  PK := fun _ => "id"
  setFieldValueByColumnName := fun e name v =>
    match e with
    | .struct fields =>
      (.struct (fields.map (fun kv => if kv.1 = name then (name, v) else kv)), none)
    | .scalar s => (.scalar s, some (.errorsNew "not a struct"))
  outValue := fun _ => 42

/-- A driver like `okDriver` whose scans answer 42. -/
def idDriver : Driver :=
  { okDriver with QueryRowScan := fun _ _ => .ok 42 }

/-- A driver like `okDriver` whose statements fail. -/
def execFailsDriver : Driver :=
  { okDriver with
    Exec := fun _ _ => .error (.errorsNew "driver: bad connection")
    QueryRowScan := fun _ _ => .error (.errorsNew "driver: bad connection") }

/-- A driver like `okDriver` whose results do not support `LastInsertId`. -/
def noLastIdDriver : Driver :=
  { okDriver with
    Exec := fun _ _ =>
      .ok { RowsAffected := .ok 1,
            LastInsertId := .error (.errorsNew "LastInsertId is not supported by this driver") } }

/-! ## Frame lemmas -/

@[simp] theorem callLogErr_heap (env : Env) (msg : String) (w : World) :
    (callLogErr env msg w).2.heap = w.heap := rfl

@[simp] theorem callLogErr_trace (env : Env) (msg : String) (w : World) :
    (callLogErr env msg w).2.trace = w.trace := rfl

@[simp] theorem callLogErr_next (env : Env) (msg : String) (w : World) :
    (callLogErr env msg w).2.next = w.next := rfl

/-! ## Connection acquisition -/

/-- C8. With `hasTx = true`, `checkDBConn` answers `errDBConn` when the context carries no
bound handle and when the bound handle has no open transaction; its error is nil exactly
when the context carries a handle with a physical connection and an open transaction, and
then it returns the context and that handle and changes nothing. -/
theorem checkDBConn_requires_tx (env : Env) (ctx : Option Context) (rwType : Int) (w : World) :
    (getDBConn ctx = (none, none) →
        (checkDBConn env ctx true rwType w).1.2.2 = some GoError.errDBConn) ∧
    (∀ p, getDBConn ctx = (some p, none) → (w.heap p).tx = none →
        (checkDBConn env ctx true rwType w).1.2.2 = some GoError.errDBConn) ∧
    ((checkDBConn env ctx true rwType w).1.2.2 = none ↔
        ∃ p, getDBConn ctx = (some p, none) ∧ (w.heap p).db ≠ none ∧ (w.heap p).tx ≠ none) ∧
    (∀ p, getDBConn ctx = (some p, none) → (w.heap p).db ≠ none → (w.heap p).tx ≠ none →
        checkDBConn env ctx true rwType w = ((ctx, some p, none), w)) := by
  rcases h : getDBConn ctx with ⟨_ | p, _ | e⟩
  · simp [checkDBConn, h]
  · simp [checkDBConn, h]
  · by_cases hdb : (w.heap p).db = none
    · simp [checkDBConn, h, hdb]
    · by_cases htx : (w.heap p).tx = none
      · simp [checkDBConn, h, hdb, htx]
      · simp [checkDBConn, h, hdb, htx]
  · simp [checkDBConn, h]

/-- Witness of C8: a context without a handle is refused with `errDBConn`; a handle without a
transaction is refused with `errDBConn`; a connected handle in a transaction is returned. -/
theorem checkDBConn_requires_tx_witness :
    (checkDBConn (defaultEnv okDriver) plainCtx true 1 freshWorld).1.2.2
        = some GoError.errDBConn ∧
    (checkDBConn (defaultEnv okDriver) boundCtx true 1 (handleWorld none)).1.2.2
        = some GoError.errDBConn ∧
    checkDBConn (defaultEnv okDriver) boundCtx true 1 (handleWorld (some 7))
        = ((boundCtx, some 0, none), handleWorld (some 7)) :=
  ⟨(checkDBConn_requires_tx (defaultEnv okDriver) plainCtx 1 freshWorld).1 rfl,
   (checkDBConn_requires_tx (defaultEnv okDriver) boundCtx 1 (handleWorld none)).2.1 0 rfl rfl,
   (checkDBConn_requires_tx (defaultEnv okDriver) boundCtx 1 (handleWorld (some 7))).2.2.2 0 rfl
      (by decide) (by decide)⟩

theorem getDBConn_ne_nil {ctx : Option Context} {r : Option ConnPtr}
    (h : getDBConn ctx = (r, none)) : ∃ c, ctx = some c := by
  cases ctx with
  | none => simp [getDBConn] at h
  | some c => exact ⟨c, rfl⟩

theorem getDBConn_WithValue (c : Context) (dbConn : Option ConnPtr) :
    getDBConn (WithValue (some c) .ctxConnKey (.conn dbConn)) = (dbConn, none) := by
  simp [getDBConn, WithValue, Context.Value]

theorem checkDBConn_bound (env : Env) (ctx : Option Context) (hasTx : Bool) (rwType : Int)
    (w : World) (p : ConnPtr) (h : getDBConn ctx = (some p, none)) :
    checkDBConn env ctx hasTx rwType w =
      ((ctx, some p,
          if (w.heap p).db = none then some GoError.errDBConn
          else if (w.heap p).tx = none ∧ hasTx = true then some GoError.errDBConn
          else none), w) := by
  by_cases hdb : (w.heap p).db = none
  · simp [checkDBConn, h, hdb]
  · by_cases htx : (w.heap p).tx = none ∧ hasTx = true
    · simp [checkDBConn, h, hdb, htx]
    · simp only [checkDBConn, h, hdb, htx]
      simp

theorem checkDBConn_unbound (env : Env) (ctx : Option Context) (rwType : Int)
    (w : World) (h : getDBConn ctx = (none, none)) :
    checkDBConn env ctx false rwType w =
      match newDBConn (env.FuncReadWriteStrategy w rwType) w with
      | ((_, some err), w1) => ((ctx, none, some err), w1)
      | ((dbConn, none), w1) => ((WithValue ctx .ctxConnKey (.conn dbConn), dbConn, none), w1) := by
  simp [checkDBConn, h]

theorem newDBConn_trace (dbDao : Option DBDao) (w : World) :
    (newDBConn dbDao w).2.trace = w.trace := by
  unfold newDBConn
  split
  · rfl
  · split <;> rfl

/-- C9. Connection acquisition opens no transaction. For a context without a bound handle and
`hasTx = false`: the trace is unchanged (no begin, no driver call); a handle that is returned
has no transaction; and when `FuncReadWriteStrategy(rwType)` is an initialised dao the call
succeeds with a new handle carrying the dao's pool and config and no transaction, bound in the
returned context, every other handle being untouched. For a context with a bound handle,
whatever `hasTx`: the returned handle is that same handle, the context is the same, and the
world (so the handle's transaction field) is unchanged. -/
theorem checkDBConn_opens_no_tx (env : Env) (ctx : Option Context) (rwType : Int) (w : World) :
    (getDBConn ctx = (none, none) →
        (checkDBConn env ctx false rwType w).2.trace = w.trace ∧
        (∀ p, (checkDBConn env ctx false rwType w).1.2.1 = some p →
            ((checkDBConn env ctx false rwType w).2.heap p).tx = none) ∧
        (∀ d ds, env.FuncReadWriteStrategy w rwType = some d → d.dataSource = some ds →
            (checkDBConn env ctx false rwType w).1
                = (WithValue ctx .ctxConnKey (.conn (some w.next)), some w.next, none) ∧
            getDBConn (WithValue ctx .ctxConnKey (.conn (some w.next))) = (some w.next, none) ∧
            (checkDBConn env ctx false rwType w).2.heap w.next
                = { db := ds.DB, tx := none, cfg := d.config } ∧
            ∀ q, q ≠ w.next → (checkDBConn env ctx false rwType w).2.heap q = w.heap q)) ∧
    (∀ p hasTx, getDBConn ctx = (some p, none) →
        (checkDBConn env ctx hasTx rwType w).1.1 = ctx ∧
        (checkDBConn env ctx hasTx rwType w).1.2.1 = some p ∧
        (checkDBConn env ctx hasTx rwType w).2 = w) := by
  constructor
  · intro h
    obtain ⟨c, rfl⟩ := getDBConn_ne_nil h
    rw [checkDBConn_unbound env _ rwType w h]
    rcases hd : env.FuncReadWriteStrategy w rwType with _ | d
    · simp [newDBConn]
    · rcases hds : d.dataSource with _ | ds
      · simp [newDBConn, hds]
        intro d1 ds1 hd1
        subst hd1
        simp [hds]
      · refine ⟨?_, ?_, ?_⟩
        · simp [newDBConn, hds, World.store]
        · intro p hp
          simp [newDBConn, hds, World.store] at hp ⊢
          simp [hp]
        · intro d1 ds1 hd1 hds1
          simp at hd1
          subst hd1
          rw [hds] at hds1
          simp at hds1
          subst hds1
          refine ⟨?_, getDBConn_WithValue c _, ?_, ?_⟩
          · simp [newDBConn, hds]
          · simp [newDBConn, hds, World.store]
          · intro q hq
            simp [newDBConn, hds, World.store, hq]
  · intro p hasTx h
    rw [checkDBConn_bound env ctx hasTx rwType w p h]
    exact ⟨rfl, rfl, rfl⟩

/-- Witness of C9: acquiring from the default dao, and re-using a bound handle. -/
theorem checkDBConn_opens_no_tx_witness :
    (checkDBConn (defaultEnv okDriver) plainCtx false 0 freshWorld).2.trace = [] ∧
    (checkDBConn (defaultEnv okDriver) plainCtx false 0 freshWorld).2.heap 0
        = { db := some 0, tx := none, cfg := some cfg0 } ∧
    (checkDBConn (defaultEnv okDriver) boundCtx false 0 (handleWorld (some 7))).2
        = handleWorld (some 7) :=
  ⟨((checkDBConn_opens_no_tx (defaultEnv okDriver) plainCtx 0 freshWorld).1 rfl).1,
   (((checkDBConn_opens_no_tx (defaultEnv okDriver) plainCtx 0 freshWorld).1 rfl).2.2
      dao0 { DB := some 0 } rfl rfl).2.2.1,
   ((checkDBConn_opens_no_tx (defaultEnv okDriver) boundCtx 0 (handleWorld (some 7))).2
      0 false rfl).2.2⟩

/-! ## The handle's methods: traces and frames -/

theorem rollback_logged (env : Env) (p : ConnPtr) (w : World) (l : List String) :
    rollback env p { w with logged := l }
      = ((rollback env p w).1, { (rollback env p w).2 with logged := l }) := by
  unfold rollback
  simp only [World.emit]
  rcases htx : (w.heap p).tx with _ | tx
  · simp
  · rcases hr : env.driver.Rollback (w.trace ++ [Event.callRollback p]) tx with _ | e
    · simp [hr, World.store, World.emit]
    · simp [hr, World.emit]

theorem rollback_trace (env : Env) (p : ConnPtr) (w : World) :
    (rollback env p w).2.trace =
      w.trace ++ Event.callRollback p ::
        (match (w.heap p).tx with
          | some tx =>
            [Event.driverRollback tx (env.driver.Rollback (w.trace ++ [Event.callRollback p]) tx)]
          | none => []) := by
  unfold rollback
  simp only [World.emit]
  rcases htx : (w.heap p).tx with _ | tx
  · simp
  · rcases hr : env.driver.Rollback (w.trace ++ [Event.callRollback p]) tx with _ | e
    · simp [hr, World.store, World.emit]
    · simp [hr, World.emit]

theorem rollback_closes (env : Env) (p : ConnPtr) (w : World)
    (h : (rollback env p w).1 = none) : ((rollback env p w).2.heap p).tx = none := by
  unfold rollback at h ⊢
  simp only [World.emit] at h ⊢
  rcases htx : (w.heap p).tx with _ | tx
  · simp [htx]
  · rcases hr : env.driver.Rollback (w.trace ++ [Event.callRollback p]) tx with _ | e
    · simp [htx, hr, World.store, World.emit]
    · simp [htx, hr] at h

theorem rollback_ok_of_driver (env : Env) (p : ConnPtr) (w : World)
    (h : ∀ tx, (w.heap p).tx = some tx →
      env.driver.Rollback (w.trace ++ [Event.callRollback p]) tx = none) :
    (rollback env p w).1 = none := by
  unfold rollback
  simp only [World.emit]
  rcases htx : (w.heap p).tx with _ | tx
  · simp
  · simp [h tx htx]

theorem rollback_unchanged_of_error (env : Env) (p : ConnPtr) (w : World)
    (h : (rollback env p w).1 ≠ none) : (rollback env p w).2.heap = w.heap := by
  unfold rollback at h ⊢
  simp only [World.emit] at h ⊢
  rcases htx : (w.heap p).tx with _ | tx
  · simp [htx] at h
  · rcases hr : env.driver.Rollback (w.trace ++ [Event.callRollback p]) tx with _ | e
    · simp [htx, hr] at h
    · simp [hr, World.emit]

theorem rollback_frame (env : Env) (p q : ConnPtr) (w : World) (hq : q ≠ p) :
    (rollback env p w).2.heap q = w.heap q := by
  unfold rollback
  simp only [World.emit]
  rcases htx : (w.heap p).tx with _ | tx
  · simp
  · rcases hr : env.driver.Rollback (w.trace ++ [Event.callRollback p]) tx with _ | e
    · simp [hr, World.store, World.emit, hq]
    · simp [hr, World.emit]

theorem commit_trace (env : Env) (p : ConnPtr) (w : World) :
    (commit env p w).2.trace =
      w.trace ++ Event.callCommit p ::
        (match (w.heap p).tx with
          | some tx =>
            [Event.driverCommit tx (env.driver.Commit (w.trace ++ [Event.callCommit p]) tx)]
          | none => []) := by
  unfold commit
  simp only [World.emit]
  rcases htx : (w.heap p).tx with _ | tx
  · simp
  · rcases hr : env.driver.Commit (w.trace ++ [Event.callCommit p]) tx with _ | e
    · simp [hr, World.store, World.emit]
    · simp [hr, World.emit]

theorem commit_closes (env : Env) (p : ConnPtr) (w : World)
    (h : (commit env p w).1 = none) : ((commit env p w).2.heap p).tx = none := by
  unfold commit at h ⊢
  simp only [World.emit] at h ⊢
  rcases htx : (w.heap p).tx with _ | tx
  · simp [htx] at h
  · rcases hr : env.driver.Commit (w.trace ++ [Event.callCommit p]) tx with _ | e
    · simp [htx, hr, World.store, World.emit]
    · simp [htx, hr] at h

theorem commit_unchanged_of_error (env : Env) (p : ConnPtr) (w : World)
    (h : (commit env p w).1 ≠ none) : (commit env p w).2.heap = w.heap := by
  unfold commit at h ⊢
  simp only [World.emit] at h ⊢
  rcases htx : (w.heap p).tx with _ | tx
  · simp
  · rcases hr : env.driver.Commit (w.trace ++ [Event.callCommit p]) tx with _ | e
    · simp [htx, hr] at h
    · simp [hr, World.emit]

theorem commit_frame (env : Env) (p q : ConnPtr) (w : World) (hq : q ≠ p) :
    (commit env p w).2.heap q = w.heap q := by
  unfold commit
  simp only [World.emit]
  rcases htx : (w.heap p).tx with _ | tx
  · simp
  · rcases hr : env.driver.Commit (w.trace ++ [Event.callCommit p]) tx with _ | e
    · simp [hr, World.store, World.emit, hq]
    · simp [hr, World.emit]

theorem commit_on_closed (env : Env) (p : ConnPtr) (w : World) (h : (w.heap p).tx = none) :
    commit env p w
      = (some (GoError.errorsNew "commit事务为空"), w.emit (Event.callCommit p)) := by
  unfold commit
  simp [World.emit, h]

/-! ## Transaction: the two ways in -/

theorem Transaction_nonopener (env : Env) (ctx ctx1 : Option Context) (work : WorkFn)
    (w w1 : World) (p : ConnPtr)
    (hentry : checkDBConn env ctx false 1 w = ((ctx1, some p, none), w1))
    (htx : (w1.heap p).tx ≠ none) :
    Transaction env ctx work w = runWork env p false ctx1 work w1 := by
  rcases h : (w1.heap p).tx with _ | tx
  · exact absurd h htx
  · simp [Transaction, hentry, h]

theorem Transaction_opener (env : Env) (ctx ctx1 : Option Context) (work : WorkFn)
    (w w1 w2 : World) (p : ConnPtr)
    (hentry : checkDBConn env ctx false 1 w = ((ctx1, some p, none), w1))
    (htx : (w1.heap p).tx = none)
    (hbegin : beginTx env p ctx1 w1 = (Outcome.ret none, w2)) :
    Transaction env ctx work w = runWork env p true ctx1 work w2 := by
  simp [Transaction, hentry, htx, hbegin]

theorem Transaction_entered (env : Env) (ctx ctx1 : Option Context) (work : WorkFn)
    (w w1 w2 : World) (p : ConnPtr)
    (hentry : checkDBConn env ctx false 1 w = ((ctx1, some p, none), w1))
    (hbegin : ((w1.heap p).tx ≠ none ∧ w2 = w1) ∨
      ((w1.heap p).tx = none ∧ beginTx env p ctx1 w1 = (Outcome.ret none, w2))) :
    ∃ localTxOpen, Transaction env ctx work w = runWork env p localTxOpen ctx1 work w2 := by
  rcases hbegin with ⟨h, rfl⟩ | ⟨h, hb⟩
  · exact ⟨false, Transaction_nonopener env ctx ctx1 work w w2 p hentry h⟩
  · exact ⟨true, Transaction_opener env ctx ctx1 work w w1 w2 p hentry h hb⟩

theorem runWork_error (env : Env) (p : ConnPtr) (localTxOpen : Bool) (ctx : Option Context)
    (work : WorkFn) (w w3 : World) (info : GoValue) (err : GoError)
    (hwork : work ctx w = (Outcome.ret (info, some err), w3)) :
    (∃ e, (runWork env p localTxOpen ctx work w).1 = Outcome.ret (info, e)) ∧
    (runWork env p localTxOpen ctx work w).2.trace = (rollback env p w3).2.trace ∧
    (runWork env p localTxOpen ctx work w).2.heap = (rollback env p w3).2.heap := by
  simp only [runWork, hwork]
  rcases hr : rollback env p w3 with ⟨_ | rbErr, w4⟩ <;> simp

theorem runWork_panic (env : Env) (p : ConnPtr) (localTxOpen : Bool) (ctx : Option Context)
    (work : WorkFn) (w w3 : World) (r : PanicValue)
    (hwork : work ctx w = (Outcome.panic r, w3)) :
    (runWork env p localTxOpen ctx work w).1 = Outcome.ret (GoValue.nil, none) ∧
    (runWork env p localTxOpen ctx work w).2.trace = (rollback env p w3).2.trace ∧
    (runWork env p localTxOpen ctx work w).2.heap = (rollback env p w3).2.heap := by
  simp only [runWork, hwork, recovered]
  cases r with
  | err e =>
    simp only [callLogErr, rollback_logged]
    rcases hr : rollback env p w3 with ⟨_ | rbErr, w4⟩ <;> simp
  | value v =>
    simp only [callLogErr, rollback_logged]
    rcases hr : rollback env p w3 with ⟨_ | rbErr, w4⟩ <;> simp

theorem rollback_keeps_logged (env : Env) (p : ConnPtr) (w : World) :
    (rollback env p w).2.logged = w.logged := by
  unfold rollback
  simp only [World.emit]
  rcases htx : (w.heap p).tx with _ | tx
  · simp
  · rcases hr : env.driver.Rollback (w.trace ++ [Event.callRollback p]) tx with _ | e
    · simp [hr, World.store, World.emit]
    · simp [hr, World.emit]

theorem runWork_panic_logged (env : Env) (p : ConnPtr) (localTxOpen : Bool)
    (ctx : Option Context) (work : WorkFn) (w w3 : World) (r : PanicValue)
    (hwork : work ctx w = (Outcome.panic r, w3)) :
    (runWork env p localTxOpen ctx work w).2.logged
      = match (rollback env p w3).1 with
        | none =>
          (env.LogErr w3.logged
            (match r with
              | .err err => "recover: " ++ err.Error
              | .value rendered => "recover error: " ++ rendered)).2
        | some rbErr =>
          (env.LogErr
            (env.LogErr w3.logged
              (match r with
                | .err err => "recover: " ++ err.Error
                | .value rendered => "recover error: " ++ rendered)).2
            ("recover内事务回滚失败 " ++ rbErr.Error)).2 := by
  have hl := rollback_keeps_logged env p w3
  simp only [runWork, hwork, recovered]
  cases r with
  | err e =>
    simp only [callLogErr, rollback_logged]
    rcases hr : rollback env p w3 with ⟨_ | rbErr, w4⟩ <;> simp [hr] at hl ⊢
  | value v =>
    simp only [callLogErr, rollback_logged]
    rcases hr : rollback env p w3 with ⟨_ | rbErr, w4⟩ <;> simp [hr] at hl ⊢

theorem commitCalls_rollback (env : Env) (p : ConnPtr) (w : World) :
    commitCalls (rollback env p w).2.trace = commitCalls w.trace := by
  rw [rollback_trace]
  rcases (w.heap p).tx with _ | tx <;>
    simp [commitCalls, List.countP_append, List.countP_cons, Event.isCallCommit]

theorem rollbackCalls_rollback (env : Env) (p : ConnPtr) (w : World) :
    rollbackCalls p (rollback env p w).2.trace = rollbackCalls p w.trace + 1 := by
  rw [rollback_trace]
  rcases (w.heap p).tx with _ | tx <;> simp [rollbackCalls, List.count_cons]

theorem commitCalls_commit (env : Env) (p : ConnPtr) (w : World) :
    commitCalls (commit env p w).2.trace = commitCalls w.trace + 1 := by
  rw [commit_trace]
  rcases (w.heap p).tx with _ | tx <;>
    simp [commitCalls, List.countP_append, List.countP_cons, Event.isCallCommit]


/-! ## Transaction: commit, rollback and faults -/

theorem checkDBConn_ok_of_bound (env : Env) (ctx : Option Context) (hasTx : Bool) (rwType : Int)
    (w : World) (p : ConnPtr) (h : getDBConn ctx = (some p, none))
    (hdb : (w.heap p).db ≠ none) (htx : (w.heap p).tx ≠ none) :
    checkDBConn env ctx hasTx rwType w = ((ctx, some p, none), w) := by
  rw [checkDBConn_bound env ctx hasTx rwType w p h]
  simp [hdb, htx]

theorem checkDBConn_trace (env : Env) (ctx : Option Context) (hasTx : Bool) (rwType : Int)
    (w : World) : (checkDBConn env ctx hasTx rwType w).2.trace = w.trace := by
  rcases hget : getDBConn ctx with ⟨_ | q, _ | e⟩
  · cases hasTx with
    | true => simp [checkDBConn, hget]
    | false =>
      rw [checkDBConn_unbound env ctx rwType w hget]
      have h := newDBConn_trace (env.FuncReadWriteStrategy w rwType) w
      rcases hn : newDBConn (env.FuncReadWriteStrategy w rwType) w with ⟨⟨dbConn, _ | e⟩, w2⟩
      · rw [hn] at h
        exact h
      · rw [hn] at h
        exact h
  · simp [checkDBConn, hget]
  · rw [checkDBConn_bound env ctx hasTx rwType w q hget]
  · simp [checkDBConn, hget]

theorem commitCalls_beginTx (env : Env) (p : ConnPtr) (ctx : Option Context) (w : World) :
    commitCalls (beginTx env p ctx w).2.trace = commitCalls w.trace := by
  unfold beginTx
  simp only [World.emit]
  split
  · split
    · simp [commitCalls, List.countP_append, Event.isCallCommit]
    · split
      · simp [commitCalls, List.countP_append, Event.isCallCommit]
      · split
        · simp [commitCalls, List.countP_append, Event.isCallCommit]
        · split <;>
            simp [commitCalls, List.countP_append, Event.isCallCommit, World.store, World.emit]
  · simp [commitCalls, List.countP_append, Event.isCallCommit]

theorem commitCalls_entered (env : Env) (ctx ctx1 : Option Context) (w w1 w2 : World)
    (p : ConnPtr)
    (hentry : checkDBConn env ctx false 1 w = ((ctx1, some p, none), w1))
    (hbegin : ((w1.heap p).tx ≠ none ∧ w2 = w1) ∨
      ((w1.heap p).tx = none ∧ beginTx env p ctx1 w1 = (Outcome.ret none, w2))) :
    commitCalls w2.trace = commitCalls w.trace := by
  have h1 : w1.trace = w.trace := by
    have h := checkDBConn_trace env ctx false 1 w
    rw [hentry] at h
    exact h
  rcases hbegin with ⟨_, rfl⟩ | ⟨_, hb⟩
  · rw [h1]
  · have h := commitCalls_beginTx env p ctx1 w1
    rw [hb] at h
    rw [← h1]
    exact h

/-- C1 (counterexample). A non-opener whose business function returns a nil error can return
with the transaction closed: the handle 0 has transaction 7 open at entry, the business
function runs a nested `Transaction` whose work fails (which rolls back) and returns
`nil, nil`; the outer call returns `nil, nil`, has invoked no commit, and the handle's
transaction is nil. -/
theorem non_opener_returns_with_tx_closed :
    getDBConn boundCtx = (some 0, none) ∧
    ((handleWorld (some 7)).heap 0).tx = some 7 ∧
    (swallowingWork (errorsEnv okDriver) boundCtx (handleWorld (some 7))).1
        = Outcome.ret (GoValue.nil, none) ∧
    (Transaction (errorsEnv okDriver) boundCtx (swallowingWork (errorsEnv okDriver))
        (handleWorld (some 7))).1 = Outcome.ret (GoValue.nil, none) ∧
    commitCalls (Transaction (errorsEnv okDriver) boundCtx (swallowingWork (errorsEnv okDriver))
        (handleWorld (some 7))).2.trace = 0 ∧
    ((Transaction (errorsEnv okDriver) boundCtx (swallowingWork (errorsEnv okDriver))
        (handleWorld (some 7))).2.heap 0).tx = none := by
  decide

/-- C1 (amended). For a context whose bound handle has a physical connection and an open
transaction at entry (a non-opener): `Transaction` runs the business function on that context
and world and invokes no commit of its own, whatever the business function does; when the
business function returns a nil error, `Transaction` returns its result and leaves the world
exactly as the business function left it, so the transaction is still open on return if the
business function left it open. For a call that began the transaction itself and whose
business function returns a nil error: it invokes no commit before the business function
runs, and after the business function returns it invokes `commit` on the handle exactly
once, followed by nothing but the driver's answer. -/
theorem Transaction_commit_only_by_opener (env : Env) (ctx : Option Context) (work : WorkFn)
    (w : World) (p : ConnPtr) :
    (getDBConn ctx = (some p, none) → (w.heap p).db ≠ none → (w.heap p).tx ≠ none →
        commitCalls (Transaction env ctx work w).2.trace = commitCalls (work ctx w).2.trace ∧
        ∀ info w3, work ctx w = (Outcome.ret (info, none), w3) →
          Transaction env ctx work w = (Outcome.ret (info, none), w3) ∧
          ((w3.heap p).tx ≠ none → ((Transaction env ctx work w).2.heap p).tx ≠ none)) ∧
    (∀ ctx1 w1 w2 info w3,
        checkDBConn env ctx false 1 w = ((ctx1, some p, none), w1) →
        (w1.heap p).tx = none →
        beginTx env p ctx1 w1 = (Outcome.ret none, w2) →
        work ctx1 w2 = (Outcome.ret (info, none), w3) →
        commitCalls w2.trace = commitCalls w.trace ∧
        (Transaction env ctx work w).2.heap = (commit env p w3).2.heap ∧
        (Transaction env ctx work w).2.trace = (commit env p w3).2.trace ∧
        (∃ driverCalls,
          (Transaction env ctx work w).2.trace = w3.trace ++ Event.callCommit p :: driverCalls ∧
          commitCalls driverCalls = 0) ∧
        commitCalls (Transaction env ctx work w).2.trace = commitCalls w3.trace + 1) := by
  constructor
  · intro hget hdb htx
    have hentry := checkDBConn_ok_of_bound env ctx false 1 w p hget hdb htx
    rw [Transaction_nonopener env ctx ctx work w w p hentry htx]
    constructor
    · rcases hwork : work ctx w with ⟨o, w3⟩
      rcases o with ⟨info, _ | err⟩ | r
      · simp [runWork, hwork]
      · rw [(runWork_error env p false ctx work w w3 info err hwork).2.1]
        exact commitCalls_rollback env p w3
      · rw [(runWork_panic env p false ctx work w w3 r hwork).2.1]
        exact commitCalls_rollback env p w3
    · intro info w3 hwork
      have h : runWork env p false ctx work w = (Outcome.ret (info, none), w3) := by
        simp [runWork, hwork]
      rw [h]
      exact ⟨rfl, fun h3 => h3⟩
  · intro ctx1 w1 w2 info w3 hentry htx hbegin hwork
    rw [Transaction_opener env ctx ctx1 work w w1 w2 p hentry htx hbegin]
    have h : (runWork env p true ctx1 work w2).2.heap = (commit env p w3).2.heap ∧
        (runWork env p true ctx1 work w2).2.trace = (commit env p w3).2.trace := by
      simp only [runWork, hwork]
      rcases hc : commit env p w3 with ⟨_ | commitError, w4⟩ <;> simp
    refine ⟨commitCalls_entered env ctx ctx1 w w1 w2 p hentry (Or.inr ⟨htx, hbegin⟩),
      h.1, h.2, ?_, ?_⟩
    · rw [h.2, commit_trace]
      refine ⟨_, rfl, ?_⟩
      rcases (w3.heap p).tx with _ | tx <;>
        simp [commitCalls, List.countP_cons, Event.isCallCommit]
    · rw [h.2]
      exact commitCalls_commit env p w3

/-- Witness of C1 (amended): a non-opener with a succeeding business function returns its
result and leaves transaction 7 open; an opener commits once. -/
theorem Transaction_commit_only_by_opener_witness :
    (Transaction (defaultEnv okDriver) boundCtx okWork (handleWorld (some 7))
        = (Outcome.ret (GoValue.str "r", none), handleWorld (some 7)) ∧
      ((Transaction (defaultEnv okDriver) boundCtx okWork (handleWorld (some 7))).2.heap 0).tx
        ≠ none) ∧
    commitCalls (Transaction (defaultEnv okDriver) boundCtx okWork (handleWorld none)).2.trace
        = commitCalls
            (beginTx (defaultEnv okDriver) 0 boundCtx (handleWorld none)).2.trace + 1 :=
  ⟨((Transaction_commit_only_by_opener (defaultEnv okDriver) boundCtx okWork
        (handleWorld (some 7)) 0).1 rfl (by decide) (by decide)).2
      (GoValue.str "r") (handleWorld (some 7)) rfl |>.imp id (fun h => h (by decide)),
   ((Transaction_commit_only_by_opener (defaultEnv okDriver) boundCtx okWork
        (handleWorld none) 0).2 boundCtx (handleWorld none)
      (beginTx (defaultEnv okDriver) 0 boundCtx (handleWorld none)).2 (GoValue.str "r")
      (beginTx (defaultEnv okDriver) 0 boundCtx (handleWorld none)).2 rfl rfl rfl rfl).2.2.2.2⟩

/-- C2. When the business function returns a non-nil error, whether this call began the
transaction or joined it: `Transaction` returns the business function's result value, then
does exactly what `rollback` on the handle does (one more rollback call on the handle,
followed only by the driver's answer), invokes no commit before or after the business
function, and when the driver's rollback succeeds the handle has no open transaction on
return. -/
theorem Transaction_rolls_back_on_error (env : Env) (ctx ctx1 : Option Context) (work : WorkFn)
    (w w1 w2 w3 : World) (p : ConnPtr) (info : GoValue) (err : GoError)
    (hentry : checkDBConn env ctx false 1 w = ((ctx1, some p, none), w1))
    (hbegin : ((w1.heap p).tx ≠ none ∧ w2 = w1) ∨
      ((w1.heap p).tx = none ∧ beginTx env p ctx1 w1 = (Outcome.ret none, w2)))
    (hwork : work ctx1 w2 = (Outcome.ret (info, some err), w3)) :
    (∃ e, (Transaction env ctx work w).1 = Outcome.ret (info, e)) ∧
    (Transaction env ctx work w).2.heap = (rollback env p w3).2.heap ∧
    (Transaction env ctx work w).2.trace = (rollback env p w3).2.trace ∧
    rollbackCalls p (Transaction env ctx work w).2.trace = rollbackCalls p w3.trace + 1 ∧
    commitCalls w2.trace = commitCalls w.trace ∧
    commitCalls (Transaction env ctx work w).2.trace = commitCalls w3.trace ∧
    ((∀ tx, (w3.heap p).tx = some tx →
        env.driver.Rollback (w3.trace ++ [Event.callRollback p]) tx = none) →
      ((Transaction env ctx work w).2.heap p).tx = none) := by
  have hpre := commitCalls_entered env ctx ctx1 w w1 w2 p hentry hbegin
  obtain ⟨localTxOpen, h⟩ := Transaction_entered env ctx ctx1 work w w1 w2 p hentry hbegin
  rw [h]
  obtain ⟨h1, h2, h3⟩ := runWork_error env p localTxOpen ctx1 work w2 w3 info err hwork
  refine ⟨h1, h3, h2, ?_, hpre, ?_, ?_⟩
  · rw [h2]
    exact rollbackCalls_rollback env p w3
  · rw [h2]
    exact commitCalls_rollback env p w3
  · intro hdrv
    rw [h3]
    exact rollback_closes env p w3 (rollback_ok_of_driver env p w3 hdrv)

/-- Witness of C2: a non-opener whose business function fails rolls transaction 7 back. -/
theorem Transaction_rolls_back_on_error_witness :
    rollbackCalls 0
        (Transaction (defaultEnv okDriver) boundCtx failingWork (handleWorld (some 7))).2.trace
      = rollbackCalls 0 (handleWorld (some 7)).trace + 1 ∧
    commitCalls
        (Transaction (defaultEnv okDriver) boundCtx failingWork (handleWorld (some 7))).2.trace
      = commitCalls (handleWorld (some 7)).trace ∧
    ((Transaction (defaultEnv okDriver) boundCtx failingWork (handleWorld (some 7))).2.heap 0).tx
      = none :=
  have h := Transaction_rolls_back_on_error (defaultEnv okDriver) boundCtx boundCtx failingWork
    (handleWorld (some 7)) (handleWorld (some 7)) (handleWorld (some 7)) (handleWorld (some 7))
    0 (GoValue.str "r") (GoError.errorsNew "boom") rfl (Or.inl ⟨by decide, rfl⟩) rfl
  ⟨h.2.2.2.1, h.2.2.2.2.2.1, h.2.2.2.2.2.2 (fun _ _ => rfl)⟩

/-- C3 (counterexample). A business function that panics does not make `Transaction` panic:
the call returns normally with `nil, nil` (after rolling transaction 7 back), so the caller
does not observe the fault. -/
theorem Transaction_swallows_panic :
    (panickingWork boundCtx (handleWorld (some 7))).1 = Outcome.panic (PanicValue.value "oops") ∧
    (Transaction (defaultEnv okDriver) boundCtx panickingWork (handleWorld (some 7))).1
        = Outcome.ret (GoValue.nil, none) ∧
    (Transaction (errorsEnv okDriver) boundCtx panickingWork (handleWorld (some 7))).1
        = Outcome.ret (GoValue.nil, none) ∧
    ((Transaction (defaultEnv okDriver) boundCtx panickingWork (handleWorld (some 7))).2.heap
        0).tx = none := by
  decide

/-- C3 (amended). When the business function panics, whether this call began the transaction
or joined it: `Transaction` recovers the fault, does exactly what `rollback` on the handle
does (so the handle has no open transaction when the driver's rollback succeeds), invokes no
commit, and returns normally with the zero values `nil, nil`. It logs the fault: the lines
handed to the logger are those the business function left, then what `LogErr` makes of the
message built from the panic value (`recover: ` and the error's text for an error,
`recover error: ` and the rendered value otherwise), then, only when the rollback failed,
what `LogErr` makes of the rollback failure. -/
theorem Transaction_recovers_panic (env : Env) (ctx ctx1 : Option Context) (work : WorkFn)
    (w w1 w2 w3 : World) (p : ConnPtr) (r : PanicValue)
    (hentry : checkDBConn env ctx false 1 w = ((ctx1, some p, none), w1))
    (hbegin : ((w1.heap p).tx ≠ none ∧ w2 = w1) ∨
      ((w1.heap p).tx = none ∧ beginTx env p ctx1 w1 = (Outcome.ret none, w2)))
    (hwork : work ctx1 w2 = (Outcome.panic r, w3)) :
    (Transaction env ctx work w).1 = Outcome.ret (GoValue.nil, none) ∧
    (Transaction env ctx work w).2.heap = (rollback env p w3).2.heap ∧
    (Transaction env ctx work w).2.trace = (rollback env p w3).2.trace ∧
    rollbackCalls p (Transaction env ctx work w).2.trace = rollbackCalls p w3.trace + 1 ∧
    commitCalls w2.trace = commitCalls w.trace ∧
    commitCalls (Transaction env ctx work w).2.trace = commitCalls w3.trace ∧
    ((∀ tx, (w3.heap p).tx = some tx →
        env.driver.Rollback (w3.trace ++ [Event.callRollback p]) tx = none) →
      ((Transaction env ctx work w).2.heap p).tx = none) ∧
    (Transaction env ctx work w).2.logged
      = (match (rollback env p w3).1 with
        | none =>
          (env.LogErr w3.logged
            (match r with
              | .err err => "recover: " ++ err.Error
              | .value rendered => "recover error: " ++ rendered)).2
        | some rbErr =>
          (env.LogErr
            (env.LogErr w3.logged
              (match r with
                | .err err => "recover: " ++ err.Error
                | .value rendered => "recover error: " ++ rendered)).2
            ("recover内事务回滚失败 " ++ rbErr.Error)).2) := by
  have hpre := commitCalls_entered env ctx ctx1 w w1 w2 p hentry hbegin
  obtain ⟨localTxOpen, h⟩ := Transaction_entered env ctx ctx1 work w w1 w2 p hentry hbegin
  rw [h]
  obtain ⟨h1, h2, h3⟩ := runWork_panic env p localTxOpen ctx1 work w2 w3 r hwork
  refine ⟨h1, h3, h2, ?_, hpre, ?_, ?_,
    runWork_panic_logged env p localTxOpen ctx1 work w2 w3 r hwork⟩
  · rw [h2]
    exact rollbackCalls_rollback env p w3
  · rw [h2]
    exact commitCalls_rollback env p w3
  · intro hdrv
    rw [h3]
    exact rollback_closes env p w3 (rollback_ok_of_driver env p w3 hdrv)

/-- Witness of C3 (amended): an opener whose business function panics returns `nil, nil`
with the transaction it began rolled back, and the fault is the one line logged. -/
theorem Transaction_recovers_panic_witness :
    (Transaction (defaultEnv okDriver) boundCtx panickingWork (handleWorld none)).1
      = Outcome.ret (GoValue.nil, none) ∧
    ((Transaction (defaultEnv okDriver) boundCtx panickingWork (handleWorld none)).2.heap 0).tx
      = none ∧
    (Transaction (defaultEnv okDriver) boundCtx panickingWork (handleWorld none)).2.logged
      = ["recover error: oops"] :=
  have h := Transaction_recovers_panic (defaultEnv okDriver) boundCtx boundCtx panickingWork
    (handleWorld none) (handleWorld none)
    (beginTx (defaultEnv okDriver) 0 boundCtx (handleWorld none)).2
    (beginTx (defaultEnv okDriver) 0 boundCtx (handleWorld none)).2
    0 (PanicValue.value "oops") rfl (Or.inr ⟨rfl, rfl⟩) rfl
  ⟨h.1, h.2.2.2.2.2.2.1 (fun _ _ => rfl), h.2.2.2.2.2.2.2.trans (by decide)⟩

/-- C4 (the code at the failing input). With the package as shipped (`LogErr = logErr`,
which returns what `log.Output` returns) and a log writer that succeeds, a business function
returning `"r"` and the error `boom` makes `Transaction` roll back and return `"r"` with a
nil error: the business error is dropped. -/
theorem Transaction_drops_business_error :
    (failingWork boundCtx (handleWorld (some 7))).1
        = Outcome.ret (GoValue.str "r", some (GoError.errorsNew "boom")) ∧
    (Transaction (defaultEnv okDriver) boundCtx failingWork (handleWorld (some 7))).1
        = Outcome.ret (GoValue.str "r", none) ∧
    (Transaction (defaultEnv okDriver) boundCtx failingWork (handleWorld (some 7))).2.trace
        = [Event.callRollback 0, Event.driverRollback 7 none] ∧
    (Transaction (defaultEnv okDriver) boundCtx failingWork (handleWorld (some 7))).2.logged
        = ["Transaction-->doTransaction业务执行异常: boom"] := by
  decide

/-- C5 (the code at the failing input). With the package as shipped and a log writer that
succeeds, an opener whose business function returns `"r"` with a nil error and whose commit
is refused by the driver returns `"r"` with a nil error: the commit failure is dropped. -/
theorem Transaction_drops_commit_failure :
    ((handleWorld none).heap 0).tx = none ∧
    (Transaction (defaultEnv commitFailsDriver) boundCtx okWork (handleWorld none)).1
        = Outcome.ret (GoValue.str "r", none) ∧
    (Transaction (defaultEnv commitFailsDriver) boundCtx okWork (handleWorld none)).2.trace
        = [Event.callBeginTx 0, Event.driverBegin 0 none 1 none, Event.callCommit 0,
           Event.driverCommit 1 (some (GoError.errorsNew "driver: bad connection"))] ∧
    (Transaction (defaultEnv commitFailsDriver) boundCtx okWork (handleWorld none)).2.logged
        = ["Transaction-->commit事务提交失败 commit事务提交失败: driver: bad connection"] := by
  decide


/-! ## Nested calls -/

theorem checkDBConn_result_bound (env : Env) (ctx ctx1 : Option Context) (rwType : Int)
    (w w1 : World) (p : ConnPtr)
    (h : checkDBConn env ctx false rwType w = ((ctx1, some p, none), w1)) :
    getDBConn ctx1 = (some p, none) := by
  rcases hget : getDBConn ctx with ⟨_ | q, _ | e⟩
  · obtain ⟨c, rfl⟩ := getDBConn_ne_nil hget
    rw [checkDBConn_unbound env _ rwType w hget] at h
    rcases hn : newDBConn (env.FuncReadWriteStrategy w rwType) w with ⟨⟨dbConn, _ | e⟩, w2⟩
    · rw [hn] at h
      simp only [Prod.mk.injEq] at h
      obtain ⟨⟨h1, h2, _⟩, _⟩ := h
      rw [← h1, h2]
      exact getDBConn_WithValue c (some p)
    · rw [hn] at h
      simp at h
  · simp [checkDBConn, hget] at h
  · rw [checkDBConn_bound env ctx false rwType w q hget] at h
    simp only [Prod.mk.injEq] at h
    obtain ⟨⟨h1, h2, _⟩, _⟩ := h
    rw [← h1]
    simp only [Option.some.injEq] at h2
    rw [← h2]
    exact hget
  · simp [checkDBConn, hget] at h

theorem beginTx_ok (env : Env) (p : ConnPtr) (ctx : Option Context) (w w2 : World)
    (htx : (w.heap p).tx = none) (h : beginTx env p ctx w = (Outcome.ret none, w2)) :
    (w2.heap p).db ≠ none ∧ (w2.heap p).tx ≠ none := by
  unfold beginTx at h
  simp only [World.emit, htx] at h
  split at h
  · simp at h
  · split at h
    · simp at h
    · split at h
      · simp at h
      · rename_i db hdb
        split at h
        · simp at h
        · simp only [Prod.mk.injEq, true_and] at h
          subst h
          simp [World.store, World.emit, hdb]

theorem runWork_after_closed (env : Env) (p : ConnPtr) (ctx : Option Context) (work : WorkFn)
    (w W : World) (o : Outcome (GoValue × Option GoError))
    (hwork : work ctx w = (o, W)) (hclosed : (W.heap p).tx = none) :
    ∃ last, (runWork env p true ctx work w).2.trace = W.trace ++ [last] ∧
      (last = Event.callRollback p ∨ last = Event.callCommit p) ∧
      ((runWork env p true ctx work w).2.heap p).tx = none := by
  have hrbT : (rollback env p W).2.trace = W.trace ++ [Event.callRollback p] := by
    rw [rollback_trace, hclosed]
  have hrbH : ((rollback env p W).2.heap p).tx = none :=
    rollback_closes env p W (rollback_ok_of_driver env p W (fun tx h => by simp [hclosed] at h))
  rcases o with ⟨info, _ | err⟩ | r
  · refine ⟨Event.callCommit p, ?_, Or.inr rfl, ?_⟩
    · simp [runWork, hwork, commit_on_closed env p W hclosed, World.emit]
    · simp [runWork, hwork, commit_on_closed env p W hclosed, World.emit, hclosed]
  · obtain ⟨_, h2, h3⟩ := runWork_error env p true ctx work w W info err hwork
    exact ⟨Event.callRollback p, by rw [h2, hrbT], Or.inl rfl, by rw [h3]; exact hrbH⟩
  · obtain ⟨_, h2, h3⟩ := runWork_panic env p true ctx work w W r hwork
    exact ⟨Event.callRollback p, by rw [h2, hrbT], Or.inl rfl, by rw [h3]; exact hrbH⟩

/-- C6. An outer `Transaction` begins the transaction; its business function calls
`Transaction` again on the context it was handed and does nothing else before returning; the
inner business function returns an error with the transaction still open, and the driver's
rollback succeeds. Then, whatever the outer business function returns (a nil error, an error,
or a panic), everything that happens after the inner business function is: one rollback call
on the handle with one successful driver rollback (the inner call's), then a single call on
the handle by the outer call (a rollback or a commit) that does not reach the driver. So the
driver sees exactly one rollback and no commit, and the handle has no open transaction. -/
theorem nested_failure_rolls_back_once (env : Env) (ctx ctx1 : Option Context)
    (inner : WorkFn)
    (post : Outcome (GoValue × Option GoError) → Outcome (GoValue × Option GoError))
    (w w1 w2 w3 : World) (p : ConnPtr) (tx : TxId) (r : GoValue) (e : GoError)
    (hentry : checkDBConn env ctx false 1 w = ((ctx1, some p, none), w1))
    (hnone : (w1.heap p).tx = none)
    (hbegin : beginTx env p ctx1 w1 = (Outcome.ret none, w2))
    (hinner : inner ctx1 w2 = (Outcome.ret (r, some e), w3))
    (hopen : (w3.heap p).tx = some tx)
    (hrb : env.driver.Rollback (w3.trace ++ [Event.callRollback p]) tx = none) :
    ∃ last,
      (Transaction env ctx (nestedWork env inner post) w).2.trace
        = w3.trace ++ [Event.callRollback p, Event.driverRollback tx none, last] ∧
      (last = Event.callRollback p ∨ last = Event.callCommit p) ∧
      driverRollbacks (Transaction env ctx (nestedWork env inner post) w).2.trace
        = driverRollbacks w3.trace + 1 ∧
      driverCommits (Transaction env ctx (nestedWork env inner post) w).2.trace
        = driverCommits w3.trace ∧
      ((Transaction env ctx (nestedWork env inner post) w).2.heap p).tx = none := by
  have hget := checkDBConn_result_bound env ctx ctx1 1 w w1 p hentry
  obtain ⟨hdb2, htx2⟩ := beginTx_ok env p ctx1 w1 w2 hnone hbegin
  have hentry2 := checkDBConn_ok_of_bound env ctx1 false 1 w2 p hget hdb2 htx2
  have hT := Transaction_nonopener env ctx1 ctx1 inner w2 w2 p hentry2 htx2
  obtain ⟨_, hIt, hIh⟩ := runWork_error env p false ctx1 inner w2 w3 r e hinner
  have hrbT : (rollback env p w3).2.trace
      = w3.trace ++ [Event.callRollback p, Event.driverRollback tx none] := by
    rw [rollback_trace, hopen]
    simp only [hrb]
  have hrbH : ((rollback env p w3).2.heap p).tx = none :=
    rollback_closes env p w3
      (rollback_ok_of_driver env p w3 (fun t ht => by
        rw [hopen] at ht
        simp only [Option.some.injEq] at ht
        rw [← ht]
        exact hrb))
  have hWt : (Transaction env ctx1 inner w2).2.trace
      = w3.trace ++ [Event.callRollback p, Event.driverRollback tx none] := by
    rw [hT, hIt, hrbT]
  have hWh : ((Transaction env ctx1 inner w2).2.heap p).tx = none := by
    rw [hT, hIh]
    exact hrbH
  rw [Transaction_opener env ctx ctx1 (nestedWork env inner post) w w1 w2 p hentry hnone hbegin]
  obtain ⟨last, h1, h2, h3⟩ := runWork_after_closed env p ctx1 (nestedWork env inner post) w2
    (Transaction env ctx1 inner w2).2 (post (Transaction env ctx1 inner w2).1) rfl hWh
  refine ⟨last, ?_, h2, ?_, ?_, h3⟩
  · rw [h1, hWt]
    simp
  · rw [h1, hWt]
    rcases h2 with rfl | rfl <;>
      simp [driverRollbacks, List.countP_append, List.countP_cons, Event.isDriverRollback]
  · rw [h1, hWt]
    rcases h2 with rfl | rfl <;>
      simp [driverCommits, List.countP_append, List.countP_cons, Event.isDriverCommit]

/-- Witness of C6: the outer call binds a new handle and begins; the inner business function
fails; the outer business function passes the inner result on. -/
theorem nested_failure_rolls_back_once_witness :
    ∃ last,
      (Transaction (errorsEnv okDriver) plainCtx
          (nestedWork (errorsEnv okDriver) failingWork id) freshWorld).2.trace
        = (beginTx (errorsEnv okDriver) 0 boundCtx
            (checkDBConn (errorsEnv okDriver) plainCtx false 1 freshWorld).2).2.trace
          ++ [Event.callRollback 0, Event.driverRollback 1 none, last] ∧
      (last = Event.callRollback 0 ∨ last = Event.callCommit 0) ∧
      driverRollbacks (Transaction (errorsEnv okDriver) plainCtx
          (nestedWork (errorsEnv okDriver) failingWork id) freshWorld).2.trace
        = driverRollbacks (beginTx (errorsEnv okDriver) 0 boundCtx
            (checkDBConn (errorsEnv okDriver) plainCtx false 1 freshWorld).2).2.trace + 1 ∧
      driverCommits (Transaction (errorsEnv okDriver) plainCtx
          (nestedWork (errorsEnv okDriver) failingWork id) freshWorld).2.trace
        = driverCommits (beginTx (errorsEnv okDriver) 0 boundCtx
            (checkDBConn (errorsEnv okDriver) plainCtx false 1 freshWorld).2).2.trace ∧
      ((Transaction (errorsEnv okDriver) plainCtx
          (nestedWork (errorsEnv okDriver) failingWork id) freshWorld).2.heap 0).tx = none :=
  nested_failure_rolls_back_once (errorsEnv okDriver) plainCtx boundCtx failingWork id
    freshWorld (checkDBConn (errorsEnv okDriver) plainCtx false 1 freshWorld).2
    (beginTx (errorsEnv okDriver) 0 boundCtx
      (checkDBConn (errorsEnv okDriver) plainCtx false 1 freshWorld).2).2
    (beginTx (errorsEnv okDriver) 0 boundCtx
      (checkDBConn (errorsEnv okDriver) plainCtx false 1 freshWorld).2).2
    0 1 (GoValue.str "r") (GoError.errorsNew "boom") rfl rfl rfl rfl rfl rfl


/-! ## The life cycle of a handle's transaction -/

theorem beginTx_frame (env : Env) (p q : ConnPtr) (ctx : Option Context) (w : World)
    (hq : q ≠ p) : (beginTx env p ctx w).2.heap q = w.heap q := by
  unfold beginTx
  simp only [World.emit]
  split
  · split
    · rfl
    · split
      · rfl
      · split
        · rfl
        · split
          · rfl
          · simp [World.store, World.emit, hq]
  · rfl

theorem beginTx_open (env : Env) (p : ConnPtr) (ctx : Option Context) (w : World)
    (htx : (w.heap p).tx ≠ none) :
    beginTx env p ctx w = (Outcome.ret none, w.emit (Event.callBeginTx p)) := by
  rcases h : (w.heap p).tx with _ | tx
  · exact absurd h htx
  · unfold beginTx
    simp [World.emit, h]

theorem beginTx_closed (env : Env) (p : ConnPtr) (ctx : Option Context) (w : World)
    (htx : (w.heap p).tx = none) :
    ((beginTx env p ctx w).1 = Outcome.ret none ∧
      ∃ db opts, (w.heap p).db = some db ∧
        env.driver.BeginTx (w.trace ++ [Event.callBeginTx p]) db opts = none ∧
        (beginTx env p ctx w).2.trace
          = w.trace ++ [Event.callBeginTx p,
              Event.driverBegin db opts (w.trace ++ [Event.callBeginTx p]).length none] ∧
        ((beginTx env p ctx w).2.heap p).tx
          = some (w.trace ++ [Event.callBeginTx p]).length) ∨
    ((beginTx env p ctx w).1 ≠ Outcome.ret none ∧ (beginTx env p ctx w).2.heap = w.heap) := by
  unfold beginTx
  simp only [World.emit, htx]
  split
  · right
    simp
  · split
    · right
      simp
    · rename_i opts _
      split
      · right
        simp
      · rename_i db hdb
        split
        · right
          simp
        · rename_i hdrv
          left
          refine ⟨rfl, db, opts, hdb, hdrv, ?_, ?_⟩
          · simp [World.store, World.emit]
          · simp [World.store, World.emit]

theorem HandleOp_run_tx (env : Env) (p q : ConnPtr) (op : HandleOp) (w : World) :
    ((op.run env q w).2.heap p).tx.isSome =
      (if q = p ∧ succeeded (op.run env q w).1 = true then
        (match op with
          | .opBeginTx _ => true
          | _ => false)
       else (w.heap p).tx.isSome) := by
  by_cases hq : q = p
  · subst hq
    cases op with
    | opBeginTx ctx =>
      simp only [HandleOp.run]
      by_cases htx : (w.heap q).tx = none
      · rcases beginTx_closed env q ctx w htx with ⟨h1, _, _, _, _, _, h2⟩ | ⟨h1, h2⟩
        · simp [h1, h2, succeeded]
        · have hs : succeeded (beginTx env q ctx w).1 = false := by
            rcases hb : (beginTx env q ctx w).1 with ⟨_ | e⟩ | v
            · exact absurd hb h1
            · rfl
            · rfl
          simp [hs, h2]
      · rw [beginTx_open env q ctx w htx]
        rcases h : (w.heap q).tx with _ | tx
        · exact absurd h htx
        · simp [succeeded, World.emit, h]
    | opCommit =>
      simp only [HandleOp.run]
      rcases hc : (commit env q w).1 with _ | e
      · simp [succeeded, commit_closes env q w hc]
      · have hne : (commit env q w).1 ≠ none := by simp [hc]
        simp [succeeded, commit_unchanged_of_error env q w hne]
    | opRollback =>
      simp only [HandleOp.run]
      rcases hc : (rollback env q w).1 with _ | e
      · simp [succeeded, rollback_closes env q w hc]
      · have hne : (rollback env q w).1 ≠ none := by simp [hc]
        simp [succeeded, rollback_unchanged_of_error env q w hne]
  · have hpq : p ≠ q := fun h => hq h.symm
    cases op with
    | opBeginTx ctx => simp [HandleOp.run, hq, beginTx_frame env q p ctx w hpq]
    | opCommit => simp [HandleOp.run, hq, commit_frame env q p w hpq]
    | opRollback => simp [HandleOp.run, hq, rollback_frame env q p w hpq]

theorem runOps_tx (env : Env) (p : ConnPtr) (ops : List (ConnPtr × HandleOp)) :
    ∀ w : World,
      ((runOps env ops w).heap p).tx.isSome
        = betweenBeginAndEnd p (runLog env ops w) (w.heap p).tx.isSome := by
  induction ops with
  | nil => intro w; rfl
  | cons qop rest ih =>
    intro w
    obtain ⟨q, op⟩ := qop
    simp only [runOps, runLog, betweenBeginAndEnd]
    rw [ih, HandleOp_run_tx]

/-- C7. A handle created by `newDBConn` has no transaction. `beginTx` leaves an open
transaction unchanged; on a handle without transaction it sets one only when the driver's
`BeginTx` succeeded (the trace then ends with that successful driver call), and leaves it nil
when it did not return a nil error. A `commit` or `rollback` that returns a nil error leaves
the transaction nil; one that returns an error leaves the handle as it was. Hence, after any
sequence of `beginTx`, `commit` and `rollback` on this and other handles, the handle's
transaction is non-nil exactly when its last successful operation is a begin. -/
theorem handle_tx_lifecycle (env : Env) (d : DBDao) (ds : dataSource) (w : World)
    (hds : d.dataSource = some ds) :
    (newDBConn (some d) w).1 = (some w.next, none) ∧
    ((newDBConn (some d) w).2.heap w.next).tx = none ∧
    (∀ (v : World) (p : ConnPtr) (ctx : Option Context), (v.heap p).tx ≠ none →
        ((beginTx env p ctx v).2.heap p).tx = (v.heap p).tx) ∧
    (∀ (v : World) (p : ConnPtr) (ctx : Option Context), (v.heap p).tx = none →
        ((beginTx env p ctx v).2.heap p).tx ≠ none →
        ∃ db opts tx,
          env.driver.BeginTx (v.trace ++ [Event.callBeginTx p]) db opts = none ∧
          (beginTx env p ctx v).2.trace
            = v.trace ++ [Event.callBeginTx p, Event.driverBegin db opts tx none] ∧
          ((beginTx env p ctx v).2.heap p).tx = some tx) ∧
    (∀ (v : World) (p : ConnPtr) (ctx : Option Context), (v.heap p).tx = none →
        (beginTx env p ctx v).1 ≠ Outcome.ret none →
        ((beginTx env p ctx v).2.heap p).tx = none) ∧
    (∀ (v : World) (p : ConnPtr), (commit env p v).1 = none →
        ((commit env p v).2.heap p).tx = none) ∧
    (∀ (v : World) (p : ConnPtr), (rollback env p v).1 = none →
        ((rollback env p v).2.heap p).tx = none) ∧
    (∀ (v : World) (p : ConnPtr), (commit env p v).1 ≠ none →
        (commit env p v).2.heap = v.heap) ∧
    (∀ (v : World) (p : ConnPtr), (rollback env p v).1 ≠ none →
        (rollback env p v).2.heap = v.heap) ∧
    (∀ ops : List (ConnPtr × HandleOp),
        ((runOps env ops (newDBConn (some d) w).2).heap w.next).tx.isSome
          = betweenBeginAndEnd w.next (runLog env ops (newDBConn (some d) w).2) false) := by
  have hnew : ((newDBConn (some d) w).2.heap w.next).tx = none := by
    simp [newDBConn, hds, World.store]
  refine ⟨by simp [newDBConn, hds], hnew, ?_, ?_, ?_, ?_, ?_, ?_, ?_, ?_⟩
  · intro v p ctx htx
    rw [beginTx_open env p ctx v htx]
    rfl
  · intro v p ctx htx hafter
    rcases beginTx_closed env p ctx v htx with ⟨_, db, opts, _, hdrv, ht, hh⟩ | ⟨_, h2⟩
    · exact ⟨db, opts, _, hdrv, ht, hh⟩
    · rw [h2] at hafter
      exact absurd htx hafter
  · intro v p ctx htx hfail
    rcases beginTx_closed env p ctx v htx with ⟨h1, _⟩ | ⟨_, h2⟩
    · exact absurd h1 hfail
    · rw [h2]
      exact htx
  · exact fun v p h => commit_closes env p v h
  · exact fun v p h => rollback_closes env p v h
  · exact fun v p h => commit_unchanged_of_error env p v h
  · exact fun v p h => rollback_unchanged_of_error env p v h
  · intro ops
    rw [runOps_tx env w.next ops, hnew]
    rfl

/-- Witness of C7: the handle made from `dao0` in `freshWorld`, driven by `sampleOps`; a
begin on the open transaction 7 leaves it, and a successful commit closes it. -/
theorem handle_tx_lifecycle_witness :
    dao0.dataSource = some { DB := some 0 } ∧
    ((newDBConn (some dao0) freshWorld).2.heap 0).tx = none ∧
    ((beginTx (defaultEnv okDriver) 0 plainCtx (handleWorld (some 7))).2.heap 0).tx
      = ((handleWorld (some 7)).heap 0).tx ∧
    ((commit (defaultEnv okDriver) 0 (handleWorld (some 7))).2.heap 0).tx = none ∧
    ((runOps (defaultEnv okDriver) sampleOps (newDBConn (some dao0) freshWorld).2).heap 0).tx.isSome
      = betweenBeginAndEnd 0
          (runLog (defaultEnv okDriver) sampleOps (newDBConn (some dao0) freshWorld).2) false ∧
    betweenBeginAndEnd 0
      (runLog (defaultEnv okDriver) sampleOps (newDBConn (some dao0) freshWorld).2) false
      = true :=
  have h := handle_tx_lifecycle (defaultEnv okDriver) dao0 { DB := some 0 } freshWorld rfl
  ⟨rfl, h.2.1, h.2.2.1 (handleWorld (some 7)) 0 plainCtx (by decide),
    h.2.2.2.2.2.1 (handleWorld (some 7)) 0 rfl, h.2.2.2.2.2.2.2.2.2 sampleOps, by decide⟩

/-! ## A handle without physical connection -/

/-- C10. For a context bound to a handle without physical connection (`db = nil`):
`checkDBConn` (whatever `hasTx` and `rwType`), `Transaction`, `QueryMap` (given a finder)
and `UpdateFinder` (given a finder whose SQL builds) fail with `errDBConn` and leave the
world untouched, so no statement is executed and no transaction is begun; `checkDBConn`
returns the handle it rejects, `Transaction` and `QueryMap` a nil result, `UpdateFinder`
`-1` affected rows. -/
theorem missing_connection_rejected (env : Env) (lib : Lib) (selectCount : SelectCountFn)
    (ctx : Option Context) (w : World) (p : ConnPtr)
    (hget : getDBConn ctx = (some p, none)) (hdb : (w.heap p).db = none) :
    (∀ hasTx rwType,
        checkDBConn env ctx hasTx rwType w = ((ctx, some p, some GoError.errDBConn), w)) ∧
    (∀ work : WorkFn,
        Transaction env ctx work w = (Outcome.ret (GoValue.nil, some GoError.errDBConn), w)) ∧
    (∀ (finder : Finder) (page : Option Page),
        QueryMap env lib selectCount ctx (some finder) page w
          = (Outcome.ret (none, some GoError.errDBConn), page, w)) ∧
    (∀ (finder : Finder) (sqlStr : String), lib.GetSQL finder = (sqlStr, none) →
        UpdateFinder env lib ctx (some finder) w
          = (Outcome.ret (-1, some GoError.errDBConn), w)) := by
  have hcheck : ∀ hasTx rwType,
      checkDBConn env ctx hasTx rwType w = ((ctx, some p, some GoError.errDBConn), w) := by
    intro hasTx rwType
    rw [checkDBConn_bound env ctx hasTx rwType w p hget]
    simp [hdb]
  refine ⟨hcheck, ?_, ?_, ?_⟩
  · intro work
    simp [Transaction, hcheck]
  · intro finder page
    simp [QueryMap, hget, isFabricated, hdb]
  · intro finder sqlStr hsql
    simp [UpdateFinder, hsql, hget, isFabricated, hdb]

/-- Witness of C10: the context bound to handle 0 in a world where handle 0 is the zero
value of `dbConnection`. -/
theorem missing_connection_rejected_witness :
    getDBConn boundCtx = (some 0, none) ∧ (fabricatedWorld.heap 0).db = none ∧
    Transaction (defaultEnv okDriver) boundCtx okWork fabricatedWorld
      = (Outcome.ret (GoValue.nil, some GoError.errDBConn), fabricatedWorld) ∧
    QueryMap (defaultEnv okDriver) lib0 selectCount0 boundCtx (some finder0) none fabricatedWorld
      = (Outcome.ret (none, some GoError.errDBConn), none, fabricatedWorld) ∧
    UpdateFinder (defaultEnv okDriver) lib0 boundCtx (some finder0) fabricatedWorld
      = (Outcome.ret (-1, some GoError.errDBConn), fabricatedWorld) :=
  have h := missing_connection_rejected (defaultEnv okDriver) lib0 selectCount0 boundCtx
    fabricatedWorld 0 rfl rfl
  ⟨rfl, rfl, h.2.1 okWork, h.2.2.1 finder0 none, h.2.2.2 finder0 "update t set a=?" rfl⟩


/-! ## Binding a context -/

/-- C11. `BindCtxDBConn(parent)` on an initialised dao with a non-nil parent returns, with a
nil error, the parent extended by a binding of a new handle: `getDBConn` of the returned
context yields that handle, which sits at a fresh address and has the dao's pool, the dao's
config and no transaction. The parent is untouched: contexts are immutable values, so
`getDBConn(parent)` is what it was, every handle that existed before the call is unchanged,
the returned context keeps every other binding of the parent, and no driver call is made. -/
theorem BindCtxDBConn_derives (d : DBDao) (ds : dataSource) (parent : Context) (w : World)
    (hds : d.dataSource = some ds) :
    (BindCtxDBConn (some d) (some parent) w).1
      = (some (parent.withValue .ctxConnKey (.conn (some w.next))), none) ∧
    getDBConn (BindCtxDBConn (some d) (some parent) w).1.1 = (some w.next, none) ∧
    (BindCtxDBConn (some d) (some parent) w).2.heap w.next
      = { db := ds.DB, tx := none, cfg := d.config } ∧
    (∀ q, q ≠ w.next → (BindCtxDBConn (some d) (some parent) w).2.heap q = w.heap q) ∧
    (∀ q, getDBConn (some parent) = (some q, none) → q ≠ w.next →
      (BindCtxDBConn (some d) (some parent) w).2.heap q = w.heap q) ∧
    (∀ k, k ≠ CtxKey.ctxConnKey →
      (parent.withValue .ctxConnKey (.conn (some w.next))).Value k = parent.Value k) ∧
    (BindCtxDBConn (some d) (some parent) w).2.trace = w.trace := by
  have hframe : ∀ q, q ≠ w.next →
      (BindCtxDBConn (some d) (some parent) w).2.heap q = w.heap q := by
    intro q hq
    simp [BindCtxDBConn, newDBConn, hds, World.store, hq]
  refine ⟨?_, ?_, ?_, hframe, fun q _ hq => hframe q hq, ?_, ?_⟩
  · simp [BindCtxDBConn, newDBConn, hds, WithValue]
  · simp [BindCtxDBConn, newDBConn, hds, getDBConn_WithValue]
  · simp [BindCtxDBConn, newDBConn, hds, World.store]
  · intro k hk
    simp [Context.Value, Ne.symm hk]
  · simp [BindCtxDBConn, newDBConn, hds, World.store]

/-- Witness of C11: binding `dao0` to a context already bound to handle 0 gives a context
bound to the new handle 1, and handle 0 keeps its transaction 7. -/
theorem BindCtxDBConn_derives_witness :
    dao0.dataSource = some { DB := some 0 } ∧
    getDBConn (BindCtxDBConn (some dao0) boundCtx (handleWorld (some 7))).1.1
      = (some 1, none) ∧
    (BindCtxDBConn (some dao0) boundCtx (handleWorld (some 7))).2.heap 1
      = { db := some 0, tx := none, cfg := some cfg0 } ∧
    (BindCtxDBConn (some dao0) boundCtx (handleWorld (some 7))).2.heap 0
      = (handleWorld (some 7)).heap 0 :=
  have h := BindCtxDBConn_derives dao0 { DB := some 0 }
    (.withValue .background .ctxConnKey (.conn (some 0))) (handleWorld (some 7)) rfl
  ⟨rfl, h.2.1, h.2.2.1, h.2.2.2.2.1 0 rfl (by decide)⟩

/-- C12. When `beginTx` begins a transaction on a handle that has none (and has a physical
connection), the driver's `BeginTx` is called once, with the options the context carries
under the key of `BindCtxTxOptions` when it carries some, and with the `DefaultTxOptions` of
the handle's config when it carries none. The context returned by `BindCtxTxOptions(parent,
txOptions)` carries exactly `txOptions`. -/
theorem beginTx_options (env : Env) (p : ConnPtr) (c : Context) (w : World) (db : DBId)
    (htx : (w.heap p).tx = none) (hdb : (w.heap p).db = some db) :
    (∀ o, c.Value .ctxTxOptKey = some (.txOpts o) →
        (beginTx env p (some c) w).2.trace
          = w.trace ++ [Event.callBeginTx p,
              Event.driverBegin db o (w.trace ++ [Event.callBeginTx p]).length
                (env.driver.BeginTx (w.trace ++ [Event.callBeginTx p]) db o)]) ∧
    (∀ (dao : Option DBDao) (parent : Context) (o : Option TxOptions),
        (BindCtxTxOptions dao (some parent) o).2 = none ∧
        ∃ bound, (BindCtxTxOptions dao (some parent) o).1 = some bound ∧
          bound.Value .ctxTxOptKey = some (.txOpts o)) ∧
    (∀ cfg, c.Value .ctxTxOptKey = none → (w.heap p).cfg = some cfg →
        (beginTx env p (some c) w).2.trace
          = w.trace ++ [Event.callBeginTx p,
              Event.driverBegin db cfg.DefaultTxOptions (w.trace ++ [Event.callBeginTx p]).length
                (env.driver.BeginTx (w.trace ++ [Event.callBeginTx p]) db
                  cfg.DefaultTxOptions)]) := by
  refine ⟨?_, ?_, ?_⟩
  · intro o ho
    unfold beginTx
    simp only [World.emit, htx, ho, hdb]
    rcases hd : env.driver.BeginTx (w.trace ++ [Event.callBeginTx p]) db o with _ | e
    · simp [World.store]
    · simp
  · intro dao parent o
    exact ⟨rfl, _, rfl, by simp [Context.Value]⟩
  · intro cfg ho hcfg
    unfold beginTx
    simp only [World.emit, htx, ho, hdb, hcfg]
    rcases hd : env.driver.BeginTx (w.trace ++ [Event.callBeginTx p]) db
      cfg.DefaultTxOptions with _ | e
    · simp [World.store]
    · simp

/-- Witness of C12: with read-committed options bound, the driver is asked for them; with
nothing bound, for the serializable default of the handle's config. -/
theorem beginTx_options_witness :
    (serializableWorld.heap 0).tx = none ∧ (serializableWorld.heap 0).db = some 0 ∧
    (beginTx (defaultEnv okDriver) 0
        (BindCtxTxOptions none boundCtx (some readCommitted)).1 serializableWorld).2.trace
      = [Event.callBeginTx 0, Event.driverBegin 0 (some readCommitted) 1 none] ∧
    (beginTx (defaultEnv okDriver) 0 boundCtx serializableWorld).2.trace
      = [Event.callBeginTx 0,
         Event.driverBegin 0 (some { Isolation := 6, ReadOnly := false }) 1 none] :=
  ⟨rfl, rfl,
   (beginTx_options (defaultEnv okDriver) 0
      ((Context.background.withValue .ctxConnKey (.conn (some 0))).withValue .ctxTxOptKey
        (.txOpts (some readCommitted)))
      serializableWorld 0 rfl rfl).1 (some readCommitted) rfl,
   (beginTx_options (defaultEnv okDriver) 0
      (Context.background.withValue .ctxConnKey (.conn (some 0)))
      serializableWorld 0 rfl rfl).2.2 cfgSerializable rfl rfl⟩

/-- C13 (the code at the failing input). The handle's config asks for serializable
isolation by default. After `BindCtxTxOptions(ctx, nil)` the context carries a nil
`*sql.TxOptions`, which is not a nil interface value, so `beginTx` takes it: the driver's
`BeginTx` is called with nil options, not with the config's `DefaultTxOptions` that it gets
when nothing is bound. -/
theorem nil_tx_options_bypass_default :
    (BindCtxTxOptions none boundCtx none).2 = none ∧
    (serializableWorld.heap 0).cfg = some cfgSerializable ∧
    cfgSerializable.DefaultTxOptions = some { Isolation := 6, ReadOnly := false } ∧
    (Transaction (defaultEnv okDriver) (BindCtxTxOptions none boundCtx none).1 okWork
        serializableWorld).2.trace
      = [Event.callBeginTx 0, Event.driverBegin 0 none 1 none, Event.callCommit 0,
         Event.driverCommit 1 none] ∧
    (Transaction (defaultEnv okDriver) boundCtx okWork serializableWorld).2.trace
      = [Event.callBeginTx 0,
         Event.driverBegin 0 (some { Isolation := 6, ReadOnly := false }) 1 none,
         Event.callCommit 0, Event.driverCommit 1 none] := by
  decide

/-! ## Updates outside a transaction -/

/-- C14. For a context without bound handle, or whose bound handle has no open
transaction, `wrapExecUpdateValuesAffected` returns a nil result and `errDBConn`, leaves
`*affected` and `*lastInsertID` as they were at the call (so `-1` for its callers) and leaves
the world untouched: no statement, no begin. Consequently `UpdateFinder`, with a finder whose
SQL builds and rebinds for the resolved driver, returns `(-1, errDBConn)`, with no driver
call and no change to any handle. -/
theorem update_requires_tx (env : Env) (lib : Lib) (ctx : Option Context) (w : World)
    (hctx : getDBConn ctx = (none, none) ∨
      ∃ p, getDBConn ctx = (some p, none) ∧ (w.heap p).tx = none) :
    (∀ affected sqlStr values lastInsertID,
        wrapExecUpdateValuesAffected env lib ctx affected sqlStr values lastInsertID w
          = (Outcome.ret { res := none, err := some GoError.errDBConn, affected := affected,
                           lastInsertID := lastInsertID }, w)) ∧
    (∀ finder sqlStr drv sqlStr1, lib.GetSQL finder = (sqlStr, none) →
        resolveDriver env (getDBConn ctx).1 1 w = Outcome.ret drv →
        lib.reBindSQL drv sqlStr = (sqlStr1, none) →
        (UpdateFinder env lib ctx (some finder) w).1 = Outcome.ret (-1, some GoError.errDBConn) ∧
        (UpdateFinder env lib ctx (some finder) w).2.trace = w.trace ∧
        (UpdateFinder env lib ctx (some finder) w).2.heap = w.heap) := by
  have hcheck : ∃ dbConn, checkDBConn env ctx true 1 w
      = ((ctx, dbConn, some GoError.errDBConn), w) := by
    rcases hctx with h | ⟨p, h, htx⟩
    · exact ⟨none, by simp [checkDBConn, h]⟩
    · refine ⟨some p, ?_⟩
      rw [checkDBConn_bound env ctx true 1 w p h]
      simp [htx]
  obtain ⟨dbConn0, hcheck⟩ := hcheck
  have hexec : ∀ affected sqlStr values lastInsertID,
      wrapExecUpdateValuesAffected env lib ctx affected sqlStr values lastInsertID w
        = (Outcome.ret { res := none, err := some GoError.errDBConn, affected := affected,
                         lastInsertID := lastInsertID }, w) := by
    intro affected sqlStr values lastInsertID
    simp [wrapExecUpdateValuesAffected, hcheck]
  refine ⟨hexec, ?_⟩
  intro finder sqlStr drv sqlStr1 hsql hdrv hbind
  rcases hget : getDBConn ctx with ⟨dbConn, _ | e⟩
  · rw [hget] at hdrv
    by_cases hfab : isFabricated dbConn w = true
    · simp [UpdateFinder, hsql, hget, hfab]
    · simp [UpdateFinder, hsql, hget, hfab, hdrv, hbind, hexec]
  · rcases hctx with h | ⟨p, h, _⟩ <;> simp [hget] at h

/-- Witness of C14: an update on a context with nothing bound, and on a handle without
transaction. -/
theorem update_requires_tx_witness :
    getDBConn plainCtx = (none, none) ∧
    (UpdateFinder (defaultEnv okDriver) lib0 plainCtx (some finder0) freshWorld).1
      = Outcome.ret (-1, some GoError.errDBConn) ∧
    (UpdateFinder (defaultEnv okDriver) lib0 plainCtx (some finder0) freshWorld).2.trace = [] ∧
    wrapExecUpdateValuesAffected (defaultEnv okDriver) lib0 boundCtx (-1) "update t set a=?"
        [GoValue.int 1] none (handleWorld none)
      = (Outcome.ret { res := none, err := some GoError.errDBConn, affected := -1,
                       lastInsertID := none }, handleWorld none) :=
  have h1 := (update_requires_tx (defaultEnv okDriver) lib0 plainCtx freshWorld
    (Or.inl rfl)).2 finder0 "update t set a=?" "mysql" "update t set a=?" rfl rfl rfl
  ⟨rfl, h1.1, h1.2.1,
   (update_requires_tx (defaultEnv okDriver) lib0 boundCtx (handleWorld none)
      (Or.inr ⟨0, rfl, rfl⟩)).1 (-1) "update t set a=?" [GoValue.int 1] none⟩


/-! ## Reading one row -/

theorem QueryRow_reads (env : Env) (lib : Lib) (qlib : QueryLib) (ctx ctx1 : Option Context)
    (finder : Finder) (entity : Entity) (w w1 w2 : World) (dbConn : Option ConnPtr)
    (drv sqlStr : String) (p : ConnPtr) (rows : Rows)
    (hkind : qlib.checkEntityKind entity = none)
    (hget : getDBConn ctx = (dbConn, none))
    (hfab : isFabricated dbConn w = false)
    (hdrv : resolveDriver env dbConn 0 w = Outcome.ret drv)
    (hsql : lib.wrapQuerySQL drv finder none = (sqlStr, none))
    (hcheck : checkDBConn env ctx false 0 w = ((ctx1, some p, none), w1))
    (hquery : queryCtx env p { sql := sqlStr, args := finder.values } w1
      = (Outcome.ret (Except.ok rows), w2)) :
    QueryRow env lib qlib ctx finder entity w = queryRowRead env lib qlib finder entity rows w2 := by
  simp [QueryRow, hkind, hget, hfab, hdrv, hsql, hcheck, hquery]

/-- C15 (the code at the failing input). A single-column result set with two rows whose
first value is SQL NULL: `QueryRow` returns at the first row with `found = true` and a nil
error, and the second row is never looked at. With a first value that is not NULL, and on
the multi-column path, two rows give the error `QueryRow查询出多条数据`. `LogErr` here returns
its message as an error. -/
theorem QueryRow_null_first_row_hides_second :
    (columnOf [GoValue.nil, GoValue.int 1]).data.length = 2 ∧
    (QueryRow (errorsEnv (rowsDriver (columnOf [GoValue.nil, GoValue.int 1]))) lib0 qlib0
        boundCtx selectFinder (Entity.scalar (GoValue.int 0)) (handleWorld none)).1
      = Outcome.ret (true, none) ∧
    (QueryRow (errorsEnv (rowsDriver (columnOf [GoValue.int 5, GoValue.int 1]))) lib0 qlib0
        boundCtx selectFinder (Entity.scalar (GoValue.int 0)) (handleWorld none)).1
      = Outcome.ret (true, some errManyRows) ∧
    (QueryRow (errorsEnv (rowsDriver twoRowsTwoColumns)) lib0 qlib0
        boundCtx selectFinder (Entity.struct []) (handleWorld none)).1
      = Outcome.ret (true, some errManyRows) := by
  decide

/-- C16 (counterexample). A single-column result whose only row is SQL NULL, read into a
destination that holds -1 (as `selectCount` does): `QueryRow` returns `found = true` and a
nil error, and the destination still holds -1, which is not the zero value of its type. -/
theorem QueryRow_null_keeps_nonzero_destination :
    (QueryRow (errorsEnv (rowsDriver (columnOf [GoValue.nil]))) lib0 qlib0
        boundCtx selectFinder (Entity.scalar (GoValue.int (-1))) (handleWorld none)).1
      = Outcome.ret (true, none) ∧
    (QueryRow (errorsEnv (rowsDriver (columnOf [GoValue.nil]))) lib0 qlib0
        boundCtx selectFinder (Entity.scalar (GoValue.int (-1))) (handleWorld none)).2.1
      = Entity.scalar (GoValue.int (-1)) ∧
    (QueryRow (errorsEnv (rowsDriver (columnOf [GoValue.nil]))) lib0 qlib0
        boundCtx selectFinder (Entity.scalar (GoValue.int (-1))) (handleWorld none)).2.1
      ≠ (Entity.scalar (GoValue.int (-1))).zero := by
  decide

/-- C16 (amended). When the query of `QueryRow` succeeds with a single-column cursor whose
only row is SQL NULL, `QueryRow` returns `found = true` with a nil error and leaves the
destination as it was before the call, whatever `Scan` would answer for that row and
whatever conversions are registered: nothing is scanned or converted, and after the query
only the cursor is closed. -/
theorem QueryRow_null_row (env : Env) (lib : Lib) (qlib : QueryLib) (ctx ctx1 : Option Context)
    (finder : Finder) (entity : Entity) (w w1 w2 : World) (dbConn : Option ConnPtr)
    (drv sqlStr : String) (p : ConnPtr) (rows : Rows) (columnType : ColumnType) (row : RawRow)
    (hkind : qlib.checkEntityKind entity = none)
    (hget : getDBConn ctx = (dbConn, none))
    (hfab : isFabricated dbConn w = false)
    (hdrv : resolveDriver env dbConn 0 w = Outcome.ret drv)
    (hsql : lib.wrapQuerySQL drv finder none = (sqlStr, none))
    (hcheck : checkDBConn env ctx false 0 w = ((ctx1, some p, none), w1))
    (hquery : queryCtx env p { sql := sqlStr, args := finder.values } w1
      = (Outcome.ret (Except.ok rows), w2))
    (hcols : rows.ColumnTypes = Except.ok [columnType])
    (hrows : rows.data = [row])
    (hnull : row.values.head? = some GoValue.nil) :
    QueryRow env lib qlib ctx finder entity w
      = (Outcome.ret (true, none), entity, w2.emit Event.rowsClose) := by
  rw [QueryRow_reads env lib qlib ctx ctx1 finder entity w w1 w2 dbConn drv sqlStr p rows
    hkind hget hfab hdrv hsql hcheck hquery]
  simp [queryRowRead, hcols, hrows, queryRowScalar, hnull, finishLoop]

/-- Witness of C16 (amended): a NULL row whose `Scan` would fail, read into a destination
holding 0 and into one holding -1. -/
theorem QueryRow_null_row_witness :
    QueryRow (errorsEnv (rowsDriver
        { ColumnTypes := Except.ok oneColumn,
          data := [{ values := [GoValue.nil], scanErr := some (GoError.errorsNew "scan") }] }))
        lib0 qlib0 boundCtx selectFinder (Entity.scalar (GoValue.int 0)) (handleWorld none)
      = (Outcome.ret (true, none), Entity.scalar (GoValue.int 0),
          (queryCtx (errorsEnv (rowsDriver
            { ColumnTypes := Except.ok oneColumn,
              data := [{ values := [GoValue.nil],
                         scanErr := some (GoError.errorsNew "scan") }] }))
            0 { sql := "SELECT c FROM t", args := [] } (handleWorld none)).2.emit
            Event.rowsClose) :=
  QueryRow_null_row _ lib0 qlib0 boundCtx boundCtx selectFinder (Entity.scalar (GoValue.int 0))
    (handleWorld none) (handleWorld none) _ (some 0) "mysql" "SELECT c FROM t" 0
    { ColumnTypes := Except.ok oneColumn,
      data := [{ values := [GoValue.nil], scanErr := some (GoError.errorsNew "scan") }] }
    { Name := "c", DatabaseTypeName := "INT" }
    { values := [GoValue.nil], scanErr := some (GoError.errorsNew "scan") }
    rfl rfl rfl rfl rfl rfl rfl rfl rfl rfl


/-! ## Reading a list -/

theorem Query_reads (env : Env) (lib : Lib) (qlib : QueryLib) (ctx ctx1 : Option Context)
    (finder : Finder) (s : SliceDest) (page : Option Page) (w w1 w2 : World)
    (dbConn : Option ConnPtr) (drv sqlStr : String) (p : ConnPtr) (rows : Rows)
    (hget : getDBConn ctx = (dbConn, none))
    (hfab : isFabricated dbConn w = false)
    (hdrv : resolveDriver env dbConn 0 w = Outcome.ret drv)
    (hsql : lib.wrapQuerySQL drv finder page = (sqlStr, none))
    (hcheck : checkDBConn env ctx false 0 w = ((ctx1, some p, none), w1))
    (hquery : queryCtx env p { sql := sqlStr, args := finder.values } w1
      = (Outcome.ret (Except.ok rows), w2)) :
    Query env lib qlib ctx finder (RowsSlicePtr.ptrToSlice s) page w
      = ((queryRead env lib qlib ctx1 finder s page rows w2).1,
         RowsSlicePtr.ptrToSlice (queryRead env lib qlib ctx1 finder s page rows w2).2.1,
         (queryRead env lib qlib ctx1 finder s page rows w2).2.2.1,
         (queryRead env lib qlib ctx1 finder s page rows w2).2.2.2) := by
  simp [Query, hget, hfab, hdrv, hsql, hcheck, hquery]

theorem queryScalars_plain (lib : Lib) (qlib : QueryLib) (finder : Finder)
    (columnType : ColumnType) (elemZero : Entity) (hreg : lib.CustomDriverValueMapLen = 0)
    (rows : List RawRow) :
    ∀ elems : List Entity,
      (∀ row ∈ rows, ∃ dv, row.values.head? = some dv ∧ (dv ≠ GoValue.nil → row.scanErr = none)) →
      queryScalars lib qlib finder columnType elemZero rows elems
        = (LoopEnd.ok, elems ++ rows.map (rowElement elemZero)) := by
  induction rows with
  | nil => intro elems _; simp [queryScalars]
  | cons row rest ih =>
    intro elems h
    obtain ⟨dv, hdv, hscan⟩ := h row (List.mem_cons_self row rest)
    have hrest : ∀ r ∈ rest, ∃ dv, r.values.head? = some dv ∧
        (dv ≠ GoValue.nil → r.scanErr = none) :=
      fun r hr => h r (List.mem_cons_of_mem row hr)
    by_cases hnil : dv = GoValue.nil
    · subst hnil
      simp [queryScalars, hdv, ih _ hrest, rowElement]
    · have hs := hscan hnil
      have hel : rowElement elemZero row = Entity.scalar dv := by
        cases dv with
        | nil => exact absurd rfl hnil
        | int i => simp [rowElement, hdv]
        | str s => simp [rowElement, hdv]
      simp [queryScalars, hdv, hnil, lookupConvert, hreg, hs, ih _ hrest, hel]

/-- C17. When the query of `Query` succeeds with a single-column cursor of n rows, no custom
conversion is registered, every row has its value and every value that is not NULL scans
without error: the destination slice becomes its previous contents followed by exactly n
new elements in result order, a NULL row contributing the zero value of the element type and
any other row its scanned value, whatever happens afterwards. When no total count is asked
for (no page, or the finder's flag is off) `Query` returns a nil error, leaves the page alone
and, after the query, only closes the cursor; when a total count is asked for, `selectCount`
succeeds and the page size is not 0, `Query` returns a nil error as well. -/
theorem Query_appends_rows (env : Env) (lib : Lib) (qlib : QueryLib) (ctx ctx1 : Option Context)
    (finder : Finder) (s : SliceDest) (page : Option Page) (w w1 w2 : World)
    (dbConn : Option ConnPtr) (drv sqlStr : String) (p : ConnPtr) (rows : Rows)
    (columnType : ColumnType)
    (hget : getDBConn ctx = (dbConn, none))
    (hfab : isFabricated dbConn w = false)
    (hdrv : resolveDriver env dbConn 0 w = Outcome.ret drv)
    (hsql : lib.wrapQuerySQL drv finder page = (sqlStr, none))
    (hcheck : checkDBConn env ctx false 0 w = ((ctx1, some p, none), w1))
    (hquery : queryCtx env p { sql := sqlStr, args := finder.values } w1
      = (Outcome.ret (Except.ok rows), w2))
    (hcols : rows.ColumnTypes = Except.ok [columnType])
    (hreg : lib.CustomDriverValueMapLen = 0)
    (hrows : ∀ row ∈ rows.data, ∃ dv, row.values.head? = some dv ∧
      (dv ≠ GoValue.nil → row.scanErr = none)) :
    (Query env lib qlib ctx finder (RowsSlicePtr.ptrToSlice s) page w).2.1
      = RowsSlicePtr.ptrToSlice
          { s with elems := s.elems ++ rows.data.map (rowElement s.elemZero) } ∧
    (s.elems ++ rows.data.map (rowElement s.elemZero)).length
      = s.elems.length + rows.data.length ∧
    ((page = none ∨ finder.SelectTotalCount = false) →
      Query env lib qlib ctx finder (RowsSlicePtr.ptrToSlice s) page w
        = (Outcome.ret none,
           RowsSlicePtr.ptrToSlice
             { s with elems := s.elems ++ rows.data.map (rowElement s.elemZero) },
           page, w2.emit Event.rowsClose)) ∧
    (∀ pg c w3, page = some pg → finder.SelectTotalCount = true →
      selectCount env lib qlib ctx1 (some finder) w2 = (Outcome.ret (c, none), w3) →
      pg.PageSize ≠ 0 →
      (Query env lib qlib ctx finder (RowsSlicePtr.ptrToSlice s) page w).1 = Outcome.ret none) := by
  have hloop := queryScalars_plain lib qlib finder columnType s.elemZero hreg rows.data s.elems
    hrows
  rw [Query_reads env lib qlib ctx ctx1 finder s page w w1 w2 dbConn drv sqlStr p rows
    hget hfab hdrv hsql hcheck hquery]
  refine ⟨?_, by simp, ?_, ?_⟩
  · simp [queryRead, hcols, hloop]
  · intro hpage
    have htotal : queryTotal env lib qlib ctx1 finder page w2 = (LoopEnd.ok, page, w2) := by
      rcases hpage with h | h
      · simp [queryTotal, h]
      · cases page with
        | none => simp [queryTotal]
        | some pg => simp [queryTotal, h]
    simp [queryRead, hcols, hloop, htotal, finishLoop]
  · intro pg c w3 hpg hflag hcount hsize
    subst hpg
    simp [queryRead, hcols, hloop, queryTotal, hflag, hcount, Page.setTotalCount, hsize,
      finishLoop]

/-- Witness of C17: three rows `5, NULL, 1` read into a slice of `int` that holds `9`. -/
theorem Query_appends_rows_witness :
    Query threeRowsEnv lib0 qlib0 boundCtx selectFinder
        (RowsSlicePtr.ptrToSlice (intSlice [Entity.scalar (GoValue.int 9)])) none
        (handleWorld none)
      = (Outcome.ret none,
         RowsSlicePtr.ptrToSlice
           { intSlice [Entity.scalar (GoValue.int 9)] with
             elems := [Entity.scalar (GoValue.int 9)] ++
               threeRows.data.map (rowElement (Entity.scalar (GoValue.int 0))) },
         none,
         (queryCtx threeRowsEnv 0 { sql := "SELECT c FROM t", args := [] }
            (handleWorld none)).2.emit Event.rowsClose) ∧
    [Entity.scalar (GoValue.int 9)] ++
        threeRows.data.map (rowElement (Entity.scalar (GoValue.int 0)))
      = [Entity.scalar (GoValue.int 9), Entity.scalar (GoValue.int 5),
         Entity.scalar (GoValue.int 0), Entity.scalar (GoValue.int 1)] :=
  ⟨(Query_appends_rows threeRowsEnv lib0 qlib0 boundCtx boundCtx selectFinder
      (intSlice [Entity.scalar (GoValue.int 9)]) none (handleWorld none) (handleWorld none)
      (queryCtx threeRowsEnv 0 { sql := "SELECT c FROM t", args := [] } (handleWorld none)).2
      (some 0) "mysql" "SELECT c FROM t" 0 threeRows
      { Name := "c", DatabaseTypeName := "INT" }
      rfl rfl rfl rfl rfl rfl rfl rfl (by decide)).2.2.1 (Or.inl rfl),
   by decide⟩


/-! ## Counting -/

/-- C18. When the finder carries a `CountFinder`, `selectCount` is the scalar query of that
statement and nothing else: it returns the count that query scanned (or -1 with the query's
error), its effects are that query's effects, and the result is the same for every finder
that carries this `CountFinder`, whatever `GetSQL` answers and whatever the searches for
`ORDER BY`, `GROUP BY` and `FROM` and the finder-building functions are: the original
statement is not read, rewritten or executed. -/
theorem selectCount_uses_CountFinder (env : Env) (lib : Lib) (qlib : QueryLib)
    (ctx : Option Context) (f countFinder : Finder) (w : World)
    (h : f.CountFinder = some countFinder) :
    selectCount env lib qlib ctx (some f) w = queryCount env lib qlib ctx countFinder w ∧
    (∀ has c w1,
        QueryRow env lib qlib ctx countFinder (Entity.scalar (GoValue.int (-1))) w
          = (Outcome.ret (has, none), Entity.scalar (GoValue.int c), w1) →
        selectCount env lib qlib ctx (some f) w = (Outcome.ret (c, none), w1)) ∧
    (∀ has err e w1,
        QueryRow env lib qlib ctx countFinder (Entity.scalar (GoValue.int (-1))) w
          = (Outcome.ret (has, some err), e, w1) →
        selectCount env lib qlib ctx (some f) w = (Outcome.ret (-1, some err), w1)) ∧
    (∀ f2 : Finder, f2.CountFinder = some countFinder →
        selectCount env lib qlib ctx (some f2) w = selectCount env lib qlib ctx (some f) w) ∧
    (∀ (getSQL : Finder → String × Option GoError) (o g fr : String → List Nat)
        (lower : String → String) (nf : Finder) (app : Finder → String → Finder),
        selectCount env { lib with GetSQL := getSQL }
            { qlib with findOrderByIndex := o, findGroupByIndex := g, findSelectFromIndex := fr,
                        ToLower := lower, NewFinder := nf, Append := app }
            ctx (some f) w
          = selectCount env lib qlib ctx (some f) w) := by
  have h0 : selectCount env lib qlib ctx (some f) w = queryCount env lib qlib ctx countFinder w := by
    simp [selectCount, h]
  refine ⟨h0, ?_, ?_, ?_, ?_⟩
  · intro has c w1 hq
    rw [h0]
    simp [queryCount, hq, countOf]
  · intro has err e w1 hq
    rw [h0]
    simp [queryCount, hq]
  · intro f2 h2
    rw [h0]
    simp [selectCount, h2]
  · intro getSQL o g fr lower nf app
    rw [h0]
    simp only [selectCount, h]
    rfl

/-- Witness of C18: two finders with different statements and the same `CountFinder` count
alike, and the only statement sent to the driver is the count statement. -/
theorem selectCount_uses_CountFinder_witness :
    selectCount (errorsEnv (rowsDriver (columnOf [GoValue.int 5]))) lib0 qlib0 boundCtx
        (some (countedFinder "SELECT a FROM t ORDER BY a" [GoValue.int 1])) (handleWorld none)
      = selectCount (errorsEnv (rowsDriver (columnOf [GoValue.int 5]))) lib0 qlib0 boundCtx
        (some (countedFinder "no statement at all" [])) (handleWorld none) ∧
    (selectCount (errorsEnv (rowsDriver (columnOf [GoValue.int 5]))) lib0 qlib0 boundCtx
        (some (countedFinder "no statement at all" [])) (handleWorld none)).1
      = Outcome.ret (5, none) ∧
    (selectCount (errorsEnv (rowsDriver (columnOf [GoValue.int 5]))) lib0 qlib0 boundCtx
        (some (countedFinder "no statement at all" [])) (handleWorld none)).2.trace
      = [Event.driverQuery none (some 0) { sql := "SELECT COUNT(*) FROM t", args := [] },
         Event.rowsClose] :=
  ⟨(selectCount_uses_CountFinder (errorsEnv (rowsDriver (columnOf [GoValue.int 5]))) lib0 qlib0
      boundCtx (countedFinder "no statement at all" [])
      (.mk "SELECT COUNT(*) FROM t" [] false none) (handleWorld none) rfl).2.2.2.1
      (countedFinder "SELECT a FROM t ORDER BY a" [GoValue.int 1]) rfl,
   by decide, by decide⟩

theorem selectCount_builds (env : Env) (lib : Lib) (qlib : QueryLib) (ctx : Option Context)
    (f : Finder) (w : World) (countSql sql : String)
    (hcf : f.CountFinder = none) (hsql : lib.GetSQL f = (countSql, none))
    (hcount : countStatement qlib countSql = Outcome.ret (Except.ok sql)) :
    selectCount env lib qlib ctx (some f) w
      = queryCount env lib qlib ctx ((qlib.Append qlib.NewFinder sql).setValues f.values) w := by
  simp [selectCount, hcf, hsql, hcount]

theorem Finder_setValues_values (f : Finder) (values : List GoValue) :
    (f.setValues values).values = values := by
  cases f
  rfl

/-- C19 (counterexample). For `SELECT DISTINCT a FROM t` the count statement that is built
is not `SELECT COUNT(*) FROM (SELECT DISTINCT a FROM t) AS sub`: the wrapping text of
dao.go:1385 is another one. And a statement in which DISTINCT is present without the blanks
the test looks for, `SELECT DISTINCT(a) FROM t`, is not wrapped at all. -/
theorem count_wrap_is_another_text :
    countStatement qlib0 "SELECT DISTINCT a FROM t"
      = Outcome.ret (Except.ok
          "SELECT COUNT(*)  frame_row_count FROM (SELECT DISTINCT a FROM t) temp_frame_noob_table_name WHERE 1=1 ") ∧
    countStatement qlib0 "SELECT DISTINCT a FROM t"
      ≠ Outcome.ret (Except.ok "SELECT COUNT(*) FROM (SELECT DISTINCT a FROM t) AS sub") ∧
    countStatement qlib0 "SELECT DISTINCT(a) FROM t"
      = Outcome.ret (Except.ok "SELECT COUNT(*) FROM t") := by
  refine ⟨rfl, ?_, rfl⟩
  intro h
  have h1 : countStatement qlib0 "SELECT DISTINCT a FROM t"
      = Outcome.ret (Except.ok
          "SELECT COUNT(*)  frame_row_count FROM (SELECT DISTINCT a FROM t) temp_frame_noob_table_name WHERE 1=1 ") :=
    rfl
  rw [h1] at h
  injection h with h
  injection h with h
  exact absurd h (by decide)

/-- C19 (amended). Let S' be the statement S with its ORDER BY clause cut off (the text
before the position `findOrderByIndex` reports, S itself when it reports none). When the
lower-cased S' contains ` distinct ` or ` union ` (with the blanks), or `findGroupByIndex`
finds a match in S', the count statement that is built is
`SELECT COUNT(*)  frame_row_count FROM (` S' `) temp_frame_noob_table_name WHERE 1=1 `, and
`selectCount` on a finder without `CountFinder` whose SQL is S is the scalar query of that
statement with the finder's own parameter values. -/
theorem countStatement_wraps (qlib : QueryLib) (S S' : String)
    (hstrip : stripOrderBy qlib S = Outcome.ret S')
    (hneed : stringsContains (qlib.ToLower S') " distinct " = true ∨
      stringsContains (qlib.ToLower S') " union " = true ∨
      qlib.findGroupByIndex S' ≠ []) :
    countStatement qlib S
      = Outcome.ret (Except.ok
          ("SELECT COUNT(*)  frame_row_count FROM (" ++ S' ++
            ") temp_frame_noob_table_name WHERE 1=1 ")) ∧
    (∀ o rest, qlib.findOrderByIndex S = o :: rest → S' = strPrefix S o) ∧
    (qlib.findOrderByIndex S = [] → S' = S) ∧
    (∀ (env : Env) (lib : Lib) (ctx : Option Context) (f : Finder) (w : World),
        f.CountFinder = none → lib.GetSQL f = (S, none) →
        selectCount env lib qlib ctx (some f) w
          = queryCount env lib qlib ctx
              ((qlib.Append qlib.NewFinder
                ("SELECT COUNT(*)  frame_row_count FROM (" ++ S' ++
                  ") temp_frame_noob_table_name WHERE 1=1 ")).setValues f.values) w) := by
  have hwrap : needsWrap qlib S' = true := by
    rcases hneed with h | h | h
    · simp [needsWrap, h]
    · simp [needsWrap, h]
    · have : (qlib.findGroupByIndex S').isEmpty = false := by
        cases hg : qlib.findGroupByIndex S' with
        | nil => exact absurd hg h
        | cons a l => rfl
      simp [needsWrap, this]
  have hcount : countStatement qlib S
      = Outcome.ret (Except.ok
          ("SELECT COUNT(*)  frame_row_count FROM (" ++ S' ++
            ") temp_frame_noob_table_name WHERE 1=1 ")) := by
    simp [countStatement, hstrip, hwrap]
  refine ⟨hcount, ?_, ?_, ?_⟩
  · intro o rest ho
    simp only [stripOrderBy, ho] at hstrip
    split at hstrip
    · injection hstrip with hstrip
      exact hstrip.symm
    · simp at hstrip
  · intro ho
    simp only [stripOrderBy, ho] at hstrip
    injection hstrip with hstrip
    exact hstrip.symm
  · intro env lib ctx f w hcf hsql
    exact selectCount_builds env lib qlib ctx f w S _ hcf hsql hcount

/-- Witness of C19 (amended): `SELECT a FROM t GROUP BY a ORDER BY a` is cut before its
ORDER BY clause and wrapped. -/
theorem countStatement_wraps_witness :
    stripOrderBy qlib0 "SELECT a FROM t GROUP BY a ORDER BY a"
      = Outcome.ret "SELECT a FROM t GROUP BY a" ∧
    countStatement qlib0 "SELECT a FROM t GROUP BY a ORDER BY a"
      = Outcome.ret (Except.ok
          ("SELECT COUNT(*)  frame_row_count FROM (" ++ "SELECT a FROM t GROUP BY a" ++
            ") temp_frame_noob_table_name WHERE 1=1 ")) :=
  ⟨rfl,
   (countStatement_wraps qlib0 "SELECT a FROM t GROUP BY a ORDER BY a"
      "SELECT a FROM t GROUP BY a" rfl (Or.inr (Or.inr (by decide)))).1⟩

theorem strPrefix_length (s : String) : strPrefix s s.length = s := by
  show (⟨s.data.take s.data.length⟩ : String) = s
  rw [List.take_length]

/-- C20. Let o be the position `findOrderByIndex` reports in S (the end of S when it reports
none) and S' = S[:o]. When S' has none of the special keywords (its lower-cased text contains
neither ` distinct ` nor ` union `, and `findGroupByIndex` finds nothing) and
`findSelectFromIndex` reports the position f in S', the count statement that is built is
`SELECT COUNT(*) ` followed by S[f:o], and `selectCount` on a finder without `CountFinder`
whose SQL is S is the scalar query of that statement with the finder's parameter values
unchanged. -/
theorem countStatement_splices (qlib : QueryLib) (S : String) (o f : Nat) (rest : List Nat)
    (ho : o = (match qlib.findOrderByIndex S with
      | o :: _ => o
      | [] => S.length))
    (hle : o ≤ S.length)
    (hplain : needsWrap qlib (strPrefix S o) = false)
    (hfrom : qlib.findSelectFromIndex (strPrefix S o) = f :: rest)
    (hf : f ≤ o) :
    countStatement qlib S = Outcome.ret (Except.ok ("SELECT COUNT(*) " ++ strSlice S f o)) ∧
    (∀ (env : Env) (lib : Lib) (ctx : Option Context) (fd : Finder) (w : World),
        fd.CountFinder = none → lib.GetSQL fd = (S, none) →
        selectCount env lib qlib ctx (some fd) w
          = queryCount env lib qlib ctx
              ((qlib.Append qlib.NewFinder
                ("SELECT COUNT(*) " ++ strSlice S f o)).setValues fd.values) w ∧
        ((qlib.Append qlib.NewFinder
            ("SELECT COUNT(*) " ++ strSlice S f o)).setValues fd.values).values
          = fd.values) := by
  have hstrip : stripOrderBy qlib S = Outcome.ret (strPrefix S o) := by
    unfold stripOrderBy
    cases hob : qlib.findOrderByIndex S with
    | nil =>
      rw [hob] at ho
      simp only at ho
      rw [ho, strPrefix_length]
    | cons a l =>
      rw [hob] at ho
      simp only at ho
      subst ho
      simp [hle]
  have hlen : f ≤ (strPrefix S o).length := by
    simp only [strPrefix, String.length, List.length_take]
    exact le_min hf (le_trans hf hle)
  have hcount : countStatement qlib S
      = Outcome.ret (Except.ok ("SELECT COUNT(*) " ++ strSlice S f o)) := by
    simp only [countStatement, hstrip, hplain, hfrom]
    rw [if_pos hlen]
    rfl
  refine ⟨hcount, ?_⟩
  intro env lib ctx fd w hcf hsql
  exact ⟨selectCount_builds env lib qlib ctx fd w S _ hcf hsql hcount,
    Finder_setValues_values _ _⟩

/-- Witness of C20: `SELECT a,b FROM t WHERE x=1 ORDER BY a` counts over
`FROM t WHERE x=1`. -/
theorem countStatement_splices_witness :
    strSlice "SELECT a,b FROM t WHERE x=1 ORDER BY a" 11 27 = "FROM t WHERE x=1" ∧
    countStatement qlib0 "SELECT a,b FROM t WHERE x=1 ORDER BY a"
      = Outcome.ret (Except.ok
          ("SELECT COUNT(*) " ++ strSlice "SELECT a,b FROM t WHERE x=1 ORDER BY a" 11 27)) :=
  ⟨by decide,
   (countStatement_splices qlib0 "SELECT a,b FROM t WHERE x=1 ORDER BY a" 27 11 [16]
      rfl (by decide) rfl rfl (by decide)).1⟩


/-! ## Counting: a statement without FROM -/

/-- C21 (counterexample). `SELECT DISTINCT 1` has no `FROM`, and `selectCount` neither fails
nor stays away from the database: the test for `FROM` is made only on a statement that is
not wrapped (dao.go:1388), so this statement is wrapped and one query is sent, whose count
is returned with a nil error. -/
theorem selectCount_wraps_without_from :
    qlib0.findSelectFromIndex "SELECT DISTINCT 1" = [] ∧
    (selectCount (defaultEnv (rowsDriver (columnOf [GoValue.int 1]))) lib0 qlib0 boundCtx
        (some distinctFinder) (handleWorld none)).1 = Outcome.ret (1, none) ∧
    (selectCount (defaultEnv (rowsDriver (columnOf [GoValue.int 1]))) lib0 qlib0 boundCtx
        (some distinctFinder) (handleWorld none)).2.trace
      = [Event.driverQuery none (some 0)
          { sql := "SELECT COUNT(*)  frame_row_count FROM (SELECT DISTINCT 1) temp_frame_noob_table_name WHERE 1=1 ",
            args := [] },
         Event.rowsClose] := by
  refine ⟨by decide, rfl, rfl⟩

/-- C21 (amended). For a finder without `CountFinder` whose statement, after its `ORDER BY`
clause is cut off, has none of the keywords that make `selectCount` wrap it (`distinct`,
`union`, `GROUP BY`) and no `FROM` that `findSelectFromIndex` locates: `selectCount` returns
-1 and the error of dao.go:1391, and the world is as before the call, so no query was
executed. A nil finder likewise returns -1 and an error and leaves the world as it was. -/
theorem selectCount_without_from (env : Env) (lib : Lib) (qlib : QueryLib)
    (ctx : Option Context) (f : Finder) (w : World) (countSql stripped : String)
    (hcf : f.CountFinder = none) (hsql : lib.GetSQL f = (countSql, none))
    (hstrip : stripOrderBy qlib countSql = Outcome.ret stripped)
    (hplain : needsWrap qlib stripped = false)
    (hfrom : qlib.findSelectFromIndex stripped = []) :
    selectCount env lib qlib ctx (some f) w = (Outcome.ret (-1, some errNoFrom), w) ∧
    (selectCount env lib qlib ctx (some f) w).2.trace = w.trace ∧
    selectCount env lib qlib ctx none w
      = (Outcome.ret (-1, some (GoError.errorsNew "selectCount参数为nil")), w) := by
  have h : selectCount env lib qlib ctx (some f) w = (Outcome.ret (-1, some errNoFrom), w) := by
    simp [selectCount, hcf, hsql, countStatement, hstrip, hplain, hfrom]
  refine ⟨h, ?_, rfl⟩
  rw [h]

/-- Witness of C21: `SELECT 1` has no `FROM` and is not wrapped. -/
theorem selectCount_without_from_witness :
    selectCount (defaultEnv okDriver) lib0 qlib0 boundCtx (some noFromFinder) (handleWorld none)
      = (Outcome.ret (-1, some errNoFrom), handleWorld none) ∧
    (selectCount (defaultEnv okDriver) lib0 qlib0 boundCtx (some noFromFinder)
        (handleWorld none)).2.trace = (handleWorld none).trace ∧
    selectCount (defaultEnv okDriver) lib0 qlib0 boundCtx none (handleWorld none)
      = (Outcome.ret (-1, some (GoError.errorsNew "selectCount参数为nil")), handleWorld none) :=
  selectCount_without_from (defaultEnv okDriver) lib0 qlib0 boundCtx noFromFinder
    (handleWorld none) "SELECT 1" "SELECT 1" rfl rfl rfl rfl rfl

/-! ## Transaction: a rollback that fails -/

/-- C26 (counterexample). With a `LogErr` that returns its message as an error, a business
function failing with `boom` and a driver whose rollback fails: the error `Transaction`
returns is built from the business error alone and holds no note of the rollback failure,
which is found only in a log line of its own. -/
theorem Transaction_rollback_failure_not_appended :
    (Transaction (errorsEnv rollbackFailsDriver) boundCtx failingWork (handleWorld (some 7))).1
      = Outcome.ret (GoValue.str "r",
          some (GoError.errorsNew "Transaction-->doTransaction业务执行异常: boom")) ∧
    (Transaction (errorsEnv rollbackFailsDriver) boundCtx failingWork
        (handleWorld (some 7))).2.logged
      = ["Transaction-->rollback事务回滚失败 rollback事务回滚失败: driver: bad connection",
         "Transaction-->doTransaction业务执行异常: boom"] ∧
    (Transaction (errorsEnv rollbackFailsDriver) boundCtx failingWork
        (handleWorld (some 7))).2.trace
      = [Event.callRollback 0,
         Event.driverRollback 7 (some (GoError.errorsNew "driver: bad connection"))] := by
  decide

/-- C26 (amended). When the business function returns an error and the rollback fails too,
whether this call began the transaction or joined it: `Transaction` hands the rollback
failure to `LogErr` in a message of its own, and then returns the business function's result
value with what `LogErr` answers to the message built from the business error alone; the
rollback failure is no part of that message. -/
theorem Transaction_logs_rollback_failure (env : Env) (ctx ctx1 : Option Context)
    (work : WorkFn) (w w1 w2 w3 w4 : World) (p : ConnPtr) (info : GoValue)
    (err rbErr : GoError)
    (hentry : checkDBConn env ctx false 1 w = ((ctx1, some p, none), w1))
    (hbegin : ((w1.heap p).tx ≠ none ∧ w2 = w1) ∨
      ((w1.heap p).tx = none ∧ beginTx env p ctx1 w1 = (Outcome.ret none, w2)))
    (hwork : work ctx1 w2 = (Outcome.ret (info, some err), w3))
    (hrb : rollback env p w3 = (some rbErr, w4)) :
    (Transaction env ctx work w).1
      = Outcome.ret (info,
          (callLogErr env ("Transaction-->doTransaction业务执行异常: " ++ err.Error)
            (callLogErr env ("Transaction-->rollback事务回滚失败 " ++ rbErr.Error) w4).2).1) ∧
    (Transaction env ctx work w).2
      = (callLogErr env ("Transaction-->doTransaction业务执行异常: " ++ err.Error)
          (callLogErr env ("Transaction-->rollback事务回滚失败 " ++ rbErr.Error) w4).2).2 := by
  obtain ⟨localTxOpen, h⟩ := Transaction_entered env ctx ctx1 work w w1 w2 p hentry hbegin
  rw [h]
  simp [runWork, hwork, hrb]

/-- Witness of C26: a non-opener on transaction 7 whose rollback fails. -/
theorem Transaction_logs_rollback_failure_witness :
    (Transaction (errorsEnv rollbackFailsDriver) boundCtx failingWork (handleWorld (some 7))).1
      = Outcome.ret (GoValue.str "r",
          (callLogErr (errorsEnv rollbackFailsDriver)
            ("Transaction-->doTransaction业务执行异常: " ++ (GoError.errorsNew "boom").Error)
            (callLogErr (errorsEnv rollbackFailsDriver)
              ("Transaction-->rollback事务回滚失败 " ++
                (GoError.errorsNew "rollback事务回滚失败: driver: bad connection").Error)
              (rollback (errorsEnv rollbackFailsDriver) 0 (handleWorld (some 7))).2).2).1) :=
  (Transaction_logs_rollback_failure (errorsEnv rollbackFailsDriver) boundCtx boundCtx
    failingWork (handleWorld (some 7)) (handleWorld (some 7)) (handleWorld (some 7))
    (handleWorld (some 7)) (rollback (errorsEnv rollbackFailsDriver) 0 (handleWorld (some 7))).2
    0 (GoValue.str "r") (GoError.errorsNew "boom")
    (GoError.errorsNew "rollback事务回滚失败: driver: bad connection")
    rfl (Or.inl ⟨by decide, rfl⟩) rfl rfl).1

/-! ## Pages -/

theorem wrapInt_of_fits (x : Int) (hlo : -2 ^ 63 ≤ x) (hhi : x < 2 ^ 63) : wrapInt x = x := by
  unfold wrapInt
  norm_num at hlo hhi ⊢
  omega

theorem wrapInt_sub_one (x : Int) : wrapInt (wrapInt x - 1) = wrapInt (x - 1) := by
  unfold wrapInt
  norm_num
  omega

theorem ceil_div_eq (t s : Int) (hs : 0 < s) : (t + s - 1) / s = ⌈(t : ℚ) / (s : ℚ)⌉ := by
  symm
  rw [Int.ceil_eq_iff]
  have hsq : (0 : ℚ) < (s : ℚ) := by exact_mod_cast hs
  have h1 : (t + s - 1) / s * s ≤ t + s - 1 := Int.ediv_mul_le _ (ne_of_gt hs)
  have h2 : t + s - 1 < ((t + s - 1) / s + 1) * s := Int.lt_ediv_add_one_mul_self _ hs
  constructor
  · rw [lt_div_iff₀ hsq]
    have h3 : ((t + s - 1) / s - 1) * s < t := by nlinarith
    exact_mod_cast h3
  · rw [div_le_iff₀ hsq]
    have h3 : t ≤ (t + s - 1) / s * s := by nlinarith
    exact_mod_cast h3

theorem setTotalCount_PageCount (page : Page) (total : Int) (hsize : 0 < page.PageSize)
    (htotal : 0 ≤ total) (hfit : total + page.PageSize - 1 < 2 ^ 63) :
    (page.setTotalCount total).2.PageCount = (total + page.PageSize - 1) / page.PageSize := by
  have hne : page.PageSize ≠ 0 := ne_of_gt hsize
  have hx : wrapInt (wrapInt (total + page.PageSize) - 1) = total + page.PageSize - 1 := by
    rw [wrapInt_sub_one]
    apply wrapInt_of_fits
    · have : (-2 : Int) ^ 63 ≤ 0 := by norm_num
      omega
    · exact hfit
  have hdiv : Int.tdiv (total + page.PageSize - 1) page.PageSize
      = (total + page.PageSize - 1) / page.PageSize :=
    Int.tdiv_eq_ediv (by omega) (by omega)
  have hq0 : 0 ≤ (total + page.PageSize - 1) / page.PageSize :=
    Int.ediv_nonneg (by omega) (by omega)
  have hq1 : (total + page.PageSize - 1) / page.PageSize ≤ total + page.PageSize - 1 :=
    Int.ediv_le_self _ (by omega)
  have hw : wrapInt ((total + page.PageSize - 1) / page.PageSize)
      = (total + page.PageSize - 1) / page.PageSize := by
    apply wrapInt_of_fits
    · have : (-2 : Int) ^ 63 ≤ 0 := by norm_num
      omega
    · omega
  simp only [Page.setTotalCount, hne, if_false]
  split <;> split <;> simp [hx, hdiv, hw]

theorem setTotalCount_PageSize (page : Page) (total : Int) :
    (page.setTotalCount total).2.PageSize = page.PageSize := by
  unfold Page.setTotalCount
  simp only
  split
  · rfl
  · split <;> split <;> rfl

set_option maxRecDepth 100000 in
theorem setTotalCount_max_int :
    NewPage.setTotalCount (2 ^ 63 - 1)
      = (Outcome.ret (),
          { PageNo := 1, PageSize := 20, TotalCount := 9223372036854775807,
            PageCount := -461168601842738789, FirstPage := true, HasPrev := false,
            HasNext := false, LastPage := true }) := by
  decide

set_option maxRecDepth 100000 in
theorem setTotalCount_twice :
    (NewPage.setTotalCount 100).2.setTotalCount 10
      = (Outcome.ret (),
          { PageNo := 1, PageSize := 20, TotalCount := 10, PageCount := 1, FirstPage := true,
            HasPrev := false, HasNext := true, LastPage := true }) := by
  decide

/-- C29 (counterexample). On the page of `NewPage` and the total 9223372036854775807, the
largest `int`, the sum `TotalCount + PageSize - 1` overflows: `PageCount` becomes negative,
not the ceiling of `total / PageSize`, and `LastPage` is set on a first page of many. -/
theorem setTotalCount_overflows :
    (NewPage.setTotalCount (2 ^ 63 - 1)).2.PageCount = -461168601842738789 ∧
    (NewPage.setTotalCount (2 ^ 63 - 1)).2.PageCount
      ≠ ⌈(((2 : Int) ^ 63 - 1 : Int) : ℚ) / ((NewPage.PageSize : Int) : ℚ)⌉ ∧
    (NewPage.setTotalCount (2 ^ 63 - 1)).2.LastPage = true ∧
    (NewPage.setTotalCount (2 ^ 63 - 1)).2.HasNext = false := by
  rw [setTotalCount_max_int]
  refine ⟨rfl, ?_, rfl, rfl⟩
  have h : (0 : Int) ≤ ⌈(((2 : Int) ^ 63 - 1 : Int) : ℚ) / ((NewPage.PageSize : Int) : ℚ)⌉ := by
    apply Int.ceil_nonneg
    apply div_nonneg
    · norm_num
    · norm_num [NewPage]
  intro heq
  rw [← heq] at h
  norm_num at h

/-- C29 (amended). For a page with `PageSize > 0` and all four flags false, and every total
`>= 0` for which `total + PageSize - 1` is still an `int` (below 2^63): `setTotalCount`
returns, sets `TotalCount` to the total and `PageCount` to the ceiling of
`total / PageSize`, sets `LastPage` exactly when `PageNo >= PageCount` and `HasNext`
otherwise, sets `HasPrev` exactly when `PageNo > 1` and `FirstPage` otherwise, and leaves
`PageNo` and `PageSize` as they were. -/
theorem setTotalCount_fresh_page (page : Page) (total : Int)
    (hsize : 0 < page.PageSize)
    (hfirst : page.FirstPage = false) (hprev : page.HasPrev = false)
    (hnext : page.HasNext = false) (hlast : page.LastPage = false)
    (htotal : 0 ≤ total) (hfit : total + page.PageSize - 1 < 2 ^ 63) :
    (page.setTotalCount total).1 = Outcome.ret () ∧
    (page.setTotalCount total).2.TotalCount = total ∧
    (page.setTotalCount total).2.PageCount = ⌈(total : ℚ) / (page.PageSize : ℚ)⌉ ∧
    ((page.setTotalCount total).2.LastPage = true
      ↔ page.PageNo ≥ (page.setTotalCount total).2.PageCount) ∧
    ((page.setTotalCount total).2.HasNext = true
      ↔ ¬ page.PageNo ≥ (page.setTotalCount total).2.PageCount) ∧
    ((page.setTotalCount total).2.HasPrev = true ↔ page.PageNo > 1) ∧
    ((page.setTotalCount total).2.FirstPage = true ↔ ¬ page.PageNo > 1) ∧
    (page.setTotalCount total).2.PageNo = page.PageNo ∧
    (page.setTotalCount total).2.PageSize = page.PageSize := by
  have hne : page.PageSize ≠ 0 := ne_of_gt hsize
  have hpc := setTotalCount_PageCount page total hsize htotal hfit
  refine ⟨?_, ?_, ?_, ?_, ?_, ?_, ?_, ?_, ?_⟩
  · simp [Page.setTotalCount, hne]
  · simp only [Page.setTotalCount, hne, if_false]
    split <;> split <;> rfl
  · rw [hpc]
    exact ceil_div_eq total page.PageSize hsize
  · simp only [Page.setTotalCount, hne, if_false]
    split <;> split <;> simp_all
  · simp only [Page.setTotalCount, hne, if_false]
    split <;> split <;> simp_all
  · simp only [Page.setTotalCount, hne, if_false]
    split <;> split <;> simp_all
  · simp only [Page.setTotalCount, hne, if_false]
    split <;> split <;> simp_all
  · simp only [Page.setTotalCount, hne, if_false]
    split <;> split <;> rfl
  · simp only [Page.setTotalCount, hne, if_false]
    split <;> split <;> rfl

/-- Witness of C29: 101 rows on the page of `NewPage` make 6 pages. -/
theorem setTotalCount_fresh_page_witness :
    (NewPage.setTotalCount 101).2.TotalCount = 101 ∧
    (NewPage.setTotalCount 101).2.PageCount = ⌈((101 : Int) : ℚ) / ((NewPage.PageSize : Int) : ℚ)⌉ ∧
    ((NewPage.setTotalCount 101).2.HasNext = true
      ↔ ¬ NewPage.PageNo ≥ (NewPage.setTotalCount 101).2.PageCount) ∧
    ((NewPage.setTotalCount 101).2.FirstPage = true ↔ ¬ NewPage.PageNo > 1) :=
  have h := setTotalCount_fresh_page NewPage 101 (by decide) rfl rfl rfl rfl (by decide)
    (by decide)
  ⟨h.2.1, h.2.2.1, h.2.2.2.2.1, h.2.2.2.2.2.2.1⟩

/-- C30 (the code at the failing input). A second call on the same page: after
`setTotalCount(100)` the page of `NewPage` has `HasNext`; `setTotalCount(10)` then sets
`LastPage` and does not clear `HasNext`, so both are true. -/
theorem repeated_setTotalCount_sets_both_flags :
    0 < (NewPage.setTotalCount 100).2.PageSize ∧
    ((NewPage.setTotalCount 100).2.setTotalCount 10).1 = Outcome.ret () ∧
    ((NewPage.setTotalCount 100).2.setTotalCount 10).2.HasNext = true ∧
    ((NewPage.setTotalCount 100).2.setTotalCount 10).2.LastPage = true := by
  rw [setTotalCount_twice, setTotalCount_PageSize]
  exact ⟨by decide, rfl, rfl, rfl⟩

/-- The flags after `setTotalCount`, for every page with `PageSize > 0` and every total:
the call returns and afterwards at least one of `HasNext` and `LastPage` and at least one of
`HasPrev` and `FirstPage` is true; a flag that was true before the call is still true after
it; and when both flags of a pair were false before the call, exactly one of them is true
after it. -/
theorem setTotalCount_flags (page : Page) (total : Int) (hsize : 0 < page.PageSize) :
    (page.setTotalCount total).1 = Outcome.ret () ∧
    ((page.setTotalCount total).2.HasNext = true
      ∨ (page.setTotalCount total).2.LastPage = true) ∧
    ((page.setTotalCount total).2.HasPrev = true
      ∨ (page.setTotalCount total).2.FirstPage = true) ∧
    (page.HasNext = true → (page.setTotalCount total).2.HasNext = true) ∧
    (page.LastPage = true → (page.setTotalCount total).2.LastPage = true) ∧
    (page.HasPrev = true → (page.setTotalCount total).2.HasPrev = true) ∧
    (page.FirstPage = true → (page.setTotalCount total).2.FirstPage = true) ∧
    (page.HasNext = false → page.LastPage = false →
      (page.setTotalCount total).2.HasNext = !(page.setTotalCount total).2.LastPage) ∧
    (page.HasPrev = false → page.FirstPage = false →
      (page.setTotalCount total).2.HasPrev = !(page.setTotalCount total).2.FirstPage) := by
  have hne : page.PageSize ≠ 0 := ne_of_gt hsize
  simp only [Page.setTotalCount, hne, if_false]
  refine ⟨trivial, ?_, ?_, ?_, ?_, ?_, ?_, ?_, ?_⟩ <;> split <;> split <;> simp_all

/-- The first call on the page of `NewPage` sets exactly one flag of each pair. -/
theorem setTotalCount_flags_first_call :
    (NewPage.setTotalCount 100).2.HasNext = !(NewPage.setTotalCount 100).2.LastPage ∧
    (NewPage.setTotalCount 100).2.HasPrev = !(NewPage.setTotalCount 100).2.FirstPage :=
  have h := setTotalCount_flags NewPage 100 (by decide)
  ⟨h.2.2.2.2.2.2.2.1 rfl rfl, h.2.2.2.2.2.2.2.2 rfl rfl⟩

/-! ## QueryRowMap -/

/-- C27. When the `QueryMap` call inside `QueryRowMap` succeeds with the row list `L`,
`QueryRowMap` returns `(nil, nil)` for an empty `L`, `(L[0], nil)` for a single row and
`(L[0], err)` with a non-nil error for more rows, in the world `QueryMap` left. A nil finder
returns `(nil, err)` with a non-nil error and the world as it was, so nothing was queried. -/
theorem QueryRowMap_rows (env : Env) (lib : Lib) (qlib : QueryLib) (ctx : Option Context)
    (f : Finder) (w w1 : World) (L : List RowMap) (pg : Option Page)
    (hquery : QueryMap env lib (fun c g v => selectCount env lib qlib c (some g) v) ctx (some f)
      none w = (Outcome.ret (some L, none), pg, w1)) :
    (L = [] → QueryRowMap env lib qlib ctx (some f) w = (Outcome.ret (none, none), w1)) ∧
    (∀ m, L = [m] →
      QueryRowMap env lib qlib ctx (some f) w = (Outcome.ret (some m, none), w1)) ∧
    (∀ m m1 rest, L = m :: m1 :: rest →
      QueryRowMap env lib qlib ctx (some f) w
        = (Outcome.ret (some m, some errManyMaps), w1)) ∧
    QueryRowMap env lib qlib ctx none w
      = (Outcome.ret (none, some (GoError.errorsNew "QueryRowMap-->finder参数不能为nil")), w) ∧
    (QueryRowMap env lib qlib ctx none w).2.trace = w.trace := by
  refine ⟨?_, ?_, ?_, rfl, rfl⟩
  · intro hL
    subst hL
    simp [QueryRowMap, hquery]
  · intro m hL
    subst hL
    simp [QueryRowMap, hquery]
  · intro m m1 rest hL
    subst hL
    simp [QueryRowMap, hquery]

/-- Witness of C27: a query that answers two rows. -/
theorem QueryRowMap_rows_witness :
    QueryRowMap (defaultEnv (rowsDriver twoRowsTwoColumns)) lib0 qlib0 boundCtx
        (some selectFinder) (handleWorld none)
      = (Outcome.ret (some [("a", GoValue.int 1), ("b", GoValue.str "x")], some errManyMaps),
          (QueryMap (defaultEnv (rowsDriver twoRowsTwoColumns)) lib0
            (fun c g v =>
              selectCount (defaultEnv (rowsDriver twoRowsTwoColumns)) lib0 qlib0 c (some g) v)
            boundCtx (some selectFinder) none (handleWorld none)).2.2) :=
  (QueryRowMap_rows (defaultEnv (rowsDriver twoRowsTwoColumns)) lib0 qlib0 boundCtx
    selectFinder (handleWorld none) _
    [[("a", GoValue.int 1), ("b", GoValue.str "x")], [("a", GoValue.int 2), ("b", GoValue.str "y")]]
    none rfl).2.2.1 _ _ _ rfl

/-! ## The builder -/

theorem formatInt_eq_toString (i : Int) : formatInt i = (toString i).data.map Char.toUInt8 := by
  cases i <;> rfl

theorem copyCheck_same_receiver (self : Nat) (b : SQLBuilder)
    (haddr : b.addr = none ∨ b.addr = some self) :
    b.copyCheck self = Outcome.ret { b with addr := some self } := by
  rcases haddr with h | h
  · simp [SQLBuilder.copyCheck, h]
  · cases b
    simp at h
    simp [SQLBuilder.copyCheck, h]

theorem runWrites_same_receiver (self : Nat) (ops : List BuilderWrite) (b : SQLBuilder)
    (haddr : b.addr = none ∨ b.addr = some self) :
    runWrites self ops b
      = Outcome.ret { addr := if ops.isEmpty then b.addr else some self,
                      buf := b.buf ++ (ops.map BuilderWrite.bytes).flatten } := by
  induction ops generalizing b with
  | nil => simp [runWrites]
  | cons op rest ih =>
    have hcheck := copyCheck_same_receiver self b haddr
    have hrun : op.run self b
        = Outcome.ret { addr := some self, buf := b.buf ++ op.bytes } := by
      cases op <;>
        simp [BuilderWrite.run, SQLBuilder.Write, SQLBuilder.WriteByte, SQLBuilder.WriteString,
          SQLBuilder.WriteInt, hcheck, BuilderWrite.bytes, formatInt_eq_toString]
    simp only [runWrites, hrun]
    rw [ih _ (Or.inr rfl)]
    simp

theorem RemoveEnd_same_receiver (self : Nat) (b : SQLBuilder)
    (haddr : b.addr = none ∨ b.addr = some self) (i : Int) :
    b.RemoveEnd self i
      = if 0 ≤ i ∧ i ≤ b.buf.length then
          Outcome.ret { addr := some self, buf := b.buf.take (b.buf.length - i.toNat) }
        else Outcome.panic sliceOutOfRange := by
  simp [SQLBuilder.RemoveEnd, copyCheck_same_receiver self b haddr]

theorem RemoveEnd_drops (self : Nat) (b : SQLBuilder)
    (haddr : b.addr = none ∨ b.addr = some self) (i : Int) (h0 : 0 ≤ i) (hlen : i ≤ b.Len) :
    ∃ b1 dropped, b.RemoveEnd self i = Outcome.ret b1 ∧
      b.String = b1.String ++ dropped ∧ (dropped.length : Int) = i := by
  refine ⟨{ addr := some self, buf := b.buf.take (b.buf.length - i.toNat) },
    b.buf.drop (b.buf.length - i.toNat), ?_, ?_, ?_⟩
  · rw [RemoveEnd_same_receiver self b haddr, if_pos ⟨h0, hlen⟩]
  · simp [SQLBuilder.String]
  · simp only [SQLBuilder.Len] at hlen
    rw [List.length_drop]
    omega

theorem RemoveEnd_faults (self : Nat) (b : SQLBuilder)
    (haddr : b.addr = none ∨ b.addr = some self) (i : Int) (hlen : i > b.Len) :
    b.RemoveEnd self i = Outcome.panic sliceOutOfRange := by
  rw [RemoveEnd_same_receiver self b haddr, if_neg]
  simp only [SQLBuilder.Len] at hlen
  omega

/-- C28. For every sequence of `Write`, `WriteByte`, `WriteString` and `WriteInt` calls on
a zero-value `SQLBuilder` (all on the same receiver) the calls return and afterwards:
`String()` is the concatenation, in call order, of the written bytes, where `WriteInt`
contributes the base-10 text of the integer, which for a negative integer is a `-` before
the text of its absolute value; `Len()` is the length of `String()`; `RemoveEnd(i)` with
`0 <= i <= Len()` returns and leaves `String()` without its last `i` bytes; and
`RemoveEnd(i)` with `i > Len()` panics. -/
theorem SQLBuilder_writes (self : Nat) (ops : List BuilderWrite) :
    ∃ b, runWrites self ops SQLBuilder.zero = Outcome.ret b ∧
      b.String = (ops.map BuilderWrite.bytes).flatten ∧
      (∀ i : Int, i < 0 →
        BuilderWrite.bytes (BuilderWrite.WriteInt i)
          = '-'.toUInt8 :: BuilderWrite.bytes (BuilderWrite.WriteInt (-i))) ∧
      b.Len = b.String.length ∧
      (∀ i : Int, 0 ≤ i → i ≤ b.Len →
        ∃ b1 dropped, b.RemoveEnd self i = Outcome.ret b1 ∧
          b.String = b1.String ++ dropped ∧ (dropped.length : Int) = i) ∧
      (∀ i : Int, i > b.Len → ∃ v, b.RemoveEnd self i = Outcome.panic v) := by
  refine ⟨_, runWrites_same_receiver self ops SQLBuilder.zero (Or.inl rfl), ?_, ?_, rfl, ?_, ?_⟩
  · simp [SQLBuilder.String, SQLBuilder.zero]
  · intro i hi
    cases i with
    | ofNat n => exact absurd hi (by simp)
    | negSucc n => rfl
  · intro i h0 hlen
    exact RemoveEnd_drops self _ (by cases ops <;> simp [SQLBuilder.zero]) i h0 hlen
  · intro i hlen
    exact ⟨sliceOutOfRange,
      RemoveEnd_faults self _ (by cases ops <;> simp [SQLBuilder.zero]) i hlen⟩

/-- Witness of C28: four writes on a zero-value builder. -/
theorem SQLBuilder_writes_witness :
    ∃ b, runWrites 0
        [BuilderWrite.WriteString [97, 98], BuilderWrite.WriteInt (-12),
         BuilderWrite.WriteByte 44, BuilderWrite.Write [1, 2]] SQLBuilder.zero = Outcome.ret b ∧
      b.String = [97, 98, 45, 49, 50, 44, 1, 2] :=
  match SQLBuilder_writes 0
      [BuilderWrite.WriteString [97, 98], BuilderWrite.WriteInt (-12),
       BuilderWrite.WriteByte 44, BuilderWrite.Write [1, 2]] with
  | ⟨b, hrun, hstr, _⟩ => ⟨b, hrun, hstr.trans (by decide)⟩

/-! ## Opening a database -/

/-- C25 (the code at the failing input). With the package as shipped (`LogErr = logErr`) and
a log writer that succeeds: when `sql.Open` fails, and when `Ping` fails, `newDataSource`
returns `nil, nil`, and `NewDao` then builds a dao without data source, registers it as the
default dao and returns it with a nil error; for a nil config, an empty `DriverName`, an
empty `DBType` and an empty `DSN` without `SQLDB`, `newDataSource` does return its error,
and `NewDao` returns `nil, nil`. -/
theorem NewDao_drops_open_failure :
    (newDataSource (defaultEnv okDriver) closedOpener (some cfg0) startWorld).1 = (none, none) ∧
    (NewDao (defaultEnv okDriver) closedOpener (some cfg0) startWorld).1
      = (some { config := some cfg0, dataSource := none }, none) ∧
    (NewDao (defaultEnv okDriver) closedOpener (some cfg0) startWorld).2.2.defaultDao
      = some { config := some cfg0, dataSource := none } ∧
    (newDataSource (defaultEnv okDriver) unreachableOpener (some cfg0) startWorld).1
      = (none, none) ∧
    (NewDao (defaultEnv okDriver) unreachableOpener (some cfg0) startWorld).1
      = (some { config := some cfg0, dataSource := none }, none) ∧
    (NewDao (defaultEnv okDriver) unreachableOpener (some cfg0) startWorld).2.2.defaultDao
      = some { config := some cfg0, dataSource := none } ∧
    (newDataSource (defaultEnv okDriver) okOpener none startWorld).1
      = (none, some (GoError.errorsNew "config cannot be nil")) ∧
    (NewDao (defaultEnv okDriver) okOpener none startWorld).1 = (none, none) ∧
    (NewDao (defaultEnv okDriver) okOpener none startWorld).2.2.logged
      = ["NewDao创建dataSource失败: config cannot be nil"] ∧
    (newDataSource (defaultEnv okDriver) okOpener (some { cfg0 with DriverName := "" })
        startWorld).1 = (none, some (GoError.errorsNew "DriverName cannot be empty")) ∧
    (NewDao (defaultEnv okDriver) okOpener (some { cfg0 with DriverName := "" })
        startWorld).1 = (none, none) ∧
    (newDataSource (defaultEnv okDriver) okOpener (some { cfg0 with DBType := "" })
        startWorld).1 = (none, some (GoError.errorsNew "DBType cannot be empty")) ∧
    (NewDao (defaultEnv okDriver) okOpener (some { cfg0 with DBType := "" })
        startWorld).1 = (none, none) ∧
    (newDataSource (defaultEnv okDriver) okOpener (some { cfg0 with DSN := "" })
        startWorld).1 = (none, some (GoError.errorsNew "DSN cannot be empty")) ∧
    (NewDao (defaultEnv okDriver) okOpener (some { cfg0 with DSN := "" })
        startWorld).1 = (none, none) := by
  decide

/-! ## Insert -/

/-- C24 (the code at the failing input). With the package as shipped and a log writer that
succeeds, an `Insert` inside transaction 7 whose statement the driver refuses returns -1
with a nil error, on mysql (the driver's exec fails) and on postgresql (the `RETURNING`
scan fails): the statement was sent, and its failure is found in the log only. -/
theorem Insert_drops_exec_failure :
    (Insert (defaultEnv execFailsDriver) lib0 ilib0 boundCtx (some userEntity)
        (dialectWorld "mysql")).1 = Outcome.ret (-1, none) ∧
    (Insert (defaultEnv execFailsDriver) lib0 ilib0 boundCtx (some userEntity)
        (dialectWorld "mysql")).2.2.trace
      = [Event.driverExec (some 7) (some 0)
          { sql := "INSERT INTO t (name) VALUES (?)", args := [GoValue.str "ann"] }] ∧
    (Insert (defaultEnv execFailsDriver) lib0 ilib0 boundCtx (some userEntity)
        (dialectWorld "mysql")).2.2.logged
      = ["Insert-->wrapExecUpdateValuesAffected执行保存错误 driver: bad connection"] ∧
    (Insert (defaultEnv execFailsDriver) lib0 ilib0 boundCtx (some userEntity)
        (dialectWorld "postgresql")).1 = Outcome.ret (-1, none) ∧
    (Insert (defaultEnv execFailsDriver) lib0 ilib0 boundCtx (some userEntity)
        (dialectWorld "postgresql")).2.2.trace
      = [Event.driverQueryRow (some 7) (some 0)
          { sql := "INSERT INTO t (name) VALUES (?) RETURNING id",
            args := [GoValue.str "ann"] }] := by
  decide

theorem execCtx_open (env : Env) (p : ConnPtr) (stmt : Statement) (w : World) (db : DBId)
    (tx : TxId) (cfg : DBConfig) (hdb : (w.heap p).db = some db) (htx : (w.heap p).tx = some tx)
    (hcfg : (w.heap p).cfg = some cfg) :
    (execCtx env p stmt w).1
      = Outcome.ret (match env.driver.Exec w.trace stmt with
          | .ok r => (some r, none)
          | .error e => (none, some e)) ∧
    (execCtx env p stmt w).2.trace = w.trace ++ [Event.driverExec (some tx) (some db) stmt] ∧
    (execCtx env p stmt w).2.heap = w.heap := by
  unfold execCtx
  by_cases hshow : cfg.ShowSQL = true <;>
    simp [hcfg, hshow, callLogSQL, htx, hdb, World.emit]

theorem queryRowCtx_open (env : Env) (p : ConnPtr) (stmt : Statement) (w : World) (db : DBId)
    (tx : TxId) (cfg : DBConfig) (hdb : (w.heap p).db = some db) (htx : (w.heap p).tx = some tx)
    (hcfg : (w.heap p).cfg = some cfg) :
    (queryRowCtx env p stmt w).1 = Outcome.ret (env.driver.QueryRowScan w.trace stmt) ∧
    (queryRowCtx env p stmt w).2.trace
      = w.trace ++ [Event.driverQueryRow (some tx) (some db) stmt] ∧
    (queryRowCtx env p stmt w).2.heap = w.heap := by
  unfold queryRowCtx
  by_cases hshow : cfg.ShowSQL = true <;>
    simp [hcfg, hshow, callLogSQL, htx, hdb, World.emit]

theorem insertReadBack_trace (env : Env) (lib : Lib) (ilib : InsertLib) (entity : Entity)
    (autoIncrement : Int) (pkType : String) (affected : Int) (res : Option (Option SqlResult))
    (lastInsertID outID : Option Int) (w : World) :
    (insertReadBack env lib ilib entity autoIncrement pkType affected res lastInsertID outID
      w).2.2.trace = w.trace := by
  unfold insertReadBack
  split
  · simp only
    repeat' split
    all_goals rfl
  · rfl

theorem wrapExec_open (env : Env) (lib : Lib) (ctx : Option Context) (affected : Int)
    (sqlStr sqlStr1 : String) (values : List GoValue) (lastInsertID : Option Int) (w : World)
    (p : ConnPtr) (db : DBId) (tx : TxId) (cfg : DBConfig)
    (hconn : getDBConn ctx = (some p, none))
    (hdb : (w.heap p).db = some db) (htx : (w.heap p).tx = some tx)
    (hcfg : (w.heap p).cfg = some cfg)
    (hre : lib.reUpdateFinderSQL cfg.Driver sqlStr = (sqlStr1, none)) :
    wrapExecUpdateValuesAffected env lib ctx affected sqlStr values lastInsertID w
      = match lastInsertID with
        | some _ =>
          match queryRowCtx env p { sql := sqlStr1, args := values } w with
          | (.panic v, w2) => (.panic v, w2)
          | (.ret (.ok id), w2) =>
            (.ret { res := none, err := none, affected := 1, lastInsertID := some id }, w2)
          | (.ret (.error err), w2) =>
            (.ret { res := none, err := some err, affected := affected,
                    lastInsertID := lastInsertID }, w2)
        | none =>
          match execCtx env p { sql := sqlStr1, args := values } w with
          | (.panic v, w2) => (.panic v, w2)
          | (.ret (res, some err), w2) =>
            (.ret { res := some res, err := some err, affected := affected,
                    lastInsertID := none }, w2)
          | (.ret (none, none), w2) => (.panic nilDeref, w2)
          | (.ret (some r, none), w2) =>
            match r.RowsAffected with
            | .ok rowsAffected =>
              (.ret { res := some (some r), err := (lib.typeConvertInt64toInt rowsAffected).2,
                      affected := (lib.typeConvertInt64toInt rowsAffected).1,
                      lastInsertID := none }, w2)
            | .error _ =>
              (.ret { res := some (some r), err := none, affected := -1, lastInsertID := none },
                w2) := by
  unfold wrapExecUpdateValuesAffected
  rw [checkDBConn_bound env ctx true 1 w p hconn]
  simp [hdb, htx, hcfg, hre]

theorem wrapExec_open_trace (env : Env) (lib : Lib) (ctx : Option Context) (affected : Int)
    (sqlStr sqlStr1 : String) (values : List GoValue) (lastInsertID : Option Int) (w : World)
    (p : ConnPtr) (db : DBId) (tx : TxId) (cfg : DBConfig)
    (hconn : getDBConn ctx = (some p, none))
    (hdb : (w.heap p).db = some db) (htx : (w.heap p).tx = some tx)
    (hcfg : (w.heap p).cfg = some cfg)
    (hre : lib.reUpdateFinderSQL cfg.Driver sqlStr = (sqlStr1, none)) :
    (wrapExecUpdateValuesAffected env lib ctx affected sqlStr values lastInsertID w).2.trace
      = w.trace ++ [match lastInsertID with
          | some _ => Event.driverQueryRow (some tx) (some db) { sql := sqlStr1, args := values }
          | none => Event.driverExec (some tx) (some db) { sql := sqlStr1, args := values }] := by
  rw [wrapExec_open env lib ctx affected sqlStr sqlStr1 values lastInsertID w p db tx cfg hconn
    hdb htx hcfg hre]
  cases lastInsertID with
  | some l =>
    have h := (queryRowCtx_open env p { sql := sqlStr1, args := values } w db tx cfg hdb htx
      hcfg).2.1
    simp only
    split <;> simp_all
  | none =>
    have h := (execCtx_open env p { sql := sqlStr1, args := values } w db tx cfg hdb htx
      hcfg).2.1
    simp only
    split
    · simp_all
    · simp_all
    · simp_all
    · split <;> simp_all

theorem Insert_bound (env : Env) (lib : Lib) (ilib : InsertLib) (ctx : Option Context)
    (e : Entity) (w : World) (p : ConnPtr) (db : DBId) (cfg : DBConfig)
    (columns : List String) (values values1 : List GoValue) (sqlStr pkType : String)
    (autoIncrement : Int)
    (hcols : ilib.columnAndValue e = (columns, values, none)) (hlen : 1 ≤ columns.length)
    (hconn : getDBConn ctx = (some p, none))
    (hdb : (w.heap p).db = some db) (hcfg : (w.heap p).cfg = some cfg)
    (hsql : ilib.wrapInsertSQL cfg.Driver e columns values
      = (sqlStr, values1, autoIncrement, pkType, none)) :
    Insert env lib ilib ctx (some e) w
      = match wrapExecUpdateValuesAffected env lib ctx (-1)
            (insertExecArgs cfg.Driver (ilib.PK e) sqlStr values1 autoIncrement).1
            (insertExecArgs cfg.Driver (ilib.PK e) sqlStr values1 autoIncrement).2.1
            (insertExecArgs cfg.Driver (ilib.PK e) sqlStr values1 autoIncrement).2.2.1 w with
        | (.panic v, w1) => (.panic v, some e, w1)
        | (.ret out, w1) =>
          match out.err with
          | some execErr =>
            let r := callLogErr env
              ("Insert-->wrapExecUpdateValuesAffected执行保存错误 " ++ execErr.Error) w1
            (.ret (out.affected, r.1), some e, r.2)
          | none =>
            let r := insertReadBack env lib ilib e autoIncrement pkType out.affected
              out.res out.lastInsertID
              ((insertExecArgs cfg.Driver (ilib.PK e) sqlStr values1
                autoIncrement).2.2.2.map (fun _ => ilib.outValue w1.trace)) w1
            (r.1, some r.2.1, r.2.2) := by
  have hlen1 : ¬ columns.length < 1 := by omega
  simp [Insert, hcols, hlen1, hconn, isFabricated, hdb, resolveDriver, hcfg, hsql]

theorem Insert_bound_trace (env : Env) (lib : Lib) (ilib : InsertLib) (ctx : Option Context)
    (e : Entity) (w : World) (p : ConnPtr) (db : DBId) (cfg : DBConfig)
    (columns : List String) (values values1 : List GoValue) (sqlStr pkType : String)
    (autoIncrement : Int)
    (hcols : ilib.columnAndValue e = (columns, values, none)) (hlen : 1 ≤ columns.length)
    (hconn : getDBConn ctx = (some p, none))
    (hdb : (w.heap p).db = some db) (hcfg : (w.heap p).cfg = some cfg)
    (hsql : ilib.wrapInsertSQL cfg.Driver e columns values
      = (sqlStr, values1, autoIncrement, pkType, none)) :
    (Insert env lib ilib ctx (some e) w).2.2.trace
      = (wrapExecUpdateValuesAffected env lib ctx (-1)
            (insertExecArgs cfg.Driver (ilib.PK e) sqlStr values1 autoIncrement).1
            (insertExecArgs cfg.Driver (ilib.PK e) sqlStr values1 autoIncrement).2.1
            (insertExecArgs cfg.Driver (ilib.PK e) sqlStr values1 autoIncrement).2.2.1
            w).2.trace := by
  rw [Insert_bound env lib ilib ctx e w p db cfg columns values values1 sqlStr pkType
    autoIncrement hcols hlen hconn hdb hcfg hsql]
  split
  · rename_i h
    rw [h]
  · rename_i out w1 h
    rw [h]
    simp only
    split
    · rfl
    · exact insertReadBack_trace _ _ _ _ _ _ _ _ _ _ _

theorem insertReadBack_returned (env : Env) (lib : Lib) (ilib : InsertLib) (e : Entity)
    (autoIncrement : Int) (pkType : String) (affected : Int) (res : Option (Option SqlResult))
    (id : Int) (outID : Option Int) (w : World) (key : GoValue) (hauto : 0 < autoIncrement)
    (hkey : (pkType = "int64" ∧ key = GoValue.int id) ∨
      (pkType = "int" ∧ key = GoValue.int (lib.typeConvertInt64toInt id).1))
    (hset : (ilib.setFieldValueByColumnName e (ilib.PK e) key).2 = none) :
    insertReadBack env lib ilib e autoIncrement pkType affected res (some id) outID w
      = (Outcome.ret (affected, none), (ilib.setFieldValueByColumnName e (ilib.PK e) key).1,
          w) := by
  have hauto1 : autoIncrement > 0 := hauto
  rcases hkey with ⟨hty, hk⟩ | ⟨hty, hk⟩
  · subst hk
    subst hty
    simp [insertReadBack, hauto1, hset]
  · subst hk
    subst hty
    simp [insertReadBack, hauto1, hset]

/-- C22. For an `Insert` of an entity whose columns, values and insert statement are built
without error and whose key is auto-increment, on a context bound to a handle inside a
transaction. On `postgresql` the statement sent to the driver is the built insert followed
by `" RETURNING "` and the entity's key column (as `reUpdateFinderSQL` renders it for the
dialect), sent as a row query with the built values; when its scan answers an id and the
key's type is `int64` or `int`, `Insert` returns 1 affected row with a nil error and the
entity with that id (converted to `int` for an `int` key) set on its key column. On `oracle`
the statement gains `" RETURNING <pk> INTO :grmSQLOutReturningID "` and is executed with
the built values followed by one output-bound parameter. On every other dialect the built
statement is executed with the built values. -/
theorem Insert_auto_increment (env : Env) (lib : Lib) (ilib : InsertLib)
    (ctx : Option Context) (e : Entity) (w : World) (p : ConnPtr) (db : DBId) (tx : TxId)
    (cfg : DBConfig) (columns : List String) (values values1 : List GoValue)
    (sqlStr pkType : String) (autoIncrement : Int)
    (hcols : ilib.columnAndValue e = (columns, values, none)) (hlen : 1 ≤ columns.length)
    (hconn : getDBConn ctx = (some p, none))
    (hdb : (w.heap p).db = some db) (htx : (w.heap p).tx = some tx)
    (hcfg : (w.heap p).cfg = some cfg)
    (hsql : ilib.wrapInsertSQL cfg.Driver e columns values
      = (sqlStr, values1, autoIncrement, pkType, none))
    (hauto : 0 < autoIncrement) :
    (cfg.Driver = "postgresql" → ∀ sqlStr1,
      lib.reUpdateFinderSQL cfg.Driver (sqlStr ++ " RETURNING " ++ ilib.PK e)
        = (sqlStr1, none) →
      (Insert env lib ilib ctx (some e) w).2.2.trace
        = w.trace ++ [Event.driverQueryRow (some tx) (some db)
            { sql := sqlStr1, args := values1 }] ∧
      ∀ id key,
        env.driver.QueryRowScan w.trace { sql := sqlStr1, args := values1 } = Except.ok id →
        ((pkType = "int64" ∧ key = GoValue.int id) ∨
          (pkType = "int" ∧ key = GoValue.int (lib.typeConvertInt64toInt id).1)) →
        (ilib.setFieldValueByColumnName e (ilib.PK e) key).2 = none →
        (Insert env lib ilib ctx (some e) w).1 = Outcome.ret (1, none) ∧
        (Insert env lib ilib ctx (some e) w).2.1
          = some (ilib.setFieldValueByColumnName e (ilib.PK e) key).1) ∧
    (cfg.Driver = "oracle" → ∀ sqlStr1,
      lib.reUpdateFinderSQL cfg.Driver
          (sqlStr ++ " RETURNING " ++ ilib.PK e ++ " INTO :grmSQLOutReturningID ")
        = (sqlStr1, none) →
      (Insert env lib ilib ctx (some e) w).2.2.trace
        = w.trace ++ [Event.driverExec (some tx) (some db)
            { sql := sqlStr1, args := values1 ++ [grmSQLOutReturningID] }]) ∧
    (cfg.Driver ≠ "postgresql" → cfg.Driver ≠ "oracle" → ∀ sqlStr1,
      lib.reUpdateFinderSQL cfg.Driver sqlStr = (sqlStr1, none) →
      (Insert env lib ilib ctx (some e) w).2.2.trace
        = w.trace ++ [Event.driverExec (some tx) (some db)
            { sql := sqlStr1, args := values1 }]) := by
  have hauto1 : autoIncrement > 0 := hauto
  have htrace := Insert_bound_trace env lib ilib ctx e w p db cfg columns values values1 sqlStr
    pkType autoIncrement hcols hlen hconn hdb hcfg hsql
  have hbound := Insert_bound env lib ilib ctx e w p db cfg columns values values1 sqlStr
    pkType autoIncrement hcols hlen hconn hdb hcfg hsql
  refine ⟨?_, ?_, ?_⟩
  · intro hpg sqlStr1 hre
    have hargs : insertExecArgs cfg.Driver (ilib.PK e) sqlStr values1 autoIncrement
        = (sqlStr ++ " RETURNING " ++ ilib.PK e, values1, some 0, none) := by
      simp [insertExecArgs, hauto1, hpg]
    rw [hargs] at htrace hbound
    refine ⟨?_, ?_⟩
    · rw [htrace, wrapExec_open_trace env lib ctx (-1) _ sqlStr1 values1 (some 0) w p db tx cfg
        hconn hdb htx hcfg hre]
    · intro id key hscan hkey hset
      have hq := queryRowCtx_open env p { sql := sqlStr1, args := values1 } w db tx cfg hdb htx
        hcfg
      rw [hscan] at hq
      rcases hqr : queryRowCtx env p { sql := sqlStr1, args := values1 } w with ⟨r, w2⟩
      rw [hqr] at hq
      have hr : r = Outcome.ret (Except.ok id) := hq.1
      subst hr
      rw [wrapExec_open env lib ctx (-1) _ sqlStr1 values1 (some 0) w p db tx cfg hconn hdb htx
        hcfg hre, hqr] at hbound
      simp only at hbound
      rw [hbound]
      simp [insertReadBack_returned env lib ilib e autoIncrement pkType 1 none id _ _ key
        hauto hkey hset]
  · intro hora sqlStr1 hre
    have hargs : insertExecArgs cfg.Driver (ilib.PK e) sqlStr values1 autoIncrement
        = (sqlStr ++ " RETURNING " ++ ilib.PK e ++ " INTO :grmSQLOutReturningID ",
            values1 ++ [grmSQLOutReturningID], none, some 0) := by
      simp [insertExecArgs, hauto1, hora]
    rw [hargs] at htrace
    rw [htrace, wrapExec_open_trace env lib ctx (-1) _ sqlStr1 _ none w p db tx cfg
      hconn hdb htx hcfg hre]
  · intro hpg hora sqlStr1 hre
    have hargs : insertExecArgs cfg.Driver (ilib.PK e) sqlStr values1 autoIncrement
        = (sqlStr, values1, none, none) := by
      simp [insertExecArgs, hpg, hora]
    rw [hargs] at htrace
    rw [htrace, wrapExec_open_trace env lib ctx (-1) _ sqlStr1 _ none w p db tx cfg
      hconn hdb htx hcfg hre]

/-- Witness of C22: an insert of `userEntity` on postgresql, whose scan answers 42. -/
theorem Insert_auto_increment_witness :
    (Insert (defaultEnv idDriver) lib0 ilib0 boundCtx (some userEntity)
        (dialectWorld "postgresql")).2.2.trace
      = (dialectWorld "postgresql").trace ++ [Event.driverQueryRow (some 7) (some 0)
          { sql := "INSERT INTO t (name) VALUES (?) RETURNING id",
            args := [GoValue.str "ann"] }] ∧
    (Insert (defaultEnv idDriver) lib0 ilib0 boundCtx (some userEntity)
        (dialectWorld "postgresql")).1 = Outcome.ret (1, none) ∧
    (Insert (defaultEnv idDriver) lib0 ilib0 boundCtx (some userEntity)
        (dialectWorld "postgresql")).2.1
      = some (ilib0.setFieldValueByColumnName userEntity (ilib0.PK userEntity)
          (GoValue.int 42)).1 :=
  have h := (Insert_auto_increment (defaultEnv idDriver) lib0 ilib0 boundCtx userEntity
    (dialectWorld "postgresql") 0 0 7 (dialectCfg "postgresql") ["id", "name"]
    [GoValue.int 0, GoValue.str "ann"] [GoValue.str "ann"] "INSERT INTO t (name) VALUES (?)"
    "int64" 1 rfl (by decide) rfl rfl rfl rfl rfl (by decide)).1 rfl
    "INSERT INTO t (name) VALUES (?) RETURNING id" rfl
  ⟨h.1, h.2 42 (GoValue.int 42) rfl (Or.inl ⟨rfl, rfl⟩) rfl⟩

/-- C23. For an `Insert` with an auto-increment key on a dialect other than postgresql and
oracle, on a context bound to a handle inside a transaction: when the statement is executed
without error and reports its affected rows, and the driver's `LastInsertId` returns an
error, `Insert` returns the affected-row count with a nil error and the entity as it was;
the failure is handed to `LogErr` and nothing else is sent to the driver. -/
theorem Insert_last_insert_id_unsupported (env : Env) (lib : Lib) (ilib : InsertLib)
    (ctx : Option Context) (e : Entity) (w w1 : World) (p : ConnPtr) (db : DBId) (tx : TxId)
    (cfg : DBConfig) (columns : List String) (values values1 : List GoValue)
    (sqlStr sqlStr1 pkType : String) (autoIncrement rowsAffected : Int) (r : SqlResult)
    (idErr : GoError)
    (hcols : ilib.columnAndValue e = (columns, values, none)) (hlen : 1 ≤ columns.length)
    (hconn : getDBConn ctx = (some p, none))
    (hdb : (w.heap p).db = some db) (htx : (w.heap p).tx = some tx)
    (hcfg : (w.heap p).cfg = some cfg)
    (hsql : ilib.wrapInsertSQL cfg.Driver e columns values
      = (sqlStr, values1, autoIncrement, pkType, none))
    (hauto : 0 < autoIncrement)
    (hpg : cfg.Driver ≠ "postgresql") (hora : cfg.Driver ≠ "oracle")
    (hre : lib.reUpdateFinderSQL cfg.Driver sqlStr = (sqlStr1, none))
    (hexec : execCtx env p { sql := sqlStr1, args := values1 } w
      = (Outcome.ret (some r, none), w1))
    (hrows : r.RowsAffected = Except.ok rowsAffected)
    (hconv : (lib.typeConvertInt64toInt rowsAffected).2 = none)
    (hid : r.LastInsertId = Except.error idErr) :
    (Insert env lib ilib ctx (some e) w).1
      = Outcome.ret ((lib.typeConvertInt64toInt rowsAffected).1, none) ∧
    (Insert env lib ilib ctx (some e) w).2.1 = some e ∧
    (Insert env lib ilib ctx (some e) w).2.2
      = (callLogErr env
          ("Insert-->LastInsertId数据库不支持自增主键,不再赋值给struct属性 " ++ idErr.Error) w1).2 ∧
    (Insert env lib ilib ctx (some e) w).2.2.trace
      = w.trace ++ [Event.driverExec (some tx) (some db)
          { sql := sqlStr1, args := values1 }] := by
  have hauto1 : autoIncrement > 0 := hauto
  have htrace := Insert_bound_trace env lib ilib ctx e w p db cfg columns values values1 sqlStr
    pkType autoIncrement hcols hlen hconn hdb hcfg hsql
  have hbound := Insert_bound env lib ilib ctx e w p db cfg columns values values1 sqlStr
    pkType autoIncrement hcols hlen hconn hdb hcfg hsql
  have hargs : insertExecArgs cfg.Driver (ilib.PK e) sqlStr values1 autoIncrement
      = (sqlStr, values1, none, none) := by
    simp [insertExecArgs, hpg, hora]
  rw [hargs] at htrace hbound
  refine ⟨?_, ?_, ?_, ?_⟩
  · rw [hbound, wrapExec_open env lib ctx (-1) _ sqlStr1 values1 none w p db tx cfg hconn hdb
      htx hcfg hre, hexec]
    simp [hrows, hconv, insertReadBack, hauto1, hid]
  · rw [hbound, wrapExec_open env lib ctx (-1) _ sqlStr1 values1 none w p db tx cfg hconn hdb
      htx hcfg hre, hexec]
    simp [hrows, hconv, insertReadBack, hauto1, hid]
  · rw [hbound, wrapExec_open env lib ctx (-1) _ sqlStr1 values1 none w p db tx cfg hconn hdb
      htx hcfg hre, hexec]
    simp [hrows, hconv, insertReadBack, hauto1, hid]
  · rw [htrace, wrapExec_open_trace env lib ctx (-1) _ sqlStr1 _ none w p db tx cfg
      hconn hdb htx hcfg hre]

/-- Witness of C23: an insert of `userEntity` on mysql with a driver whose results do not
support `LastInsertId`. -/
theorem Insert_last_insert_id_unsupported_witness :
    (Insert (defaultEnv noLastIdDriver) lib0 ilib0 boundCtx (some userEntity)
        (dialectWorld "mysql")).1 = Outcome.ret ((lib0.typeConvertInt64toInt 1).1, none) ∧
    (Insert (defaultEnv noLastIdDriver) lib0 ilib0 boundCtx (some userEntity)
        (dialectWorld "mysql")).2.1 = some userEntity :=
  have h := Insert_last_insert_id_unsupported (defaultEnv noLastIdDriver) lib0 ilib0 boundCtx
    userEntity (dialectWorld "mysql")
    (execCtx (defaultEnv noLastIdDriver) 0
      { sql := "INSERT INTO t (name) VALUES (?)", args := [GoValue.str "ann"] }
      (dialectWorld "mysql")).2
    0 0 7 (dialectCfg "mysql") ["id", "name"]
    [GoValue.int 0, GoValue.str "ann"] [GoValue.str "ann"] "INSERT INTO t (name) VALUES (?)"
    "INSERT INTO t (name) VALUES (?)" "int64" 1 1
    { RowsAffected := Except.ok 1,
      LastInsertId :=
        Except.error (GoError.errorsNew "LastInsertId is not supported by this driver") }
    (GoError.errorsNew "LastInsertId is not supported by this driver")
    rfl (by decide) rfl rfl rfl rfl rfl (by decide) (by decide) (by decide) rfl rfl rfl rfl rfl
  ⟨h.1, h.2.1⟩


end Grm
